import Mathlib

/-! USP connection (`source/core/usp/uspimpl.cpp`).

A shallow embedding of `Connection::Impl`: the URL builder
`ConstructConnectionUrl`, the request-id registry, the send API
(`QueueMessage`, `QueueAudioSegment`, `QueueAudioEnd`) and the transport
callbacks (`OnTransportData`, `OnTransportError`).

Conventions.
* `std::string` is `String`; positions are character indices and
  `std::string::npos` is `none`.
* Every operation on the connection runs under `m_mutex`, so operations are
  atomic steps on the state `Impl`.  What an operation asks of its
  collaborators (transport, telemetry, user callbacks) is recorded, in order,
  in the list of `Call`s of its `Outcome`; what the collaborators answer
  during the operation is the `Env` argument.
* A C++ exception is the `error` of an `Outcome`; the state of an `Outcome`
  with an error is the state at the `throw`.
* The worker loop only drives the transport, whose upcalls are the
  operations `OnTransportData` and `OnTransportError`; user callbacks are
  recorded, not run.
* Constants, enumerations and message types declared in headers that are not
  among the sources (`usp.h`, `uspcommon.h`, `uspmessages.h`) follow the
  specification where it gives them and are parameters where it does not.
-/

namespace USP

/-! ## Configuration -/

/-- Endpoint kinds of the `Client` configuration (§3 of the specification).
`CustomEndpoint` stands for every value that the first `switch` of
`ConstructConnectionUrl` sends to `default:`. -/
inductive EndpointType where
  | Speech
  | Intent
  | Translation
  | CDSDK
  | CustomEndpoint
  deriving DecidableEq, Repr

/-- Recognition modes; the underlying value indexes `g_recoModeStrings`. -/
inductive RecognitionMode where
  | Interactive
  | Conversation
  | Dictation
  deriving DecidableEq, Repr

/-- Output formats; the underlying value indexes `g_outFormatStrings`. -/
inductive OutputFormat where
  | Simple
  | Detailed
  deriving DecidableEq, Repr

/-- Authentication kinds. `Unknown` stands for every value that the `switch`
of `Connect` sends to `default:`. -/
inductive AuthenticationType where
  | SubscriptionKey
  | AuthorizationToken
  | SearchDelegationRPSToken
  | Unknown
  deriving DecidableEq, Repr

/-- The `static_cast<underlying_type_t<RecognitionMode>>` of line 233. -/
def RecognitionMode.toNat : RecognitionMode → Nat
  | .Interactive => 0
  | .Conversation => 1
  | .Dictation => 2

/-- The `static_cast<underlying_type_t<OutputFormat>>` of line 277. -/
def OutputFormat.toNat : OutputFormat → Nat
  | .Simple => 0
  | .Detailed => 1

/-- The fields of `Client` that `Connection::Impl` reads (`m_config`), the
callback set apart: it is cleared by `Shutdown` and lives in the state. -/
structure Client where
  m_endpoint : EndpointType
  m_recoMode : RecognitionMode
  m_outputFormat : OutputFormat
  m_region : String
  m_intentRegion : String
  m_language : String
  m_modelId : String
  m_customEndpointUrl : String
  m_translationSourceLanguage : String
  m_translationTargetLanguages : String
  m_translationVoice : String
  m_authType : AuthenticationType
  m_authData : String
  m_connectionId : String
  deriving DecidableEq, Repr

/-- The exceptions that leave the functions of `uspimpl.cpp`: the three typed
exceptions of `exception.h`, the exceptions of the JSON library, and the
`std::system_error` of the thread library, and `undefined` for behaviour the
language leaves undefined (the construction of a `std::string` from a null
pointer, a call through a null pointer). -/
inductive Exception where
  | InvalidArgument (what : String)
  | LogicError (what : String)
  | RuntimeError (what : String)
  | json_parse_error
  | json_type_error
  | json_out_of_range
  | system_error
  | undefined (what : String)
  deriving DecidableEq, Repr

deriving instance DecidableEq for Except

/-! ## Endpoint constants -/

namespace endpoint

/-- Modelled from the spec: `endpoint::protocol` of `usp.h`, which is not
among the sources; scenario 1 of §8 gives the literal. -/
def protocol : String := "wss://"

namespace unifiedspeech

/-- Modelled from the spec: `endpoint::unifiedspeech::hostnameSuffix`
(scenario 1 of §8). -/
def hostnameSuffix : String := ".stt.speech.microsoft.com"

/-- Modelled from the spec: `endpoint::unifiedspeech::pathPrefix`
(scenario 1 of §8). -/
def pathPrefix : String := "/speech/recognition/"

/-- Modelled from the spec: `endpoint::unifiedspeech::pathSuffix`
(scenario 1 of §8). -/
def pathSuffix : String := "/cognitiveservices/v1"

/-- Modelled from the spec: `endpoint::unifiedspeech::outputFormatQueryParam`
(scenario 1 of §8). -/
def outputFormatQueryParam : String := "format="

/-- Modelled from the spec: `endpoint::unifiedspeech::langQueryParam`
(scenario 1 of §8). -/
def langQueryParam : String := "language="

end unifiedspeech

namespace translation

/-- Modelled from the spec: `endpoint::translation::from` (§4.1, scenario 3). -/
def from_ : String := "from="

/-- Modelled from the spec: `endpoint::translation::to` (§4.1, scenario 3). -/
def to_ : String := "to="

/-- Modelled from the spec: `endpoint::translation::voice` (§4.1, scenario 3). -/
def voice : String := "voice="

/-- Modelled from the spec: `endpoint::translation::features` (§4.1). -/
def features : String := "features="

/-- Modelled from the spec: `endpoint::translation::requireVoice` (§4.1). -/
def requireVoice : String := "texttospeech"

end translation

end endpoint

/-- The endpoint constants of `usp.h` whose value the specification does not
give; the URL builder takes them as a parameter. -/
structure EndpointConstants where
  unifiedspeech_deploymentIdQueryParam : String
  translation_hostnameSuffix : String
  translation_path : String
  luis_hostname : String
  luis_pathPrefix1 : String
  luis_pathPrefix2 : String
  luis_pathSuffix : String
  CDSDK_url : String
  deriving DecidableEq, Repr

/-- Line 75. -/
def g_recoModeStrings : List String := ["interactive", "conversation", "dictation"]

/-- Line 76. -/
def g_outFormatStrings : List String := ["simple", "detailed"]

/-! ## `std::string` operations used by the builder -/

/-- The inline `contains` of line 68: `content.find(name) != npos`. -/
def contains (content name : String) : Bool :=
  decide (name.data <:+: content.data)

/-- The test `s.find(c) != string::npos`. -/
def containsChar (s : String) (c : Char) : Bool :=
  decide (c ∈ s.data)

/-- The offset of the first `c` in `l`, if any. -/
def firstIndex (c : Char) : List Char → Option Nat
  | [] => none
  | x :: xs => if x = c then some 0 else (firstIndex c xs).map Nat.succ

/-- `s.find_first_of(c, pos)`: the first position `≥ pos` holding `c`;
`none` is `npos`. -/
def find_first_of (s : String) (c : Char) (pos : Nat) : Option Nat :=
  (firstIndex c (s.data.drop pos)).map (fun i => pos + i)

/-- `s.substr(pos, len)` for `pos ≤ s.size()`; `len = none` is `npos`. -/
def substr (s : String) (pos : Nat) (len : Option Nat) : String :=
  match len with
  | some n => ⟨(s.data.drop pos).take n⟩
  | none => ⟨s.data.drop pos⟩

/-! ## `ConstructConnectionUrl` (lines 231-346) -/

/-- Lines 236-274: the custom endpoint URL if there is one, else the protocol
and the host and path of the endpoint kind. -/
def urlBase (k : EndpointConstants) (m_config : Client) : Except Exception String :=
  let recoMode := m_config.m_recoMode.toNat
  if m_config.m_customEndpointUrl ≠ "" then
    .ok m_config.m_customEndpointUrl
  else
    match m_config.m_endpoint with
    | .Speech =>
      .ok (endpoint.protocol ++ m_config.m_region
        ++ endpoint.unifiedspeech.hostnameSuffix
        ++ endpoint.unifiedspeech.pathPrefix
        ++ g_recoModeStrings.getD recoMode ""
        ++ endpoint.unifiedspeech.pathSuffix)
    | .Translation =>
      .ok (endpoint.protocol ++ m_config.m_region
        ++ k.translation_hostnameSuffix
        ++ k.translation_path)
    | .Intent =>
      .ok (endpoint.protocol ++ k.luis_hostname
        ++ k.luis_pathPrefix1
        ++ m_config.m_intentRegion
        ++ k.luis_pathPrefix2
        ++ g_recoModeStrings.getD RecognitionMode.Interactive.toNat ""
        ++ k.luis_pathSuffix)
    | .CDSDK =>
      .ok (endpoint.protocol ++ k.CDSDK_url)
    | _ => .error (.InvalidArgument "Unknown endpoint type.")

/-- Lines 276-282: the first query parameter. -/
def appendFormat (m_config : Client) (customEndpoint : Bool) (oss : String) : String :=
  let format := m_config.m_outputFormat.toNat
  if !customEndpoint || !contains oss endpoint.unifiedspeech.outputFormatQueryParam then
    let delim := if customEndpoint && containsChar oss '?' then "&" else "?"
    oss ++ delim ++ endpoint.unifiedspeech.outputFormatQueryParam
      ++ g_outFormatStrings.getD format ""
  else oss

/-- Lines 319-328: the `while` loop over the commas of the target languages
and the statement after it. `fuel` bounds the number of iterations; the
builder supplies more than the loop can use (each iteration moves `start`
past one more comma). -/
def appendTargets (enc : String → String) (targets : String) :
    Nat → Nat → Option Nat → String → String
  | _, start, none, oss =>
    oss ++ "&" ++ endpoint.translation.to_ ++ enc (substr targets start none)
  | 0, _, some _, oss => oss
  | fuel + 1, start, some e, oss =>
    appendTargets enc targets fuel (e + 1) (find_first_of targets ',' (e + 1))
      (oss ++ "&" ++ endpoint.translation.to_ ++ enc (substr targets start (some (e - start))))

/-- Lines 284-343: the parameters of the endpoint kind. `enc` is
`EncodeParameterString`, a wrapper of the library's `URL_EncodeString`. -/
def appendParams (k : EndpointConstants) (enc : String → String) (m_config : Client)
    (customEndpoint : Bool) (oss : String) : String :=
  match m_config.m_endpoint with
  | .Speech =>
    if m_config.m_modelId ≠ "" then
      if !customEndpoint || !contains oss k.unifiedspeech_deploymentIdQueryParam then
        oss ++ "&" ++ k.unifiedspeech_deploymentIdQueryParam ++ m_config.m_modelId
      else oss
    else if m_config.m_language ≠ "" then
      if !customEndpoint || !contains oss endpoint.unifiedspeech.langQueryParam then
        oss ++ "&" ++ endpoint.unifiedspeech.langQueryParam ++ m_config.m_language
      else oss
    else oss
  | .Intent =>
    if m_config.m_language ≠ "" then
      if !customEndpoint || !contains oss endpoint.unifiedspeech.langQueryParam then
        oss ++ "&" ++ endpoint.unifiedspeech.langQueryParam ++ m_config.m_language
      else oss
    else oss
  | .Translation =>
    let oss1 :=
      if !customEndpoint || !contains oss endpoint.translation.from_ then
        oss ++ "&" ++ endpoint.translation.from_ ++ enc m_config.m_translationSourceLanguage
      else oss
    let oss2 :=
      if !customEndpoint || !contains oss1 endpoint.translation.to_ then
        appendTargets enc m_config.m_translationTargetLanguages
          (m_config.m_translationTargetLanguages.length + 1) 0
          (find_first_of m_config.m_translationTargetLanguages ',' 0) oss1
      else oss1
    if m_config.m_translationVoice ≠ "" then
      if !customEndpoint || !contains oss2 endpoint.translation.voice then
        oss2 ++ "&" ++ endpoint.translation.features ++ endpoint.translation.requireVoice
          ++ "&" ++ endpoint.translation.voice ++ enc m_config.m_translationVoice
      else oss2
    else oss2
  | .CDSDK => oss
  | .CustomEndpoint => oss

/-- `Connection::Impl::ConstructConnectionUrl`. -/
def ConstructConnectionUrl (k : EndpointConstants) (enc : String → String)
    (m_config : Client) : Except Exception String :=
  match urlBase k m_config with
  | .error e => .error e
  | .ok oss =>
    let customEndpoint := decide (m_config.m_customEndpointUrl ≠ "")
    .ok (appendParams k enc m_config customEndpoint (appendFormat m_config customEndpoint oss))

/-! ## The JSON library (`json.h`, an external collaborator)

The values of `nlohmann::json` and the accessors `uspimpl.cpp` uses. Parsing
and serialisation are parameters (`JsonLib`). -/

/-- A parsed JSON value. `number_integer` covers the signed and the unsigned
integer kinds; `number_float` holds the exact value of the parsed `double`,
which is all that comparisons need. The members of an object are kept in key
order, each key once, as in `std::map`. -/
inductive Json where
  | null
  | boolean (b : Bool)
  | number_integer (n : Int)
  | number_float (x : Rat)
  | string (s : String)
  | array (elems : List Json)
  | object (members : List (String × Json))

/-- The byte buffers handed over by pointer and size. -/
abbrev Buffer := List UInt8

/-- The two library functions whose result is opaque to the connection:
`json::parse(first, last)` (`none` when it throws `parse_error`) and
`json::dump()`. -/
structure JsonLib where
  parse : Buffer → Option Json
  dump : Json → String

namespace Json

/-- The member of key `key` in a member list. -/
def lookup (key : String) : List (String × Json) → Option Json
  | [] => none
  | (k, v) :: ms => if k = key then some v else lookup key ms

/-- The call `j.find(key) != j.end()` together with the value found: `end()`
for a missing key and for every value that is not an object. -/
def find (j : Json) (key : String) : Option Json :=
  match j with
  | .object ms => lookup key ms
  | _ => none

/-- The call `j.at(key)`: `out_of_range` for a missing key, `type_error` for a
value that is not an object. -/
def at_ (j : Json) (key : String) : Except Exception Json :=
  match j with
  | .object ms =>
    match lookup key ms with
    | some v => .ok v
    | none => .error .json_out_of_range
  | _ => .error .json_type_error

/-- Insertion of a new member at its place in the key order. -/
def insertMember (key : String) (v : Json) : List (String × Json) → List (String × Json)
  | [] => [(key, v)]
  | (k, x) :: ms =>
    if key < k then (key, v) :: (k, x) :: ms else (k, x) :: insertMember key v ms

/-- The non-const `j[key]`: the member and the value `j` has afterwards. A
null `j` becomes an object, a missing member is inserted as null, and a value
that is neither null nor an object throws `type_error`. -/
def index (j : Json) (key : String) : Except Exception (Json × Json) :=
  match j with
  | .null => .ok (.null, .object [(key, .null)])
  | .object ms =>
    match lookup key ms with
    | some v => .ok (v, .object ms)
    | none => .ok (.null, .object (insertMember key .null ms))
  | _ => .error .json_type_error

/-- Truncation of a `double` towards zero. -/
def truncate (x : Rat) : Int :=
  if 0 ≤ x then x.floor else x.ceil

/-- The call `j.get<uint64_t>()` (`OffsetType`, `DurationType`): a
`static_cast` of a number, `type_error` for every other value. -/
def get_uint64 (j : Json) : Except Exception Nat :=
  match j with
  | .number_integer n => .ok (n % 2 ^ 64).toNat
  | .number_float x => .ok (truncate x % 2 ^ 64).toNat
  | _ => .error .json_type_error

/-- The call `j.get<double>()`: the number, `type_error` for every other
value. -/
def get_double (j : Json) : Except Exception Rat :=
  match j with
  | .number_integer n => .ok n
  | .number_float x => .ok x
  | _ => .error .json_type_error

/-- The call `j.get<string>()`, also the implicit conversion to
`std::string`: `type_error` unless the value is a string. -/
def get_string (j : Json) : Except Exception String :=
  match j with
  | .string s => .ok s
  | _ => .error .json_type_error

/-- The test `j.is_null()`. -/
def is_null (j : Json) : Bool :=
  match j with
  | .null => true
  | _ => false

/-- The values a range-based `for` visits: the elements of an array, the
member values of an object, nothing for null, and the value itself for any
other value. -/
def items (j : Json) : List Json :=
  match j with
  | .null => []
  | .array elems => elems
  | .object ms => ms.map Prod.snd
  | v => [v]

end Json

/-! ## Messages, callbacks and collaborators -/

/-- Outbound message kinds (§3 of the specification). -/
inductive MessageType where
  | Config
  | Context
  | Agent
  | Ssml
  | Other
  deriving DecidableEq, Repr

/-- Recognition statuses: the results of `ToRecognitionStatus`. -/
inductive RecognitionStatus where
  | Success
  | NoMatch
  | InitialSilenceTimeout
  | InitialBabbleTimeout
  | Error
  | EndOfDictation
  | TooManyRequests
  | BadRequest
  | Forbidden
  | ServiceUnavailable
  | InvalidMessage
  deriving DecidableEq, Repr

/-- Translation statuses: the results of `ToTranslationStatus`. -/
inductive TranslationStatus where
  | Success
  | Error
  | InvalidMessage
  deriving DecidableEq, Repr

/-- Synthesis statuses: the results of `ToSynthesisStatus`. -/
inductive SynthesisStatus where
  | Success
  | Error
  | InvalidMessage
  deriving DecidableEq, Repr

/-- Error kinds handed to `OnError` (§7 of the specification). -/
inductive ErrorCode where
  | ConnectionError
  | AuthenticationError
  | BadRequest
  | TooManyRequests
  | Forbidden
  | ServiceUnavailable
  | ServiceError
  | RuntimeError
  deriving DecidableEq, Repr

/-- Transport error reasons; `OTHER` stands for every value outside the
enumeration, which the `switch` of `OnTransportError` sends to `default:`. -/
inductive TransportError where
  | TRANSPORT_ERROR_UNKNOWN
  | TRANSPORT_ERROR_REMOTE_CLOSED
  | TRANSPORT_ERROR_CONNECTION_FAILURE
  | TRANSPORT_ERROR_WEBSOCKET_UPGRADE
  | TRANSPORT_ERROR_WEBSOCKET_SEND_FRAME
  | TRANSPORT_ERROR_WEBSOCKET_ERROR
  | TRANSPORT_ERROR_DNS_FAILURE
  | OTHER
  deriving DecidableEq, Repr

/-- The `TransportErrorInfo` handed to `OnTransportError`; a null
`errorString` is `none`. -/
structure TransportErrorInfo where
  reason : TransportError
  errorCode : Int
  errorString : Option String
  deriving DecidableEq, Repr

/-- The `TranslationResult` of `uspmessages.h`; `translations` is the
`std::map` from language to text, as an association list. -/
structure TranslationResult where
  translationStatus : TranslationStatus
  failureReason : String
  translations : List (String × String)
  deriving DecidableEq, Repr

/-- The result of `RetrieveSpeechResult` (a `SpeechHypothesisMsg`). -/
structure SpeechHypothesisMsg where
  json : String
  offset : Nat
  duration : Nat
  text : String
  deriving DecidableEq, Repr

/-- The `SpeechPhraseMsg` of `uspmessages.h`. -/
structure SpeechPhraseMsg where
  json : String
  offset : Nat
  duration : Nat
  recognitionStatus : RecognitionStatus
  displayText : String
  deriving DecidableEq, Repr

/-- A user callback with its arguments, in the order of the braced
initialisers of `OnTransportData` and `OnTransportError`. -/
inductive Callback where
  | OnSpeechStartDetected (json : String) (offset : Nat)
  | OnSpeechEndDetected (json : String) (offset : Nat)
  | OnSpeechHypothesis (msg : SpeechHypothesisMsg)
  | OnSpeechFragment (msg : SpeechHypothesisMsg)
  | OnSpeechPhrase (msg : SpeechPhraseMsg)
  | OnTurnStart (json : String) (tag : String)
  | OnTurnEnd
  | OnTranslationHypothesis (json : String) (offset duration : Nat) (text : String)
      (translation : TranslationResult)
  | OnTranslationPhrase (json : String) (offset duration : Nat) (text : String)
      (translation : TranslationResult) (status : RecognitionStatus)
  | OnTranslationSynthesis (audioBuffer : Buffer) (audioLength : Nat)
  | OnTranslationSynthesisEnd (synthesisStatus : SynthesisStatus) (failureReason : String)
  | OnUserMessage (path contentType : String) (buffer : Buffer) (size : Nat)
  | OnError (recoverable : Bool) (code : ErrorCode) (message : String)
  deriving DecidableEq, Repr

/-- The HTTP headers of a connection request or of a response, as handled by
`HTTPHeaders_ReplaceHeaderNameValuePair` and `HTTPHeaders_FindHeaderValue`. -/
abbrev HttpHeaders := List (String × String)

/-- What the connection asks of its collaborators: the transport, the
telemetry object and, through `Invoke`, the user callbacks. Logging and the
audio-stream counters are left out. -/
inductive Call where
  | TransportRequestCreate (url : String) (headers : HttpHeaders) (connectionId : String)
  | TransportMessageWrite (path : String) (data : Buffer) (size : Nat) (requestId : String)
  | TransportStreamPrepare (path : String)
  | TransportStreamWrite (data : Buffer) (size : Nat) (requestId : String)
  | TransportStreamFlush (requestId : String)
  | metrics_device_startup (connectionId : String)
  | metrics_transport_requestid (requestId : String)
  | metrics_audio_start (requestId : String)
  | metrics_audio_end (requestId : String)
  | metrics_received_message (requestId path : String)
  | telemetry_flush (requestId : String)
  | Invoke (callback : Callback)
  deriving DecidableEq, Repr

/-- What the collaborators answer during one operation: the GUID of
`PAL::CreateGuidWithoutDashes` (an operation creates at most one request id)
and the return values of the transport. -/
structure Env where
  guid : String
  TransportStreamPrepare : Int
  TransportStreamWrite : Int
  TransportStreamFlush : Int
  deriving DecidableEq, Repr

/-! ## Connection state -/

/-- The members of `Connection::Impl` that the operations read or write.
`m_callbacks` tells whether `m_config.m_callbacks` is non-null, `m_transport`
and `m_telemetry` whether the handle is, `m_worker` whether the thread is
joinable; `m_audioOffset` is a `uint64_t`. -/
structure Impl where
  m_config : Client
  m_callbacks : Bool
  m_connected : Bool
  m_haveWork : Bool
  m_audioOffset : Nat
  m_activeRequestIds : Finset String
  m_speechRequestId : String
  m_transport : Bool
  m_telemetry : Bool
  m_worker : Bool
  deriving DecidableEq

/-- The result of an operation: the state it leaves, the calls it made, in
order, and the exception it threw, if any. -/
structure Outcome where
  state : Impl
  calls : List Call
  error : Option Exception
  deriving DecidableEq

/-- The constructor `Impl(config)` (lines 93-109) with `Validate`
(lines 215-221). The platform initialisation is taken to succeed. -/
def Impl.create (config : Client) (callbacks : Bool) : Except Exception Impl :=
  if config.m_authData = "" then
    .error (.InvalidArgument "No valid authentication mechanism was specified.")
  else
    .ok { m_config := config, m_callbacks := callbacks, m_connected := false,
          m_haveWork := false, m_audioOffset := 0, m_activeRequestIds := ∅,
          m_speechRequestId := "", m_transport := false, m_telemetry := false,
          m_worker := false }

/-! ## Header names of `uspcommon.h` -/

namespace headers

/-- Modelled from the spec: `headers::requestId` (§4.6, §6). -/
def requestId : String := "X-RequestId"

/-- Modelled from the spec: `headers::contentType` (§4.6, §6). -/
def contentType : String := "Content-Type"

/-- Modelled from the spec: `headers::audioResponseFormat` (§4.2). -/
def audioResponseFormat : String := "X-Output-AudioCodec"

/-- Modelled from the spec: `headers::userAgent` (§4.2). -/
def userAgent : String := "User-Agent"

/-- Modelled from the spec: `headers::ocpApimSubscriptionKey` (§4.2). -/
def ocpApimSubscriptionKey : String := "Ocp-Apim-Subscription-Key"

/-- Modelled from the spec: `headers::authorization` (§4.2). -/
def authorization : String := "Authorization"

/-- Modelled from the spec: `headers::searchDelegationRPSToken` (§4.2). -/
def searchDelegationRPSToken : String := "X-Search-DelegationRPSToken"

end headers

/-- Modelled from the spec: the `KEYWORD_PATH` of the transport (§4.6, §6). -/
def KEYWORD_PATH : String := "Path"

/-- `HTTPHeaders_FindHeaderValue`: the value of the header, `none` for the
null pointer it returns when the header is absent. -/
def HTTPHeaders_FindHeaderValue (h : HttpHeaders) (name : String) : Option String :=
  (h.find? fun p => p.1 = name).map Prod.snd

/-- `HTTPHeaders_ReplaceHeaderNameValuePair`: the header gets the value,
whether it was there or not. -/
def HTTPHeaders_ReplaceHeaderNameValuePair (h : HttpHeaders) (name value : String) :
    HttpHeaders :=
  if h.any (fun p => p.1 = name) then
    h.map fun p => if p.1 = name then (name, value) else p
  else h ++ [(name, value)]

/-! ## Signals, `Invoke` and the request-id registry -/

/-- `SignalWork` (lines 186-190). -/
def SignalWork (c : Impl) : Impl :=
  { c with m_haveWork := true }

/-- `SignalConnected` (lines 192-197), run by the worker when it starts. -/
def SignalConnected (c : Impl) : Impl :=
  { c with m_connected := true }

/-- `Invoke` (lines 116-125) for a list of callbacks in a row: nothing is
delivered while `m_connected` is false. Calling through a null callback set
is undefined. User callbacks are taken not to call back into the
connection. -/
def Invoke (c : Impl) (callbacks : List Callback) : List Call × Option Exception :=
  if !c.m_connected then ([], none)
  else if callbacks = [] then ([], none)
  else if !c.m_callbacks then ([], some (.undefined "m_callbacks is null"))
  else (callbacks.map Call.Invoke, none)

/-- `CreateRequestId` (lines 446-456): the new id and the state with the id
among the active ones. -/
def CreateRequestId (env : Env) (c : Impl) : String × Impl :=
  (env.guid, { c with m_activeRequestIds := insert env.guid c.m_activeRequestIds })

/-! ## The send API -/

/-- `QueueMessage` (lines 458-490); a null `data` is `none`. -/
def QueueMessage (env : Env) (path : String) (data : Option Buffer) (size : Nat)
    (messageType : MessageType) (c : Impl) : Outcome :=
  match data with
  | none => ⟨c, [], some (.InvalidArgument "The argument 'data' is null.")⟩
  | some d =>
    if path = "" then
      ⟨c, [], some (.InvalidArgument "The path is null or empty.")⟩
    else if c.m_connected then
      if messageType = .Context ∧ c.m_speechRequestId ≠ "" then
        ⟨c, [], some (.LogicError
          "Error trying to send a context message while in the middle of a speech turn.")⟩
      else if messageType ≠ .Config then
        let requestId := (CreateRequestId env c).1
        let c1 := (CreateRequestId env c).2
        let c2 := { c1 with
          m_speechRequestId :=
            if messageType = .Context then requestId else c1.m_speechRequestId }
        ⟨SignalWork c2,
          [.metrics_transport_requestid requestId,
           .TransportMessageWrite path d size requestId], none⟩
      else
        ⟨SignalWork c, [.TransportMessageWrite path d size ""], none⟩
    else
      ⟨SignalWork c, [], none⟩

/-- `QueueAudioEnd` (lines 541-562). -/
def QueueAudioEnd (env : Env) (c : Impl) : Outcome :=
  if !c.m_connected || c.m_audioOffset = 0 then
    ⟨c, [], none⟩
  else
    let ret := env.TransportStreamFlush
    let c1 := { c with m_audioOffset := 0 }
    let calls := [Call.TransportStreamFlush c.m_speechRequestId,
      Call.metrics_audio_end c.m_speechRequestId]
    if ret ≠ 0 then
      ⟨c1, calls, some (.RuntimeError
        ("Returns failure, reason: TransportStreamFlush returned " ++ toString ret))⟩
    else
      ⟨SignalWork c1, calls, none⟩

/-- Lines 515-529 of `QueueAudioSegment`: the start of an audio stream, run
when `m_audioOffset` is zero. -/
def prepareAudio (env : Env) (c : Impl) : Outcome :=
  if c.m_audioOffset = 0 then
    let c1 :=
      if c.m_speechRequestId = "" then
        { (CreateRequestId env c).2 with m_speechRequestId := (CreateRequestId env c).1 }
      else c
    let calls :=
      (if c.m_speechRequestId = "" then
        [Call.metrics_transport_requestid (CreateRequestId env c).1] else [])
      ++ [Call.metrics_audio_start c1.m_speechRequestId, Call.TransportStreamPrepare "/audio"]
    let ret := env.TransportStreamPrepare
    if ret ≠ 0 then
      ⟨c1, calls, some (.RuntimeError ("TransportStreamPrepare failed. error=" ++ toString ret))⟩
    else ⟨c1, calls, none⟩
  else ⟨c, [], none⟩

/-- `QueueAudioSegment` (lines 492-539); a null `data` is `none`, `size` is
a `size_t` and the sum of line 537 wraps at 2^64. -/
def QueueAudioSegment (env : Env) (data : Option Buffer) (size : Nat) (c : Impl) : Outcome :=
  if size = 0 then
    QueueAudioEnd env c
  else
    match data with
    | none => ⟨c, [], some (.InvalidArgument "The argument 'data' is null.")⟩
    | some d =>
      if !c.m_connected then
        ⟨c, [], none⟩
      else
        let pre := prepareAudio env c
        match pre.error with
        | some e => ⟨pre.state, pre.calls, some e⟩
        | none =>
          let ret := env.TransportStreamWrite
          let calls := pre.calls ++ [Call.TransportStreamWrite d size pre.state.m_speechRequestId]
          if ret ≠ 0 then
            ⟨pre.state, calls,
              some (.RuntimeError ("TransportStreamWrite failed. error=" ++ toString ret))⟩
          else
            ⟨SignalWork { pre.state with
                m_audioOffset := (pre.state.m_audioOffset + size) % 2 ^ 64 },
              calls, none⟩

/-! ## `Shutdown` and `Connect` -/

/-- `Shutdown` (lines 199-213). Detaching a thread that was never started,
or was detached before, throws `std::system_error`. -/
def Shutdown (c : Impl) : Outcome :=
  let c1 := SignalWork { c with m_callbacks := false, m_connected := false }
  if c.m_worker then ⟨{ c1 with m_worker := false }, [], none⟩
  else ⟨c1, [], some .system_error⟩

/-- What `Connect` gets from its collaborators: whether each creation
succeeds, the return value of the call that sets the authentication header,
whether the platform is Linux (the DNS cache exists only there), and the
product user agent `g_userAgent`. -/
structure ConnectEnv where
  HTTPHeaders_Alloc : Bool
  setAuthHeader : Int
  telemetry_create : Bool
  TransportRequestCreate : Bool
  linux : Bool
  DnsCacheCreate : Bool
  g_userAgent : String
  deriving DecidableEq, Repr

/-- Lines 366-406 of `Connect`: the headers of the connection request. -/
def connectionHeaders (env : ConnectEnv) (m_config : Client) : Except Exception HttpHeaders :=
  let h0 : HttpHeaders :=
    if m_config.m_endpoint = .CDSDK then
      HTTPHeaders_ReplaceHeaderNameValuePair
        (HTTPHeaders_ReplaceHeaderNameValuePair [] headers.audioResponseFormat
          "riff-16khz-16bit-mono-pcm")
        headers.userAgent env.g_userAgent
    else []
  match m_config.m_authType with
  | .SubscriptionKey =>
    if env.setAuthHeader ≠ 0 then
      .error (.RuntimeError "Failed to set authentication using subscription key.")
    else .ok (HTTPHeaders_ReplaceHeaderNameValuePair h0 headers.ocpApimSubscriptionKey
      m_config.m_authData)
  | .AuthorizationToken =>
    if env.setAuthHeader ≠ 0 then
      .error (.RuntimeError "Failed to set authentication using authorization token.")
    else .ok (HTTPHeaders_ReplaceHeaderNameValuePair h0 headers.authorization
      ("Bearer " ++ m_config.m_authData))
  | .SearchDelegationRPSToken =>
    if env.setAuthHeader ≠ 0 then
      .error (.RuntimeError "Failed to set authentication using Search-DelegationRPSToken.")
    else .ok (HTTPHeaders_ReplaceHeaderNameValuePair h0 headers.searchDelegationRPSToken
      m_config.m_authData)
  | .Unknown => .error (.RuntimeError "Unsupported authentication type")

/-- `Connect` (lines 348-444). The call returns once the worker it started
has run `SignalConnected`. -/
def Connect (k : EndpointConstants) (enc : String → String) (env : ConnectEnv) (c : Impl) :
    Outcome :=
  if c.m_transport || c.m_connected then
    ⟨c, [], some (.LogicError "USP connection already created.")⟩
  else if !env.HTTPHeaders_Alloc then
    ⟨c, [], some (.RuntimeError "Failed to create connection headers.")⟩
  else
    match connectionHeaders env c.m_config with
    | .error e => ⟨c, [], some e⟩
    | .ok headersPtr =>
      match ConstructConnectionUrl k enc c.m_config with
      | .error e => ⟨c, [], some e⟩
      | .ok connectionUrl =>
        let c1 := { c with m_telemetry := env.telemetry_create }
        if !env.telemetry_create then
          ⟨c1, [], some (.RuntimeError "Failed to create telemetry instance.")⟩
        else
          let connectionId := c.m_config.m_connectionId
          let calls := [Call.metrics_device_startup connectionId,
            Call.TransportRequestCreate connectionUrl headersPtr connectionId]
          let c2 := { c1 with m_transport := env.TransportRequestCreate }
          if !env.TransportRequestCreate then
            ⟨c2, calls, some (.RuntimeError "Failed to create transport request.")⟩
          else if env.linux && !env.DnsCacheCreate then
            ⟨c2, calls, some (.RuntimeError "Failed to create DNS cache.")⟩
          else
            ⟨SignalConnected { c2 with m_worker := true }, calls, none⟩

/-! ## The error mapper -/

/-- The `OnError` callback that `OnTransportError` (lines 565-645) hands to
`Invoke`. The HTTP status codes are those of §4.7 of the specification. -/
def transportErrorCallback (errorInfo : TransportErrorInfo) : Callback :=
  let errorStr := errorInfo.errorString.getD ""
  match errorInfo.reason with
  | .TRANSPORT_ERROR_REMOTE_CLOSED =>
    .OnError true .ConnectionError
      ("Connection was closed by the remote host. Error code: "
        ++ toString errorInfo.errorCode ++ ". Error details: " ++ errorStr)
  | .TRANSPORT_ERROR_CONNECTION_FAILURE =>
    .OnError true .ConnectionError
      ("Connection failed (no connection to the remote host). Internal error: "
        ++ toString errorInfo.errorCode ++ ". Error details: " ++ errorStr
        ++ ". Please check network connection, firewall setting, and the region name used to create speech factory.")
  | .TRANSPORT_ERROR_WEBSOCKET_UPGRADE =>
    if errorInfo.errorCode = 400 then
      .OnError true .BadRequest
        "WebSocket Upgrade failed with a bad request (400). Please check the language name and endpoint id (if used) are correctly associated with the provided subscription key."
    else if errorInfo.errorCode = 401 then
      .OnError true .AuthenticationError
        "WebSocket Upgrade failed with an authentication error (401). Please check for correct subscription key (or authorization token) and region name."
    else if errorInfo.errorCode = 403 then
      .OnError true .AuthenticationError
        "WebSocket Upgrade failed with an authentication error (403). Please check for correct subscription key (or authorization token) and region name."
    else if errorInfo.errorCode = 429 then
      .OnError true .TooManyRequests
        "WebSocket Upgrade failed with too many requests error (429). Please check for correct subscription key (or authorization token) and region name."
    else
      .OnError true .ConnectionError
        ("WebSocket Upgrade failed with HTTP status code: " ++ toString errorInfo.errorCode)
  | .TRANSPORT_ERROR_WEBSOCKET_SEND_FRAME =>
    .OnError true .ConnectionError
      ("Failure while sending a frame over the WebSocket connection. Internal error: "
        ++ toString errorInfo.errorCode ++ ". Error details: " ++ errorStr)
  | .TRANSPORT_ERROR_WEBSOCKET_ERROR =>
    .OnError true .ConnectionError
      ("WebSocket operation failed. Internal error: "
        ++ toString errorInfo.errorCode ++ ". Error details: " ++ errorStr)
  | .TRANSPORT_ERROR_DNS_FAILURE =>
    .OnError true .ConnectionError
      ("DNS connection failed (the remote host did not respond). Internal error: "
        ++ toString errorInfo.errorCode)
  | .TRANSPORT_ERROR_UNKNOWN => .OnError true .ConnectionError "Unknown transport error."
  | .OTHER => .OnError true .ConnectionError "Unknown transport error."

/-- `OnTransportError` (lines 565-648): the callback goes through `Invoke`,
then the connection is marked as not connected. -/
def OnTransportError (errorInfo : TransportErrorInfo) (connection : Impl) : Outcome :=
  match Invoke connection [transportErrorCallback errorInfo] with
  | (calls, some e) => ⟨connection, calls, some e⟩
  | (calls, none) => ⟨{ connection with m_connected := false }, calls, none⟩

/-- The `OnError` callback that `InvokeRecognitionErrorCallback`
(lines 1034-1078) hands to `Invoke`. -/
def InvokeRecognitionErrorCallback (status : RecognitionStatus) (response : String) :
    Callback :=
  match status with
  | .Error =>
    .OnError false .ServiceError
      ("The speech recognition service encountered an internal error and could not continue. Response text:"
        ++ response)
  | .TooManyRequests =>
    .OnError false .TooManyRequests
      ("The number of parallel requests exceeded the number of allowed concurrent transcriptions. Response text:"
        ++ response)
  | .BadRequest =>
    .OnError false .BadRequest
      ("Invalid parameter or unsupported audio format in the request. Response text:"
        ++ response)
  | .Forbidden =>
    .OnError false .Forbidden
      ("The recognizer is using a free subscription that ran out of quota. Response text:"
        ++ response)
  | .ServiceUnavailable =>
    .OnError false .ServiceUnavailable
      ("The service is currently unavailable. Response text:" ++ response)
  | .InvalidMessage =>
    .OnError false .ServiceError ("Invalid response. Response text:" ++ response)
  | .Success | .EndOfDictation | .InitialSilenceTimeout | .InitialBabbleTimeout | .NoMatch =>
    .OnError false .RuntimeError
      ("Runtime Error: invoke error callback for non-error recognition status. Response text:"
        ++ response)

/-! ## The inbound dispatcher -/

namespace path

/-- Modelled from the spec: `path::translationSynthesis` (table of §4.6). -/
def translationSynthesis : String := "audio"

/-- Modelled from the spec: `path::speechStartDetected` (table of §4.6). -/
def speechStartDetected : String := "speech.startDetected"

/-- Modelled from the spec: `path::speechEndDetected` (table of §4.6). -/
def speechEndDetected : String := "speech.endDetected"

/-- Modelled from the spec: `path::turnStart` (table of §4.6). -/
def turnStart : String := "turn.start"

/-- Modelled from the spec: `path::turnEnd` (table of §4.6). -/
def turnEnd : String := "turn.end"

/-- Modelled from the spec: `path::speechHypothesis` (table of §4.6). -/
def speechHypothesis : String := "speech.hypothesis"

/-- Modelled from the spec: `path::speechFragment` (table of §4.6). -/
def speechFragment : String := "speech.fragment"

/-- Modelled from the spec: `path::speechPhrase` (table of §4.6). -/
def speechPhrase : String := "speech.phrase"

/-- Modelled from the spec: `path::translationHypothesis` (table of §4.6). -/
def translationHypothesis : String := "translation.hypothesis"

/-- Modelled from the spec: `path::translationPhrase` (table of §4.6). -/
def translationPhrase : String := "translation.phrase"

/-- Modelled from the spec: `path::translationSynthesisEnd` (table of §4.6). -/
def translationSynthesisEnd : String := "translation.synthesis.end"

end path

namespace json_properties

/-- Modelled from the spec: `json_properties::offset` (§6). -/
def offset : String := "Offset"

/-- Modelled from the spec: `json_properties::duration` (§6). -/
def duration : String := "Duration"

/-- Modelled from the spec: `json_properties::text` (§6). -/
def text : String := "Text"

/-- Modelled from the spec: `json_properties::displayText` (§6). -/
def displayText : String := "DisplayText"

/-- Modelled from the spec: `json_properties::nbest` (§6). -/
def nbest : String := "NBest"

/-- Modelled from the spec: `json_properties::confidence` (§6). -/
def confidence : String := "Confidence"

/-- Modelled from the spec: `json_properties::display` (§6). -/
def display : String := "Display"

/-- Modelled from the spec: `json_properties::recoStatus` (§6). -/
def recoStatus : String := "RecognitionStatus"

/-- Modelled from the spec: `json_properties::context` (§6). -/
def context : String := "Context"

/-- Modelled from the spec: `json_properties::tag` (§6). -/
def tag : String := "Tag"

/-- Modelled from the spec: `json_properties::translation` (§6). -/
def translation : String := "Translation"

/-- Modelled from the spec: `json_properties::translationStatus` (§6). -/
def translationStatus : String := "TranslationStatus"

/-- Modelled from the spec: `json_properties::translationFailureReason` (§6). -/
def translationFailureReason : String := "FailureReason"

/-- Modelled from the spec: `json_properties::translations` (§6). -/
def translations : String := "Translations"

/-- Modelled from the spec: `json_properties::lang` (§6). -/
def lang : String := "Language"

/-- Modelled from the spec: `json_properties::synthesisStatus` (§6). -/
def synthesisStatus : String := "SynthesisStatus"

end json_properties

/-- `ToRecognitionStatus` (lines 650-665). -/
def ToRecognitionStatus (str : String) : RecognitionStatus :=
  if str = "Success" then .Success
  else if str = "NoMatch" then .NoMatch
  else if str = "InitialSilenceTimeout" then .InitialSilenceTimeout
  else if str = "BabbleTimeout" then .InitialBabbleTimeout
  else if str = "Error" then .Error
  else if str = "EndOfDictation" then .EndOfDictation
  else if str = "TooManyRequests" then .TooManyRequests
  else if str = "BadRequest" then .BadRequest
  else if str = "Forbidden" then .Forbidden
  else if str = "ServiceUnavailable" then .ServiceUnavailable
  else .InvalidMessage

/-- `ToTranslationStatus` (lines 667-674). -/
def ToTranslationStatus (str : String) : TranslationStatus :=
  if str = "Success" then .Success
  else if str = "Error" then .Error
  else .InvalidMessage

/-- `ToSynthesisStatus` (lines 676-683). -/
def ToSynthesisStatus (str : String) : SynthesisStatus :=
  if str = "Success" then .Success
  else if str = "Error" then .Error
  else .InvalidMessage

/-- What the dispatcher takes from code that is not among the sources: the
JSON library, and the `translationStatus` of a default-constructed
`TranslationResult` (`uspmessages.h`), read on line 966 when no branch of the
`switch` of line 950 has set it. -/
structure Lib extends JsonLib where
  defaultTranslationStatus : TranslationStatus

/-- `RetrieveSpeechResult` (lines 685-696). -/
def RetrieveSpeechResult (lib : Lib) (json : Json) : Except Exception SpeechHypothesisMsg := do
  let offset ← (← json.at_ json_properties.offset).get_uint64
  let duration ← (← json.at_ json_properties.duration).get_uint64
  let text ←
    match json.find json_properties.text with
    | some _ => (← json.at_ json_properties.text).get_string
    | none => pure ""
  pure ⟨lib.dump json, offset, duration, text⟩

/-- The assignment `translations[lang] = txt` on a `std::map`. -/
def mapAssign (m : List (String × String)) (key value : String) : List (String × String) :=
  if m.any (fun p => p.1 = key) then
    m.map fun p => if p.1 = key then (key, value) else p
  else m ++ [(key, value)]

/-- The loop of lines 731-742 over the entries of `Translations`. -/
def collectTranslations :
    List Json → List (String × String) → Except Exception (List (String × String))
  | [], acc => .ok acc
  | object :: rest, acc => do
    let lang ← (← object.at_ json_properties.lang).get_string
    let txt ← (← object.at_ json_properties.text).get_string
    if lang = "" ∧ txt = "" then collectTranslations rest acc
    else collectTranslations rest (mapAssign acc lang txt)

/-- `RetrieveTranslationResult` (lines 698-750). The `json[...]` of line 700
is the const one: a missing member is undefined there. -/
def RetrieveTranslationResult (lib : Lib) (json : Json) (expectStatus : Bool) :
    Except Exception TranslationResult := do
  let translation ←
    match json with
    | .object ms =>
      match Json.lookup json_properties.translation ms with
      | some v => pure v
      | none => throw (.undefined "const operator[] with a missing key")
    | _ => throw .json_type_error
  let result : TranslationResult := ⟨lib.defaultTranslationStatus, "", []⟩
  let result ←
    if expectStatus then do
      let result ←
        match translation.find json_properties.translationStatus with
        | some status =>
          pure { result with translationStatus := ToTranslationStatus (← status.get_string) }
        | none =>
          pure { result with
            translationStatus := .InvalidMessage
            failureReason :=
              "Status is missing in the protocol message. Response text:" ++ lib.dump json }
      match translation.find json_properties.translationFailureReason with
      | some failure =>
        pure { result with failureReason := result.failureReason ++ (← failure.get_string) }
      | none => pure result
    else pure result
  if expectStatus ∧ result.translationStatus ≠ .Success then
    pure result
  else
    let translations ← translation.at_ json_properties.translations
    let m ← collectTranslations translations.items result.translations
    pure { result with translations := m }

/-- Lines 817-831: `speech.startDetected` and `speech.endDetected`. The
`json[...]` of line 819 inserts a null `Offset` when there is none. -/
def onSpeechDetected (lib : Lib) (pathStr : String) (json : Json) :
    Except Exception (List Callback) := do
  let (offsetObj, json) ← json.index json_properties.offset
  let offset ← if offsetObj.is_null then pure 0 else offsetObj.get_uint64
  if pathStr = path.speechStartDetected then
    pure [.OnSpeechStartDetected (lib.dump json) offset]
  else
    pure [.OnSpeechEndDetected (lib.dump json) offset]

/-- Lines 832-836: `turn.start`. When the tag is read, both members were
there and the two `operator[]` left `json` as it was. -/
def onTurnStart (lib : Lib) (json : Json) : Except Exception (List Callback) := do
  let (context, json) ← json.index json_properties.context
  let (tagObj, _) ← context.index json_properties.tag
  let tag ← tagObj.get_string
  pure [.OnTurnStart (lib.dump json) tag]

/-- Lines 854-880: `speech.hypothesis` and `speech.fragment`. -/
def onSpeechHypothesis (lib : Lib) (pathStr : String) (json : Json) :
    Except Exception (List Callback) := do
  let (offsetObj, json) ← json.index json_properties.offset
  let offset ← offsetObj.get_uint64
  let (durationObj, json) ← json.index json_properties.duration
  let duration ← durationObj.get_uint64
  let (textObj, json) ← json.index json_properties.text
  let text ← textObj.get_string
  if pathStr = path.speechHypothesis then
    pure [.OnSpeechHypothesis ⟨lib.dump json, offset, duration, text⟩]
  else
    pure [.OnSpeechFragment ⟨lib.dump json, offset, duration, text⟩]

/-- The loop of lines 902-912: the display text of the entry with the
highest confidence seen so far. -/
def selectNBest : List Json → Rat → String → Except Exception String
  | [], _, displayText => .ok displayText
  | object :: rest, confidence, displayText => do
    let currentConfidence ← (← object.at_ json_properties.confidence).get_double
    if currentConfidence > confidence then
      let display ← (← object.at_ json_properties.display).get_string
      selectNBest rest currentConfidence display
    else
      selectNBest rest confidence displayText

/-- Lines 881-926: `speech.phrase`. -/
def onSpeechPhrase (lib : Lib) (json : Json) : Except Exception (List Callback) := do
  let resultJson := lib.dump json
  let (offsetObj, json) ← json.index json_properties.offset
  let offset ← offsetObj.get_uint64
  let (durationObj, json) ← json.index json_properties.duration
  let duration ← durationObj.get_uint64
  let (statusObj, json) ← json.index json_properties.recoStatus
  let recognitionStatus := ToRecognitionStatus (← statusObj.get_string)
  match recognitionStatus with
  | .Success =>
    match json.find json_properties.displayText with
    | some _ =>
      let (displayObj, _) ← json.index json_properties.displayText
      let displayText ← displayObj.get_string
      pure [.OnSpeechPhrase ⟨resultJson, offset, duration, recognitionStatus, displayText⟩]
    | none =>
      let phrases ← json.at_ json_properties.nbest
      let displayText ← selectNBest phrases.items 0 ""
      pure [.OnSpeechPhrase ⟨resultJson, offset, duration, recognitionStatus, displayText⟩]
  | .InitialSilenceTimeout | .InitialBabbleTimeout | .NoMatch | .EndOfDictation =>
    pure [.OnSpeechPhrase ⟨resultJson, offset, duration, recognitionStatus, ""⟩]
  | _ => pure [InvokeRecognitionErrorCallback recognitionStatus (lib.dump json)]

/-- Lines 927-942: `translation.hypothesis`. -/
def onTranslationHypothesis (lib : Lib) (json : Json) : Except Exception (List Callback) := do
  let speechResult ← RetrieveSpeechResult lib json
  let translationResult ← RetrieveTranslationResult lib json false
  let translationResult := { translationResult with translationStatus := .Success }
  pure [.OnTranslationHypothesis speechResult.json speechResult.offset speechResult.duration
    speechResult.text translationResult]

/-- Lines 943-978: `translation.phrase`. -/
def onTranslationPhrase (lib : Lib) (json : Json) : Except Exception (List Callback) := do
  let status := ToRecognitionStatus (← (← json.at_ json_properties.recoStatus).get_string)
  let speechResult ← RetrieveSpeechResult lib json
  let translationResult : TranslationResult := ⟨lib.defaultTranslationStatus, "", []⟩
  let (translationResult, errors) ←
    match status with
    | .Success => do
      let r ← RetrieveTranslationResult lib json true
      pure (r, [])
    | .InitialSilenceTimeout | .InitialBabbleTimeout | .NoMatch | .EndOfDictation =>
      pure ({ translationResult with translationStatus := .Success }, [])
    | _ => pure (translationResult, [InvokeRecognitionErrorCallback status (lib.dump json)])
  if translationResult.translationStatus = .Success then
    pure (errors ++ [.OnTranslationPhrase speechResult.json speechResult.offset
      speechResult.duration speechResult.text translationResult status])
  else pure errors

/-- Lines 979-1021: `translation.synthesis.end`. -/
def onTranslationSynthesisEnd (json : Json) : Except Exception (List Callback) := do
  let (synthesisStatus, localReason) ←
    match json.find json_properties.synthesisStatus with
    | some statusHandle => do
      let status := ToSynthesisStatus (← statusHandle.get_string)
      if status = .InvalidMessage then
        pure (status, "Invalid synthesis status in synthesis.end message.")
      else pure (status, "")
    | none =>
      pure (SynthesisStatus.InvalidMessage, "No synthesis status in synthesis.end message.")
  let failureReason ←
    match json.find json_properties.translationFailureReason with
    | some failureHandle => failureHandle.get_string
    | none => pure ""
  let failureReason := localReason ++ failureReason
  if synthesisStatus = .Success then
    pure [.OnTranslationSynthesisEnd synthesisStatus failureReason]
  else
    pure [.OnError false .ServiceError failureReason]

/-- The end of a handler of `OnTransportData`: an exception leaves the
function, callbacks go through `Invoke`. -/
def deliver (connection : Impl) (calls : List Call) (r : Except Exception (List Callback)) :
    Outcome :=
  match r with
  | .error e => ⟨connection, calls, some e⟩
  | .ok callbacks =>
    ⟨connection, calls ++ (Invoke connection callbacks).1, (Invoke connection callbacks).2⟩

/-- Lines 839-846: the state change of `turn.end`, under the lock. -/
def endTurn (requestId : String) (connection : Impl) : Impl :=
  let c1 :=
    if requestId = connection.m_speechRequestId then
      { connection with m_speechRequestId := "" }
    else connection
  { c1 with m_activeRequestIds := c1.m_activeRequestIds.erase requestId }

/-- Lines 837-853: `turn.end` for the request id `requestId`. -/
def onTurnEnd (requestId : String) (calls : List Call) (connection : Impl) : Outcome :=
  deliver (endTurn requestId connection) (calls ++ [.telemetry_flush requestId])
    (.ok [.OnTurnEnd])

/-- Lines 803-1031 of `OnTransportData`: the dispatch on the path, once the
headers have been checked. -/
def dispatch (lib : Lib) (requestId pathStr : String) (contentType : Option String)
    (buffer : Buffer) (size : Nat) (connection : Impl) : Outcome :=
  let calls := [Call.metrics_received_message requestId pathStr]
  if pathStr = path.translationSynthesis then
    deliver connection calls (.ok [.OnTranslationSynthesis buffer size])
  else
    match (if size > 0 then lib.parse (buffer.take size) else some Json.null) with
    | none => ⟨connection, calls, some .json_parse_error⟩
    | some json =>
      if pathStr = path.speechStartDetected ∨ pathStr = path.speechEndDetected then
        deliver connection calls (onSpeechDetected lib pathStr json)
      else if pathStr = path.turnStart then
        deliver connection calls (onTurnStart lib json)
      else if pathStr = path.turnEnd then
        onTurnEnd requestId calls connection
      else if pathStr = path.speechHypothesis ∨ pathStr = path.speechFragment then
        deliver connection calls (onSpeechHypothesis lib pathStr json)
      else if pathStr = path.speechPhrase then
        deliver connection calls (onSpeechPhrase lib json)
      else if pathStr = path.translationHypothesis then
        deliver connection calls (onTranslationHypothesis lib json)
      else if pathStr = path.translationPhrase then
        deliver connection calls (onTranslationPhrase lib json)
      else if pathStr = path.translationSynthesisEnd then
        deliver connection calls (onTranslationSynthesisEnd json)
      else
        deliver connection calls
          (.ok [.OnUserMessage pathStr (contentType.getD "") buffer size])

/-- `OnTransportData` (lines 753-1032). A null `responseHeader` is `none`;
a response without the request-id header makes line 772 build a
`std::string` from a null pointer. -/
def OnTransportData (lib : Lib) (responseHeader : Option HttpHeaders) (buffer : Buffer)
    (size : Nat) (errorCode : Nat) (connection : Impl) : Outcome :=
  if errorCode ≠ 0 then ⟨connection, [], none⟩
  else
    match responseHeader with
    | none => ⟨connection, [], none⟩
    | some h =>
      match HTTPHeaders_FindHeaderValue h headers.requestId with
      | none => ⟨connection, [], some (.undefined "std::string from a null pointer")⟩
      | some requestId =>
        if requestId = "" ∨ requestId ∉ connection.m_activeRequestIds then
          ⟨connection, [], none⟩
        else
          match HTTPHeaders_FindHeaderValue h KEYWORD_PATH with
          | none => ⟨connection, [], none⟩
          | some pathStr =>
            let contentType :=
              if size ≠ 0 then HTTPHeaders_FindHeaderValue h headers.contentType else none
            if size ≠ 0 ∧ contentType = none then ⟨connection, [], none⟩
            else dispatch lib requestId pathStr contentType buffer size connection

/-! ## Sequences of operations -/

/-- The parameters of the model: the constants and the functions taken from
code that is not among the sources. -/
structure World where
  k : EndpointConstants
  enc : String → String
  lib : Lib

/-- An operation on the connection with its arguments and with what the
collaborators answer while it runs: a call of the public interface, the start
of the worker, or a callback of the transport. -/
inductive Op where
  | Connect (env : ConnectEnv)
  | SignalConnected
  | Shutdown
  | QueueMessage (env : Env) (path : String) (data : Option Buffer) (size : Nat)
      (messageType : MessageType)
  | QueueAudioSegment (env : Env) (data : Option Buffer) (size : Nat)
  | QueueAudioEnd (env : Env)
  | OnTransportData (responseHeader : Option HttpHeaders) (buffer : Buffer) (size : Nat)
      (errorCode : Nat)
  | OnTransportError (errorInfo : TransportErrorInfo)

/-- One operation, run under the mutex of the connection. -/
def step (w : World) (op : Op) (c : Impl) : Outcome :=
  match op with
  | .Connect env => Connect w.k w.enc env c
  | .SignalConnected => ⟨SignalConnected c, [], none⟩
  | .Shutdown => Shutdown c
  | .QueueMessage env path data size messageType =>
    QueueMessage env path data size messageType c
  | .QueueAudioSegment env data size => QueueAudioSegment env data size c
  | .QueueAudioEnd env => QueueAudioEnd env c
  | .OnTransportData responseHeader buffer size errorCode =>
    OnTransportData w.lib responseHeader buffer size errorCode c
  | .OnTransportError errorInfo => OnTransportError errorInfo c

/-- The state after a sequence of operations; an operation that throws
leaves the state it had at the `throw`, and the caller goes on. -/
def run (w : World) : List Op → Impl → Impl
  | [], c => c
  | op :: ops, c => run w ops (step w op c).state

/-- The calls made by a sequence of operations, in order. -/
def trace (w : World) : List Op → Impl → List Call
  | [], _ => []
  | op :: ops, c => (step w op c).calls ++ trace w ops (step w op c).state

/-- One call of `QueueAudioSegment` with non-null data: the bytes, the size
and what the collaborators answer. -/
structure AudioSegment where
  env : Env
  data : Buffer
  size : Nat

/-- The call of `QueueAudioSegment` for a segment. -/
def AudioSegment.op (s : AudioSegment) : Op :=
  .QueueAudioSegment s.env (some s.data) s.size

/-- The sum of the sizes of a run of segments. -/
def totalSize (segs : List AudioSegment) : Nat :=
  (segs.map AudioSegment.size).sum

/-- The request-id invariant of §3: a speech request id that is set is one of
the active request ids. -/
def RequestIdInvariant (c : Impl) : Prop :=
  c.m_speechRequestId ≠ "" → c.m_speechRequestId ∈ c.m_activeRequestIds

instance (c : Impl) : Decidable (RequestIdInvariant c) := by
  unfold RequestIdInvariant
  infer_instance

/-! ## Classes of calls and of operations -/

/-- Whether a call delivers a user callback. -/
def Call.isInvoke : Call → Bool
  | .Invoke _ => true
  | _ => false

/-- Whether a call is a call of the transport. -/
def Call.isTransport : Call → Bool
  | .TransportRequestCreate _ _ _ => true
  | .TransportMessageWrite _ _ _ _ => true
  | .TransportStreamPrepare _ => true
  | .TransportStreamWrite _ _ _ => true
  | .TransportStreamFlush _ => true
  | _ => false

/-- The operations of a connection in use: the calls of the send API and the
callbacks of the transport (inbound data, transport errors). -/
def Op.isEvent : Op → Bool
  | .QueueMessage _ _ _ _ _ => true
  | .QueueAudioSegment _ _ _ => true
  | .QueueAudioEnd _ => true
  | .OnTransportData _ _ _ _ => true
  | .OnTransportError _ => true
  | _ => false

/-- Whether an audio stream is prepared after `calls`, given whether one was
before: `TransportStreamPrepare` prepares a stream, `TransportStreamFlush`
ends it (the reading of "prepared in the current turn" of §3). -/
def streamPrepared : Bool → List Call → Bool
  | b, [] => b
  | _, .TransportStreamPrepare _ :: calls => streamPrepared true calls
  | _, .TransportStreamFlush _ :: calls => streamPrepared false calls
  | b, _ :: calls => streamPrepared b calls

/-- Whether the transport accepts the audio calls of an operation: the
answers to `TransportStreamPrepare` and `TransportStreamWrite` are 0. -/
def Op.audioAccepted : Op → Prop
  | .QueueAudioSegment env _ _ => env.TransportStreamPrepare = 0 ∧ env.TransportStreamWrite = 0
  | _ => True

/-- The number of audio bytes handed to `QueueAudioSegment` in a sequence of
operations. -/
def audioBytes : List Op → Nat
  | [] => 0
  | .QueueAudioSegment _ _ size :: ops => size + audioBytes ops
  | _ :: ops => audioBytes ops

instance (op : Op) : Decidable op.audioAccepted := by
  cases op <;> unfold Op.audioAccepted <;> infer_instance

/-! ## The worker -/

/-- Lines 150-172: one iteration of the loop of `WorkThread`, from the test
of `m_connected` to the reset of `m_haveWork` (the wait on the condition
variable is left out). `TransportDoWork` is what the transport does with the
connection during the call, with the exception that leaves it, if any; `what`
is `e.what()`. The callback set is the one captured on line 156. Undefined
behaviour is not an exception and is not caught. -/
def WorkThread_iteration (TransportDoWork : Impl → Outcome) (what : Exception → String)
    (connection : Impl) : Outcome :=
  if !connection.m_connected then ⟨connection, [], none⟩
  else
    let work := TransportDoWork connection
    match work.error with
    | none => ⟨{ work.state with m_haveWork := false }, work.calls, none⟩
    | some (.undefined s) => ⟨work.state, work.calls, some (.undefined s)⟩
    | some e =>
      let invoked := Invoke { work.state with m_callbacks := connection.m_callbacks }
        [.OnError false .RuntimeError (what e)]
      match invoked.2 with
      | some e2 => ⟨work.state, work.calls ++ invoked.1, some e2⟩
      | none => ⟨{ work.state with m_haveWork := false }, work.calls ++ invoked.1, none⟩

/-! ## The shape of the query string -/

/-- One query parameter as lines 284-343 append it: `&`, the name of the
parameter, and the value, which is copied from the configuration (model id,
language), is the literal `requireVoice`, or comes out of the encoder. -/
def IsParam (k : EndpointConstants) (enc : String → String) (m_config : Client)
    (p : String) : Prop :=
  ∃ name value, p = "&" ++ name ++ value ∧
    name ∈ [k.unifiedspeech_deploymentIdQueryParam, endpoint.unifiedspeech.langQueryParam,
      endpoint.translation.from_, endpoint.translation.to_, endpoint.translation.features,
      endpoint.translation.voice] ∧
    (value = m_config.m_modelId ∨ value = m_config.m_language ∨
      value = endpoint.translation.requireVoice ∨ ∃ s, value = enc s)

/-- The string `u` is `oss` followed by query parameters, each introduced by
`&`. -/
def ParamsAppended (k : EndpointConstants) (enc : String → String) (m_config : Client)
    (oss u : String) : Prop :=
  ∃ pieces : List String, u = oss ++ String.join pieces ∧
    ∀ p ∈ pieces, IsParam k enc m_config p

/-- The strings that `ConstructConnectionUrl` writes to the URL as they are
for this configuration, the custom endpoint URL and the literals of the source
apart: without a custom endpoint URL, the region or the intent region and the
host and path constants of the endpoint kind (lines 246-273); and the name and
the value of the parameter that lines 287-311 append without encoding. -/
def copiedStrings (k : EndpointConstants) (m_config : Client) : List String :=
  (if m_config.m_customEndpointUrl ≠ "" then []
    else
      match m_config.m_endpoint with
      | .Speech => [m_config.m_region]
      | .Translation => [m_config.m_region, k.translation_hostnameSuffix, k.translation_path]
      | .Intent =>
        [k.luis_hostname, k.luis_pathPrefix1, m_config.m_intentRegion, k.luis_pathPrefix2,
          k.luis_pathSuffix]
      | .CDSDK => [k.CDSDK_url]
      | .CustomEndpoint => [])
  ++ (match m_config.m_endpoint with
      | .Speech =>
        if m_config.m_modelId ≠ "" then
          [k.unifiedspeech_deploymentIdQueryParam, m_config.m_modelId]
        else [m_config.m_language]
      | .Intent => [m_config.m_language]
      | _ => [])

/-- The NBest rule in the words of the specification, over the pairs of
confidence and display text of the array: the display text of the first
element whose confidence is strictly greater than `floor` and is the maximum
over the array, and `fallback` when there is no such element. The rule for
`speech.phrase` has the floor 0 and the empty string as fallback. -/
def nbestChoice (floor : Rat) (fallback : String) (entries : List (Rat × String)) : String :=
  match entries.find? fun e => decide (floor < e.1 ∧ ∀ y ∈ entries, y.1 ≤ e.1) with
  | some e => e.2
  | none => fallback

/-- An element of the NBest array with a number `Confidence` and a string
`Display`, and the pair of the two. -/
def IsNBestEntry (item : Json) (e : Rat × String) : Prop :=
  (∃ confidence, item.at_ json_properties.confidence = .ok confidence ∧
    confidence.get_double = .ok e.1) ∧
  item.at_ json_properties.display = .ok (.string e.2)

/-- The translations map in the words of the specification, over the pairs
of language and text of the `Translations` array: a language is sent to the
text of the last entry with that language among the entries that are not
both-empty. -/
def translationsLookup (entries : List (String × String)) (l : String) : Option String :=
  (((entries.filter fun e => !(decide (e.1 = "") && decide (e.2 = ""))).reverse.find?
    fun e => decide (e.1 = l)).map Prod.snd)

/-- The value of the key `key` in a `std::map` built by `mapAssign`. -/
def mapLookup (m : List (String × String)) (key : String) : Option String :=
  (m.find? fun p => decide (p.1 = key)).map Prod.snd

/-- An element of the `Translations` array with strings `Language` and
`Text`, and the pair of the two. -/
def IsTranslationEntry (item : Json) (e : String × String) : Prop :=
  item.at_ json_properties.lang = .ok (.string e.1) ∧
  item.at_ json_properties.text = .ok (.string e.2)

/-- Sample values for the constants the specification leaves open. -/
def sampleConstants : EndpointConstants where
  unifiedspeech_deploymentIdQueryParam := "cid="
  translation_hostnameSuffix := ".s2s.speech.microsoft.com"
  translation_path := "/speech/translation/cognitiveservices/v1"
  luis_hostname := "speech.platform.bing.com"
  luis_pathPrefix1 := "/speech/"
  luis_pathPrefix2 := "/recognition/"
  luis_pathSuffix := "/cognitiveservices/v1"
  CDSDK_url := "speech.platform.bing.com/cortana/api/v1?environment=Home&"

/-- Sample configuration: scenario 1 of §8. -/
def sampleSpeech : Client where
  m_endpoint := .Speech
  m_recoMode := .Interactive
  m_outputFormat := .Detailed
  m_region := "westus"
  m_intentRegion := ""
  m_language := "en-us"
  m_modelId := ""
  m_customEndpointUrl := ""
  m_translationSourceLanguage := ""
  m_translationTargetLanguages := ""
  m_translationVoice := ""
  m_authType := .SubscriptionKey
  m_authData := "key"
  m_connectionId := "c0"


/-- A sample of `EncodeParameterString` for concrete runs: unreserved
characters are kept, every other character becomes `%` and its code in
hexadecimal. The theorems hold for every encoder. -/
def sampleEncode (s : String) : String :=
  String.join (s.data.map fun c =>
    if c.isAlphanum || c = '-' || c = '_' || c = '.' then c.toString
    else "%" ++ String.mk (Nat.toDigits 16 c.toNat))

/-- Sample configuration: scenario 3 of §8. -/
def sampleTranslation : Client :=
  { sampleSpeech with
    m_endpoint := .Translation
    m_translationSourceLanguage := "en"
    m_translationTargetLanguages := "de,fr,es"
    m_translationVoice := "de-DE-Hedda" }

/-- Sample configuration: scenario 2 of §8. -/
def sampleIntent : Client :=
  { sampleSpeech with
    m_endpoint := .Intent
    m_recoMode := .Dictation
    m_outputFormat := .Simple
    m_intentRegion := "westus" }

/-- A sample JSON library for concrete runs: it parses the two bytes of an
empty object and rejects every other body. -/
def sampleLib : Lib where
  parse := fun b => if b = [123, 125] then some (.object []) else none
  dump := fun _ => "json"
  defaultTranslationStatus := .InvalidMessage

/-- The sample parameters of the model. -/
def sampleWorld : World := ⟨sampleConstants, sampleEncode, sampleLib⟩

/-- Collaborators of `Connect` that all succeed. -/
def sampleConnectEnv : ConnectEnv where
  HTTPHeaders_Alloc := true
  setAuthHeader := 0
  telemetry_create := true
  TransportRequestCreate := true
  linux := true
  DnsCacheCreate := true
  g_userAgent := "agent"

/-- A transport that accepts every call, and the GUID `guid`. -/
def sampleEnv (guid : String) : Env := ⟨guid, 0, 0, 0⟩

/-- The response headers of an inbound message without a body. -/
def sampleHeaders (requestId pathStr : String) : HttpHeaders :=
  [("X-RequestId", requestId), ("Path", pathStr)]

/-- A freshly constructed connection for the sample Speech configuration. -/
def sampleFresh : Impl where
  m_config := sampleSpeech
  m_callbacks := true
  m_connected := false
  m_haveWork := false
  m_audioOffset := 0
  m_activeRequestIds := ∅
  m_speechRequestId := ""
  m_transport := false
  m_telemetry := false
  m_worker := false

/-- A sample session: connect, open a turn with a context message, send
audio, receive `turn.end` for the turn, send audio again. -/
def sampleSession : List Op :=
  [.Connect sampleConnectEnv,
   .QueueMessage (sampleEnv "R1") "speech.context" (some [1]) 1 .Context,
   .QueueAudioSegment (sampleEnv "R2") (some [1, 2, 3, 4]) 4,
   .OnTransportData (some (sampleHeaders "R1" "turn.end")) [] 0 0,
   .QueueAudioSegment (sampleEnv "R3") (some [5, 6, 7, 8]) 4]

/-- The sample connection with a turn open: connected, with R1 as the
speech request id and no audio sent yet. -/
def sampleTurnOpen : Impl :=
  run sampleWorld (sampleSession.take 2) sampleFresh

/-- The sample connection after audio has been sent in the turn R1 and the
`turn.end` of R1 has arrived. -/
def sampleAfterTurnEnd : Impl :=
  run sampleWorld (sampleSession.take 4) sampleFresh

/-- Response headers of a `turn.end` for R1 that announce no content
type. -/
def sampleTurnEndHeaders : HttpHeaders :=
  [("X-RequestId", "R1"), ("Path", "turn.end")]

/-- Three audio segments of 2^63, 2^63 and 1 bytes on an accepting
transport: the sizes of the first two add up to 2^64. -/
def sampleWrappingAudio : List AudioSegment :=
  [⟨sampleEnv "R6", [1], 9223372036854775808⟩,
   ⟨sampleEnv "R7", [2], 9223372036854775808⟩,
   ⟨sampleEnv "R8", [3], 1⟩]

/-- Two audio segments of 4 and 2 bytes on an accepting transport. -/
def sampleAudio : List AudioSegment :=
  [⟨sampleEnv "R6", [1, 2, 3, 4], 4⟩, ⟨sampleEnv "R7", [5, 6], 2⟩]

/-- A sample JSON library whose parser answers `json` for every body. -/
def sampleLibFor (json : Json) : Lib where
  parse := fun _ => some json
  dump := fun _ => "json"
  defaultTranslationStatus := .InvalidMessage

/-- A transport that prepares the stream and then refuses the write. -/
def sampleRefusingEnv : Env := ⟨"R2", 0, -1, 0⟩

/-- Response headers of a message with a JSON body. -/
def sampleJsonHeaders (requestId pathStr : String) : HttpHeaders :=
  [("X-RequestId", requestId), ("Path", pathStr), ("Content-Type", "application/json")]

/-- A detailed `speech.phrase` whose only NBest entry has confidence 0. -/
def sampleZeroConfidencePhrase : Json :=
  .object [("Duration", .number_integer 100),
    ("NBest", .array [.object [("Confidence", .number_integer 0), ("Display", .string "a")]]),
    ("Offset", .number_integer 0),
    ("RecognitionStatus", .string "Success")]

/-- The detailed `speech.phrase` of scenario 5 of §8. -/
def sampleNBestPhrase : Json :=
  .object [("Duration", .number_integer 100),
    ("NBest", .array [
      .object [("Confidence", .number_float (Rat.divInt 1 2)), ("Display", .string "a")],
      .object [("Confidence", .number_float (Rat.divInt 9 10)), ("Display", .string "b")],
      .object [("Confidence", .number_float (Rat.divInt 4 5)), ("Display", .string "c")]]),
    ("Offset", .number_integer 0),
    ("RecognitionStatus", .string "Success")]

/-- The members of a `speech.phrase` with a display text and, besides, an
NBest array. -/
def sampleSimpleMembers : List (String × Json) :=
  [("DisplayText", .string "hello"),
    ("Duration", .number_integer 100),
    ("NBest", .array [.object [("Confidence", .number_integer 1), ("Display", .string "a")]]),
    ("Offset", .number_integer 7),
    ("RecognitionStatus", .string "Success")]

/-- A simple `speech.phrase` with a display text. -/
def sampleSimplePhrase : Json :=
  .object sampleSimpleMembers

/-- A session in which the transport prepares the audio stream and then
refuses the first write. -/
def sampleRefusedSession : List Op :=
  [.Connect sampleConnectEnv, .QueueAudioSegment sampleRefusingEnv (some [1]) 1]

/-- A `translation.phrase` with recognition status and translation status
`Success` whose `Translation` object has no `Translations` array. -/
def sampleTranslationWithoutTexts : Json :=
  .object [("Duration", .number_integer 100),
    ("Offset", .number_integer 0),
    ("RecognitionStatus", .string "Success"),
    ("Translation", .object [("TranslationStatus", .string "Success")])]

/-- The members of a `translation.phrase` with recognition status `Success`
and translation status `Error`. -/
def sampleFailedTranslationMembers : List (String × Json) :=
  [("Duration", .number_integer 100),
    ("Offset", .number_integer 0),
    ("RecognitionStatus", .string "Success"),
    ("Translation", .object [("FailureReason", .string "no model"),
      ("TranslationStatus", .string "Error")])]

/-- The members of a `translation.phrase` with the recognition status
`NoMatch`. -/
def sampleNoMatchTranslationMembers : List (String × Json) :=
  [("Duration", .number_integer 100),
    ("Offset", .number_integer 0),
    ("RecognitionStatus", .string "NoMatch")]

/-- The members of a `speech.phrase` whose recognition status is none of the
ten known strings. -/
def sampleUnknownStatusMembers : List (String × Json) :=
  [("Duration", .number_integer 100),
    ("Offset", .number_integer 0),
    ("RecognitionStatus", .string "Bogus")]

/-- A sample of `e.what()`. -/
def sampleWhat : Exception → String
  | .InvalidArgument s => s
  | .LogicError s => s
  | .RuntimeError s => s
  | .json_parse_error => "parse error"
  | .json_type_error => "type error"
  | .json_out_of_range => "out of range"
  | .system_error => "system error"
  | .undefined s => s

/-- Sample configuration of kind CDSDK. -/
def sampleCDSDK : Client :=
  { sampleSpeech with m_endpoint := .CDSDK }

/-- Sample configuration with a model id and a custom endpoint URL that
already has a query. -/
def sampleCustom : Client :=
  { sampleSpeech with
    m_modelId := "m1"
    m_customEndpointUrl := "wss://example.com/speech?cid=m0" }

/-- A freshly constructed connection for the sample CDSDK configuration with
an authorization token. -/
def sampleFreshCDSDK : Impl :=
  { sampleFresh with
    m_config := { sampleCDSDK with m_authType := .AuthorizationToken, m_authData := "tok" } }

/-- The sample connection after `Connect` and one agent message, which
created the request id R1 and left the speech request id empty. -/
def sampleAgentTurn : Impl :=
  run sampleWorld
    [.Connect sampleConnectEnv, .QueueMessage (sampleEnv "R1") "agent" (some [1]) 1 .Agent]
    sampleFresh

/-- The sample connection after `Connect`, the context message of the turn R1
and one audio segment of 4 bytes. -/
def sampleAudioSent : Impl :=
  run sampleWorld (sampleSession.take 3) sampleFresh

/-- A transport whose flush fails. -/
def sampleFailingFlushEnv : Env := ⟨"R9", 0, 0, -1⟩

/-- The members of the detailed `speech.phrase` of scenario 5 of §8. -/
def sampleNBestMembers : List (String × Json) :=
  [("Duration", .number_integer 100),
    ("NBest", .array [
      .object [("Confidence", .number_float (Rat.divInt 1 2)), ("Display", .string "a")],
      .object [("Confidence", .number_float (Rat.divInt 9 10)), ("Display", .string "b")],
      .object [("Confidence", .number_float (Rat.divInt 4 5)), ("Display", .string "c")]]),
    ("Offset", .number_integer 0),
    ("RecognitionStatus", .string "Success")]

/-- The elements of a `Translations` array: two entries for `de`, one entry
with both fields empty and one with an empty language only. -/
def sampleTranslationItems : List Json :=
  [.object [("Language", .string "de"), ("Text", .string "a")],
   .object [("Language", .string ""), ("Text", .string "")],
   .object [("Language", .string "de"), ("Text", .string "b")],
   .object [("Language", .string ""), ("Text", .string "x")]]

/-- The members of a `translation.hypothesis` with these translations. -/
def sampleTranslationsMembers : List (String × Json) :=
  [("Duration", .number_integer 100),
    ("Offset", .number_integer 0),
    ("Translation", .object [("Translations", .array sampleTranslationItems)])]

/-! # Theorems -/

/-! ## Lemmas on strings -/

theorem firstIndex_eq_none {c : Char} {l : List Char} (h : firstIndex c l = none) : c ∉ l := by
  induction l with
  | nil => simp
  | cons x xs ih =>
    simp only [firstIndex] at h
    split at h
    · simp at h
    · rename_i hx
      simp only [Option.map_eq_none'] at h
      simp only [List.mem_cons, not_or]
      exact ⟨fun hc => hx hc.symm, ih h⟩

theorem firstIndex_eq_some {c : Char} {l : List Char} {i : Nat} (h : firstIndex c l = some i) :
    c ∉ l.take i ∧ l = l.take i ++ c :: l.drop (i + 1) := by
  induction l generalizing i with
  | nil => simp [firstIndex] at h
  | cons x xs ih =>
    simp only [firstIndex] at h
    split at h
    · rename_i hx
      simp only [Option.some.injEq] at h
      subst h
      simp [hx]
    · rename_i hx
      simp only [Option.map_eq_some'] at h
      obtain ⟨j, hj, rfl⟩ := h
      obtain ⟨h1, h2⟩ := ih hj
      refine ⟨?_, ?_⟩
      · simp only [List.take_succ_cons, List.mem_cons, not_or]
        exact ⟨fun hc => hx hc.symm, h1⟩
      · simp only [List.take_succ_cons, List.drop_succ_cons, List.cons_append]
        exact congrArg _ h2

theorem String_join_cons (a : String) (l : List String) :
    String.join (a :: l) = a ++ String.join l := by
  have key : ∀ (l : List String) (acc : String),
      List.foldl (fun r s => r ++ s) acc l = acc ++ List.foldl (fun r s => r ++ s) "" l := by
    intro l
    induction l with
    | nil => intro acc; simp
    | cons x xs ih =>
      intro acc
      simp only [List.foldl_cons]
      rw [ih (acc ++ x), ih ("" ++ x)]
      simp [String.append_assoc]
  simp only [String.join, List.foldl_cons]
  rw [key l ("" ++ a)]
  simp


theorem appendTargets_pieces (enc : String → String) (t : String) :
    ∀ (fuel start : Nat) (oss : String),
      (t.data.drop start).count ',' < fuel →
      ∃ pieces : List String,
        pieces.length = (t.data.drop start).count ',' + 1 ∧
        (∀ p ∈ pieces, ',' ∉ p.data) ∧
        [','].intercalate (pieces.map String.data) = t.data.drop start ∧
        appendTargets enc t fuel start (find_first_of t ',' start) oss
          = oss ++ String.join (pieces.map fun p => "&to=" ++ enc p) := by
  intro fuel
  induction fuel with
  | zero => intro start oss h; omega
  | succ fuel ih =>
    intro start oss hfuel
    cases hf : firstIndex ',' (t.data.drop start) with
    | none =>
      have hno := firstIndex_eq_none hf
      refine ⟨[⟨t.data.drop start⟩], ?_, ?_, ?_, ?_⟩
      · simp [List.count_eq_zero_of_not_mem hno]
      · simpa using hno
      · simp [List.intercalate]
      · simp [find_first_of, hf, appendTargets, substr, String_join_cons, String.join,
          endpoint.translation.to_, String.append_assoc]
    | some i =>
      obtain ⟨h1, h2⟩ := firstIndex_eq_some hf
      have hcount : (t.data.drop start).count ','
          = (t.data.drop (start + i + 1)).count ',' + 1 := by
        conv_lhs => rw [h2]
        rw [List.count_append, List.count_eq_zero_of_not_mem h1, List.count_cons_self,
          List.drop_drop]
        rw [Nat.add_assoc start i 1]; omega
      obtain ⟨ps, hlen, hcomma, hjoin, hrun⟩ :=
        ih (start + i + 1)
          (oss ++ "&" ++ endpoint.translation.to_
            ++ enc (substr t start (some (start + i - start)))) (by omega)
      refine ⟨⟨(t.data.drop start).take i⟩ :: ps, ?_, ?_, ?_, ?_⟩
      · simp [hlen, hcount]
      · intro p hp
        rcases List.mem_cons.1 hp with rfl | hp
        · exact h1
        · exact hcomma p hp
      · cases ps with
        | nil => simp at hlen
        | cons q qs =>
          have hj : [','].intercalate (List.map String.data (q :: qs))
              = (t.data.drop start).drop (i + 1) := by
            rw [hjoin, List.drop_drop, Nat.add_assoc start i 1]
          conv_rhs => rw [h2]
          rw [← hj]
          simp [List.intercalate, List.intersperse]
      · simp only [find_first_of, hf, Option.map_some', appendTargets]
        simp only [find_first_of] at hrun
        rw [hrun]
        simp [substr, String_join_cons, endpoint.translation.to_, String.append_assoc]

/-- Claim C1: for a configuration with no custom endpoint URL, endpoint kind
Speech, no model id and a non-empty language, the URL is the protocol, the
region, the unified-speech host and path with the recognition mode, the
output format and the language. -/
theorem C1_speech_url (k : EndpointConstants) (enc : String → String) (cfg : Client)
    (hcustom : cfg.m_customEndpointUrl = "") (hkind : cfg.m_endpoint = .Speech)
    (hmodel : cfg.m_modelId = "") (hlang : cfg.m_language ≠ "") :
    ConstructConnectionUrl k enc cfg
      = .ok ("wss://" ++ cfg.m_region ++ ".stt.speech.microsoft.com/speech/recognition/"
          ++ (match cfg.m_recoMode with
              | .Interactive => "interactive"
              | .Conversation => "conversation"
              | .Dictation => "dictation")
          ++ "/cognitiveservices/v1?format="
          ++ (match cfg.m_outputFormat with
              | .Simple => "simple"
              | .Detailed => "detailed")
          ++ "&language=" ++ cfg.m_language) := by
  have e1 : ∀ a b : String, a ++ ".stt.speech.microsoft.com/speech/recognition/" ++ b
      = a ++ ".stt.speech.microsoft.com" ++ "/speech/recognition/" ++ b := by
    intro a b
    rw [String.append_assoc a ".stt.speech.microsoft.com" "/speech/recognition/"]
    rfl
  have e2 : ∀ a b : String, a ++ "/cognitiveservices/v1?format=" ++ b
      = a ++ "/cognitiveservices/v1" ++ "?" ++ "format=" ++ b := by
    intro a b
    rw [String.append_assoc a "/cognitiveservices/v1" "?",
      String.append_assoc a _ "format="]
    rfl
  have e3 : ∀ a b : String, a ++ "&language=" ++ b = a ++ "&" ++ "language=" ++ b := by
    intro a b
    rw [String.append_assoc a "&" "language="]
    rfl
  rw [e1, e2, e3]
  cases hm : cfg.m_recoMode <;> cases hf : cfg.m_outputFormat <;>
    simp [ConstructConnectionUrl, urlBase, appendFormat, appendParams, hcustom, hkind, hmodel,
      hlang, hm, hf, RecognitionMode.toNat, OutputFormat.toNat, g_recoModeStrings,
      g_outFormatStrings, endpoint.protocol, endpoint.unifiedspeech.hostnameSuffix,
      endpoint.unifiedspeech.pathPrefix, endpoint.unifiedspeech.pathSuffix,
      endpoint.unifiedspeech.outputFormatQueryParam, endpoint.unifiedspeech.langQueryParam]

/-- Witness of C1: scenario 1 of §8 (region westus, Interactive, Detailed,
language en-us). -/
theorem C1_speech_url_witness :
    ConstructConnectionUrl sampleConstants id sampleSpeech
      = .ok ("wss://westus.stt.speech.microsoft.com/speech/recognition/interactive"
          ++ "/cognitiveservices/v1?format=detailed&language=en-us") :=
  C1_speech_url sampleConstants id sampleSpeech rfl rfl rfl (by decide)


/-- Claim C2: for a configuration with no custom endpoint URL and endpoint
kind Translation, the builder appends after the format parameter exactly
`&from=` and the encoded source language, then one `&to=` parameter for each
of the k+1 comma-separated pieces of the target string, in order, then
`&features=texttospeech&voice=` and the encoded voice when the voice is not
empty, and nothing else. -/
theorem C2_translation_params (k : EndpointConstants) (enc : String → String) (cfg : Client)
    (hcustom : cfg.m_customEndpointUrl = "") (hkind : cfg.m_endpoint = .Translation) :
    ∃ pieces : List String,
      pieces.length = cfg.m_translationTargetLanguages.data.count ',' + 1 ∧
      (∀ p ∈ pieces, ',' ∉ p.data) ∧
      [','].intercalate (pieces.map String.data) = cfg.m_translationTargetLanguages.data ∧
      ConstructConnectionUrl k enc cfg
        = .ok ("wss://" ++ cfg.m_region ++ k.translation_hostnameSuffix ++ k.translation_path
            ++ "?format="
            ++ (match cfg.m_outputFormat with
                | .Simple => "simple"
                | .Detailed => "detailed")
            ++ "&from=" ++ enc cfg.m_translationSourceLanguage
            ++ String.join (pieces.map fun p => "&to=" ++ enc p)
            ++ (if cfg.m_translationVoice = "" then ""
                else "&features=texttospeech&voice=" ++ enc cfg.m_translationVoice)) := by
  obtain ⟨pieces, hlen, hcomma, hjoin, hrun⟩ :=
    appendTargets_pieces enc cfg.m_translationTargetLanguages
      (cfg.m_translationTargetLanguages.length + 1) 0
      ("wss://" ++ cfg.m_region ++ k.translation_hostnameSuffix ++ k.translation_path
        ++ "?" ++ "format="
        ++ (match cfg.m_outputFormat with
            | .Simple => "simple"
            | .Detailed => "detailed")
        ++ "&" ++ "from=" ++ enc cfg.m_translationSourceLanguage)
      (by
        have := List.count_le_length ',' (List.drop 0 cfg.m_translationTargetLanguages.data)
        simp only [List.drop_zero] at this ⊢
        exact Nat.lt_succ_of_le this)
  refine ⟨pieces, by simpa using hlen, hcomma, by simpa using hjoin, ?_⟩
  have e2 : ∀ a b : String, a ++ "?format=" ++ b = a ++ "?" ++ "format=" ++ b := by
    intro a b
    rw [String.append_assoc a "?" "format="]
    rfl
  have e3 : ∀ a b : String, a ++ "&from=" ++ b = a ++ "&" ++ "from=" ++ b := by
    intro a b
    rw [String.append_assoc a "&" "from="]
    rfl
  have e4 : ∀ a b : String, a ++ ("&features=texttospeech&voice=" ++ b)
      = a ++ "&" ++ "features=" ++ "texttospeech" ++ "&" ++ "voice=" ++ b := by
    intro a b
    simp only [String.append_assoc]
    rfl
  rw [e2, e3]
  cases hf : cfg.m_outputFormat <;> simp only [hf] at hrun <;>
    by_cases hv : cfg.m_translationVoice = "" <;>
    simp [ConstructConnectionUrl, urlBase, appendFormat, appendParams, hcustom, hkind, hrun,
      hf, hv, e4, OutputFormat.toNat, g_outFormatStrings, endpoint.protocol,
      endpoint.unifiedspeech.outputFormatQueryParam, endpoint.translation.from_,
      endpoint.translation.features, endpoint.translation.requireVoice,
      endpoint.translation.voice]

/-- Witness of C2: scenario 3 of §8 (source en, targets de,fr,es, voice
de-DE-Hedda). -/
theorem C2_translation_params_witness :
    (∃ pieces : List String,
      pieces.length = sampleTranslation.m_translationTargetLanguages.data.count ',' + 1 ∧
      (∀ p ∈ pieces, ',' ∉ p.data) ∧
      [','].intercalate (pieces.map String.data)
        = sampleTranslation.m_translationTargetLanguages.data ∧
      ConstructConnectionUrl sampleConstants sampleEncode sampleTranslation
        = .ok ("wss://" ++ sampleTranslation.m_region
            ++ sampleConstants.translation_hostnameSuffix ++ sampleConstants.translation_path
            ++ "?format="
            ++ (match sampleTranslation.m_outputFormat with
                | .Simple => "simple"
                | .Detailed => "detailed")
            ++ "&from=" ++ sampleEncode sampleTranslation.m_translationSourceLanguage
            ++ String.join (pieces.map fun p => "&to=" ++ sampleEncode p)
            ++ (if sampleTranslation.m_translationVoice = "" then ""
                else "&features=texttospeech&voice="
                  ++ sampleEncode sampleTranslation.m_translationVoice))) ∧
    ConstructConnectionUrl sampleConstants sampleEncode sampleTranslation
      = .ok ("wss://westus.s2s.speech.microsoft.com/speech/translation/cognitiveservices/v1"
          ++ "?format=detailed&from=en&to=de&to=fr&to=es"
          ++ "&features=texttospeech&voice=de-DE-Hedda") :=
  ⟨C2_translation_params sampleConstants sampleEncode sampleTranslation rfl rfl, by decide⟩

/-- Claim C3: for a configuration with no custom endpoint URL and endpoint
kind Intent, changing only the recognition mode does not change the URL, and
the URL has the mode segment `interactive` between the intent-region path
prefix and the path suffix. -/
theorem C3_intent_ignores_mode (k : EndpointConstants) (enc : String → String) (cfg : Client)
    (m1 m2 : RecognitionMode)
    (hcustom : cfg.m_customEndpointUrl = "") (hkind : cfg.m_endpoint = .Intent) :
    ConstructConnectionUrl k enc { cfg with m_recoMode := m1 }
      = ConstructConnectionUrl k enc { cfg with m_recoMode := m2 } ∧
    ConstructConnectionUrl k enc { cfg with m_recoMode := m1 }
      = .ok ("wss://" ++ k.luis_hostname ++ k.luis_pathPrefix1 ++ cfg.m_intentRegion
          ++ k.luis_pathPrefix2 ++ "interactive" ++ k.luis_pathSuffix
          ++ "?format="
          ++ (match cfg.m_outputFormat with
              | .Simple => "simple"
              | .Detailed => "detailed")
          ++ (if cfg.m_language = "" then "" else "&language=" ++ cfg.m_language)) := by
  have e2 : ∀ a b : String, a ++ "?format=" ++ b = a ++ "?" ++ "format=" ++ b := by
    intro a b
    rw [String.append_assoc a "?" "format="]
    rfl
  have e3 : ∀ a b : String, a ++ ("&language=" ++ b) = a ++ "&" ++ "language=" ++ b := by
    intro a b
    simp only [String.append_assoc]
    rfl
  rw [e2]
  constructor
  · simp [ConstructConnectionUrl, urlBase, appendFormat, appendParams, hcustom, hkind]
  · cases hf : cfg.m_outputFormat <;> by_cases hl : cfg.m_language = "" <;>
      simp [ConstructConnectionUrl, urlBase, appendFormat, appendParams, hcustom, hkind, hf, hl,
        e3, RecognitionMode.toNat, OutputFormat.toNat, g_recoModeStrings, g_outFormatStrings,
        endpoint.protocol, endpoint.unifiedspeech.outputFormatQueryParam,
        endpoint.unifiedspeech.langQueryParam]

/-- Witness of C3: scenario 2 of §8 (intent region westus, Dictation, Simple,
language en-us). -/
theorem C3_intent_ignores_mode_witness :
    (ConstructConnectionUrl sampleConstants sampleEncode
        { sampleIntent with m_recoMode := .Dictation }
      = ConstructConnectionUrl sampleConstants sampleEncode
        { sampleIntent with m_recoMode := .Interactive } ∧
    ConstructConnectionUrl sampleConstants sampleEncode
        { sampleIntent with m_recoMode := .Dictation }
      = .ok ("wss://" ++ sampleConstants.luis_hostname ++ sampleConstants.luis_pathPrefix1
          ++ sampleIntent.m_intentRegion
          ++ sampleConstants.luis_pathPrefix2 ++ "interactive" ++ sampleConstants.luis_pathSuffix
          ++ "?format="
          ++ (match sampleIntent.m_outputFormat with
              | .Simple => "simple"
              | .Detailed => "detailed")
          ++ (if sampleIntent.m_language = "" then ""
              else "&language=" ++ sampleIntent.m_language))) ∧
    ConstructConnectionUrl sampleConstants sampleEncode sampleIntent
      = .ok ("wss://speech.platform.bing.com/speech/westus/recognition/interactive"
          ++ "/cognitiveservices/v1?format=simple&language=en-us") :=
  ⟨C3_intent_ignores_mode sampleConstants sampleEncode sampleIntent .Dictation .Interactive
    rfl rfl, by decide⟩


/-! ## Lemmas on the state machine -/

theorem deliver_state (c : Impl) (calls : List Call) (r : Except Exception (List Callback)) :
    (deliver c calls r).state = c := by
  unfold deliver
  cases r <;> rfl

theorem dispatch_state (lib : Lib) (requestId pathStr : String) (contentType : Option String)
    (buffer : Buffer) (size : Nat) (c : Impl) :
    (dispatch lib requestId pathStr contentType buffer size c).state = c ∨
    (dispatch lib requestId pathStr contentType buffer size c).state = endTurn requestId c := by
  unfold dispatch
  simp only
  split
  · exact Or.inl (deliver_state _ _ _)
  · split
    · exact Or.inl rfl
    · split_ifs
      all_goals first
        | exact Or.inl (deliver_state _ _ _)
        | exact Or.inr (by simp [onTurnEnd, deliver_state])

theorem OnTransportData_state (lib : Lib) (responseHeader : Option HttpHeaders)
    (buffer : Buffer) (size errorCode : Nat) (c : Impl) :
    (OnTransportData lib responseHeader buffer size errorCode c).state = c ∨
    ∃ requestId, (OnTransportData lib responseHeader buffer size errorCode c).state
      = endTurn requestId c := by
  unfold OnTransportData
  by_cases he : errorCode ≠ 0
  · rw [if_pos he]; exact Or.inl rfl
  rw [if_neg he]
  cases responseHeader with
  | none => exact Or.inl rfl
  | some h =>
    simp only
    cases HTTPHeaders_FindHeaderValue h headers.requestId with
    | none => exact Or.inl rfl
    | some requestId =>
      simp only
      by_cases ha : requestId = "" ∨ requestId ∉ c.m_activeRequestIds
      · rw [if_pos ha]; exact Or.inl rfl
      rw [if_neg ha]
      cases HTTPHeaders_FindHeaderValue h KEYWORD_PATH with
      | none => exact Or.inl rfl
      | some pathStr =>
        simp only
        by_cases hs : size ≠ 0
        · simp only [if_pos hs]
          by_cases hc : size ≠ 0 ∧ HTTPHeaders_FindHeaderValue h headers.contentType = none
          · rw [if_pos hc]; exact Or.inl rfl
          · rw [if_neg hc]
            rcases dispatch_state lib requestId pathStr
              (HTTPHeaders_FindHeaderValue h headers.contentType) buffer size c with e | e
            · exact Or.inl e
            · exact Or.inr ⟨requestId, e⟩
        · simp only [if_neg hs]
          have hc : ¬ (size ≠ 0 ∧ True) := fun x => hs x.1
          rw [if_neg hc]
          rcases dispatch_state lib requestId pathStr none buffer size c with e | e
          · exact Or.inl e
          · exact Or.inr ⟨requestId, e⟩

theorem endTurn_invariant (requestId : String) (c : Impl) (h : RequestIdInvariant c) :
    RequestIdInvariant (endTurn requestId c) := by
  unfold RequestIdInvariant endTurn at *
  by_cases hr : requestId = c.m_speechRequestId
  · simp [hr]
  · simp only [hr, if_false]
    intro hne
    exact Finset.mem_erase.2 ⟨fun e => hr e.symm, h hne⟩

theorem QueueMessage_invariant (env : Env) (path : String) (data : Option Buffer) (size : Nat)
    (messageType : MessageType) (c : Impl) (h : RequestIdInvariant c) :
    RequestIdInvariant (QueueMessage env path data size messageType c).state := by
  unfold QueueMessage
  cases data with
  | none => exact h
  | some d =>
    simp only
    split_ifs
    all_goals first
      | exact h
      | (unfold RequestIdInvariant at *
         simp only [SignalWork, CreateRequestId]
         first
           | (intro _; exact Finset.mem_insert_self _ _)
           | (intro hne; exact Finset.mem_insert_of_mem (h hne)))

theorem QueueAudioEnd_invariant (env : Env) (c : Impl) (h : RequestIdInvariant c) :
    RequestIdInvariant (QueueAudioEnd env c).state := by
  unfold QueueAudioEnd
  simp only
  split_ifs <;> exact h

theorem prepareAudio_invariant (env : Env) (c : Impl) (h : RequestIdInvariant c) :
    RequestIdInvariant (prepareAudio env c).state := by
  unfold RequestIdInvariant at *
  unfold prepareAudio
  simp only [CreateRequestId]
  repeat' split
  all_goals simp_all

theorem QueueAudioSegment_invariant (env : Env) (data : Option Buffer) (size : Nat) (c : Impl)
    (h : RequestIdInvariant c) :
    RequestIdInvariant (QueueAudioSegment env data size c).state := by
  have hp := prepareAudio_invariant env c h
  have he := QueueAudioEnd_invariant env c h
  unfold QueueAudioSegment
  simp only [SignalWork]
  repeat' split
  all_goals first
    | exact h
    | exact hp
    | exact he

theorem Connect_frame (k : EndpointConstants) (enc : String → String) (env : ConnectEnv)
    (c : Impl) :
    (Connect k enc env c).state.m_speechRequestId = c.m_speechRequestId ∧
    (Connect k enc env c).state.m_activeRequestIds = c.m_activeRequestIds ∧
    (Connect k enc env c).state.m_audioOffset = c.m_audioOffset := by
  unfold Connect
  simp only [SignalConnected]
  repeat' split
  all_goals simp

theorem Connect_invariant (k : EndpointConstants) (enc : String → String) (env : ConnectEnv)
    (c : Impl) (h : RequestIdInvariant c) : RequestIdInvariant (Connect k enc env c).state := by
  obtain ⟨h1, h2, _⟩ := Connect_frame k enc env c
  unfold RequestIdInvariant at *
  rw [h1, h2]
  exact h

theorem step_invariant (w : World) (op : Op) (c : Impl) (h : RequestIdInvariant c) :
    RequestIdInvariant (step w op c).state := by
  cases op with
  | Connect env => exact Connect_invariant _ _ env c h
  | SignalConnected => exact h
  | Shutdown =>
    simp only [step, Shutdown]
    split_ifs <;> exact h
  | QueueMessage env path data size messageType =>
    exact QueueMessage_invariant env path data size messageType c h
  | QueueAudioSegment env data size => exact QueueAudioSegment_invariant env data size c h
  | QueueAudioEnd env => exact QueueAudioEnd_invariant env c h
  | OnTransportData responseHeader buffer size errorCode =>
    simp only [step]
    rcases OnTransportData_state w.lib responseHeader buffer size errorCode c with e | ⟨r, e⟩
    · rw [e]; exact h
    · rw [e]; exact endTurn_invariant r c h
  | OnTransportError errorInfo =>
    simp only [step, OnTransportError]
    split <;> exact h

theorem run_invariant (w : World) (ops : List Op) :
    ∀ c : Impl, RequestIdInvariant c → RequestIdInvariant (run w ops c) := by
  induction ops with
  | nil => intro c h; exact h
  | cons op ops ih => intro c h; exact ih _ (step_invariant w op c h)

theorem create_invariant (config : Client) (callbacks : Bool) (c : Impl)
    (h : Impl.create config callbacks = .ok c) : RequestIdInvariant c := by
  unfold Impl.create at h
  split_ifs at h
  simp only [Except.ok.injEq] at h
  subst h
  intro hne
  exact absurd rfl hne

/-- Claim C4: in every state reached from a freshly constructed connection by
a sequence of operations (calls of the send API, inbound data events,
transport errors, `Connect`, `Shutdown`, also when operations end with an
exception), a non-empty speech request id is one of the active request
ids. -/
theorem C4_request_id_invariant (w : World) (config : Client) (callbacks : Bool) (c0 : Impl)
    (ops : List Op) (h : Impl.create config callbacks = .ok c0) :
    (run w ops c0).m_speechRequestId ≠ "" →
      (run w ops c0).m_speechRequestId ∈ (run w ops c0).m_activeRequestIds :=
  run_invariant w ops c0 (create_invariant config callbacks c0 h)

/-- Witness of C4: after the sample connection has been connected, a context
message sent and an audio segment written, the speech request id is R1 and is
active. -/
theorem C4_request_id_invariant_witness :
    Impl.create sampleSpeech true = .ok sampleFresh ∧
    (run sampleWorld (sampleSession.take 3) sampleFresh).m_speechRequestId = "R1" ∧
    (run sampleWorld (sampleSession.take 3) sampleFresh).m_speechRequestId
      ∈ (run sampleWorld (sampleSession.take 3) sampleFresh).m_activeRequestIds :=
  ⟨by decide, by decide,
    C4_request_id_invariant sampleWorld sampleSpeech true sampleFresh (sampleSession.take 3)
      (by decide) (by decide)⟩

/-- Claim C5: on a connected connection whose speech request id is set,
`QueueMessage` with kind Context, a non-empty path and non-null data throws
`LogicError`, makes no call (no `TransportMessageWrite`, no request id) and
leaves the state, hence the active ids, the speech request id and the audio
offset, as it was. -/
theorem C5_second_context_rejected (env : Env) (path : String) (d : Buffer) (size : Nat)
    (c : Impl) (hconn : c.m_connected = true) (hspeech : c.m_speechRequestId ≠ "")
    (hpath : path ≠ "") :
    (∃ what, (QueueMessage env path (some d) size .Context c).error
      = some (.LogicError what)) ∧
    (QueueMessage env path (some d) size .Context c).calls = [] ∧
    (QueueMessage env path (some d) size .Context c).state = c := by
  simp [QueueMessage, hconn, hspeech, hpath]

/-- Witness of C5: a second context message in the open sample turn. -/
theorem C5_second_context_rejected_witness :
    (∃ what, (QueueMessage (sampleEnv "R9") "speech.context" (some [1]) 1 .Context
      sampleTurnOpen).error = some (.LogicError what)) ∧
    (QueueMessage (sampleEnv "R9") "speech.context" (some [1]) 1 .Context
      sampleTurnOpen).calls = [] ∧
    (QueueMessage (sampleEnv "R9") "speech.context" (some [1]) 1 .Context
      sampleTurnOpen).state = sampleTurnOpen :=
  C5_second_context_rejected (sampleEnv "R9") "speech.context" [1] 1 sampleTurnOpen
    (by decide) (by decide) (by decide)

/-- Claim C6: on a connected connection, with a non-empty path and non-null
data, a Config message is written with an empty request id and leaves the
active ids and the speech request id as they were; a message of any other
kind that does not fail is written once, with the request id just created,
which is active afterwards, and the speech request id becomes that id for
Context and stays as it was for every other kind. -/
theorem C6_request_id_on_messages (env : Env) (path : String) (d : Buffer) (size : Nat)
    (c : Impl) (hconn : c.m_connected = true) (hpath : path ≠ "") :
    ((QueueMessage env path (some d) size .Config c).calls
        = [.TransportMessageWrite path d size ""] ∧
      (QueueMessage env path (some d) size .Config c).error = none ∧
      (QueueMessage env path (some d) size .Config c).state.m_activeRequestIds
        = c.m_activeRequestIds ∧
      (QueueMessage env path (some d) size .Config c).state.m_speechRequestId
        = c.m_speechRequestId) ∧
    ∀ messageType : MessageType, messageType ≠ .Config →
      (QueueMessage env path (some d) size messageType c).error = none →
      (QueueMessage env path (some d) size messageType c).calls
        = [.metrics_transport_requestid env.guid,
           .TransportMessageWrite path d size env.guid] ∧
      env.guid ∈ (QueueMessage env path (some d) size messageType c).state.m_activeRequestIds ∧
      (QueueMessage env path (some d) size messageType c).state.m_activeRequestIds
        = insert env.guid c.m_activeRequestIds ∧
      (messageType = .Context →
        (QueueMessage env path (some d) size messageType c).state.m_speechRequestId
          = env.guid) ∧
      (messageType ≠ .Context →
        (QueueMessage env path (some d) size messageType c).state.m_speechRequestId
          = c.m_speechRequestId) ∧
      (env.guid ≠ c.m_speechRequestId →
        ((QueueMessage env path (some d) size messageType c).state.m_speechRequestId
          = env.guid ↔ messageType = .Context)) := by
  refine ⟨by simp [QueueMessage, hconn, hpath, SignalWork], ?_⟩
  intro messageType hne herr
  by_cases hctx : messageType = .Context
  · subst hctx
    by_cases hs : c.m_speechRequestId = ""
    · simp [QueueMessage, hconn, hpath, hs, SignalWork, CreateRequestId]
    · simp [QueueMessage, hconn, hpath, hs] at herr
  · simp only [QueueMessage, hconn, hpath, hctx, hne, SignalWork, CreateRequestId, if_false,
      if_true, false_and, ne_eq, not_false_eq_true, Finset.mem_insert, true_or, true_and,
      false_implies, implies_true, iff_false]
    exact fun h e => h e.symm

/-- Witness of C6: a Config message and an Agent message on the sample
connection with a turn open. -/
theorem C6_request_id_on_messages_witness :
    (QueueMessage (sampleEnv "R5") "speech.config" (some [1]) 1 .Config sampleTurnOpen).calls
      = [.TransportMessageWrite "speech.config" [1] 1 ""] ∧
    (QueueMessage (sampleEnv "R5") "agent" (some [1]) 1 .Agent sampleTurnOpen).calls
      = [.metrics_transport_requestid "R5", .TransportMessageWrite "agent" [1] 1 "R5"] ∧
    (QueueMessage (sampleEnv "R5") "agent" (some [1]) 1 .Agent
      sampleTurnOpen).state.m_speechRequestId = sampleTurnOpen.m_speechRequestId :=
  have h := C6_request_id_on_messages (sampleEnv "R5") "speech.config" [1] 1 sampleTurnOpen
    (by decide) (by decide)
  have g := (C6_request_id_on_messages (sampleEnv "R5") "agent" [1] 1 sampleTurnOpen
    (by decide) (by decide)).2 .Agent (by decide) (by decide)
  ⟨h.1.1, g.1, g.2.2.2.2.1 (by decide)⟩

/-- Counterexample to C7 as stated: a `turn.end` for the active request
id R1, with error code 0, whose two-byte body comes without a content type, is
dropped: R1 stays active and the speech request id, and no call is made, so
no TurnEnd is delivered. -/
theorem C7_turn_end_without_content_type :
    HTTPHeaders_FindHeaderValue sampleTurnEndHeaders headers.requestId = some "R1" ∧
    HTTPHeaders_FindHeaderValue sampleTurnEndHeaders KEYWORD_PATH = some path.turnEnd ∧
    "R1" ∈ sampleTurnOpen.m_activeRequestIds ∧
    sampleTurnOpen.m_connected = true ∧
    "R1" ∈ (OnTransportData sampleLib (some sampleTurnEndHeaders) [123, 125] 2 0
      sampleTurnOpen).state.m_activeRequestIds ∧
    (OnTransportData sampleLib (some sampleTurnEndHeaders) [123, 125] 2 0
      sampleTurnOpen).state.m_speechRequestId = "R1" ∧
    (OnTransportData sampleLib (some sampleTurnEndHeaders) [123, 125] 2 0
      sampleTurnOpen).calls = [] := by
  decide

/-- Claim C7, amended: for an inbound message with error code 0, path
`turn.end` and a non-empty request id `rid` that is active, whose body is
empty or comes with a content type and parses, `OnTransportData` removes
`rid` from the active ids and keeps every other one, empties the speech
request id if it was `rid` and leaves it otherwise, leaves the audio offset,
and, on a connected connection with its callbacks, flushes the telemetry of
`rid` and delivers exactly one TurnEnd. -/
theorem C7_turn_end_effect (lib : Lib) (h : HttpHeaders) (buffer : Buffer) (size : Nat)
    (c : Impl) (rid : String)
    (hrid : HTTPHeaders_FindHeaderValue h headers.requestId = some rid)
    (hne : rid ≠ "") (hact : rid ∈ c.m_activeRequestIds)
    (hpath : HTTPHeaders_FindHeaderValue h KEYWORD_PATH = some path.turnEnd)
    (hbody : size = 0 ∨
      (HTTPHeaders_FindHeaderValue h headers.contentType ≠ none ∧
        lib.parse (buffer.take size) ≠ none)) :
    rid ∉ (OnTransportData lib (some h) buffer size 0 c).state.m_activeRequestIds ∧
    (∀ x ∈ c.m_activeRequestIds, x ≠ rid →
      x ∈ (OnTransportData lib (some h) buffer size 0 c).state.m_activeRequestIds) ∧
    (OnTransportData lib (some h) buffer size 0 c).state.m_speechRequestId
      = (if c.m_speechRequestId = rid then "" else c.m_speechRequestId) ∧
    (OnTransportData lib (some h) buffer size 0 c).state.m_audioOffset = c.m_audioOffset ∧
    (c.m_connected = true → c.m_callbacks = true →
      (OnTransportData lib (some h) buffer size 0 c).calls
        = [.metrics_received_message rid path.turnEnd, .telemetry_flush rid,
           .Invoke .OnTurnEnd] ∧
      (OnTransportData lib (some h) buffer size 0 c).error = none) := by
  have hd : ∀ ct, dispatch lib rid path.turnEnd ct buffer size c
      = onTurnEnd rid [Call.metrics_received_message rid path.turnEnd] c := by
    intro ct
    unfold dispatch
    rcases hbody with h0 | ⟨_, hp⟩
    · subst h0
      simp [path.turnEnd, path.translationSynthesis, path.speechStartDetected,
        path.speechEndDetected, path.turnStart]
    · obtain ⟨j, hj⟩ := Option.ne_none_iff_exists'.1 hp
      by_cases hs : size > 0
      · simp [hs, hj, path.turnEnd, path.translationSynthesis, path.speechStartDetected,
          path.speechEndDetected, path.turnStart]
      · simp [hs, path.turnEnd, path.translationSynthesis, path.speechStartDetected,
          path.speechEndDetected, path.turnStart]
  have ho : OnTransportData lib (some h) buffer size 0 c
      = onTurnEnd rid [Call.metrics_received_message rid path.turnEnd] c := by
    unfold OnTransportData
    rcases hbody with h0 | ⟨hct, _⟩
    · subst h0
      simp [hrid, hne, hact, hpath, hd]
    · simp [hrid, hne, hact, hpath, hd, hct]
  rw [ho]
  simp only [onTurnEnd, deliver, endTurn, Invoke]
  refine ⟨?_, ?_, ?_, ?_, ?_⟩
  · split_ifs <;> simp
  · intro x hx hxr
    split_ifs <;> simp [hx, hxr]
  · by_cases e : rid = c.m_speechRequestId
    · simp [e]
    · have e2 : ¬ c.m_speechRequestId = rid := fun x => e x.symm
      simp [e, e2]
  · split_ifs <;> rfl
  · intro hconn hcb
    by_cases e : rid = c.m_speechRequestId <;> simp [e, hconn, hcb]

/-- Witness of C7: the `turn.end` of R1, without a body, on the sample
connection with the turn R1 open. -/
theorem C7_turn_end_effect_witness :
    "R1" ∉ (OnTransportData sampleLib (some (sampleHeaders "R1" "turn.end")) [] 0 0
      sampleTurnOpen).state.m_activeRequestIds ∧
    (OnTransportData sampleLib (some (sampleHeaders "R1" "turn.end")) [] 0 0
      sampleTurnOpen).state.m_speechRequestId = "" ∧
    (OnTransportData sampleLib (some (sampleHeaders "R1" "turn.end")) [] 0 0
      sampleTurnOpen).calls
      = [.metrics_received_message "R1" "turn.end", .telemetry_flush "R1",
         .Invoke .OnTurnEnd] :=
  have h := C7_turn_end_effect sampleLib (sampleHeaders "R1" "turn.end") [] 0 sampleTurnOpen
    "R1" (by decide) (by decide) (by decide) (by decide) (Or.inl rfl)
  ⟨h.1, h.2.2.1, (h.2.2.2.2 (by decide) (by decide)).1⟩

/-- Evaluation for C8: after audio was written in the turn R1 and the
`turn.end` of R1 arrived (no `QueueAudioEnd` in between), the next audio
segment is written with the empty request id, which is not an active id. -/
theorem C8_audio_written_with_empty_id :
    sampleAfterTurnEnd.m_connected = true ∧
    sampleAfterTurnEnd.m_speechRequestId = "" ∧
    sampleAfterTurnEnd.m_audioOffset = 4 ∧
    (QueueAudioSegment (sampleEnv "R3") (some [5, 6, 7, 8]) 4 sampleAfterTurnEnd).calls
      = [.TransportStreamWrite [5, 6, 7, 8] 4 ""] ∧
    (QueueAudioSegment (sampleEnv "R3") (some [5, 6, 7, 8]) 4 sampleAfterTurnEnd).error = none ∧
    "" ∉ (QueueAudioSegment (sampleEnv "R3") (some [5, 6, 7, 8]) 4
      sampleAfterTurnEnd).state.m_activeRequestIds := by
  decide

/-- Claim C10: `QueueAudioSegment` with size 0 is `QueueAudioEnd`: for every
state, every data pointer (null or not) and every answer of the transport,
the two give the same state, the same calls and the same error. -/
theorem C10_zero_size_is_audio_end (env : Env) (data : Option Buffer) (c : Impl) :
    QueueAudioSegment env data 0 c = QueueAudioEnd env c := by
  simp [QueueAudioSegment]

/-! ## Runs of audio segments -/

theorem QueueAudioSegment_steady (env : Env) (d : Buffer) (size : Nat) (c : Impl)
    (hconn : c.m_connected = true) (hoff : c.m_audioOffset ≠ 0) (hsize : 0 < size)
    (hw : env.TransportStreamWrite = 0) :
    QueueAudioSegment env (some d) size c
      = ⟨SignalWork { c with m_audioOffset := (c.m_audioOffset + size) % 2 ^ 64 },
          [.TransportStreamWrite d size c.m_speechRequestId], none⟩ := by
  have hs : size ≠ 0 := Nat.pos_iff_ne_zero.1 hsize
  simp [QueueAudioSegment, prepareAudio, hconn, hoff, hs, hw]

theorem audio_run_steady (w : World) :
    ∀ (segs : List AudioSegment) (c : Impl),
      c.m_connected = true → c.m_audioOffset < 2 ^ 64 →
      (∀ s ∈ segs, 0 < s.size ∧ s.env.TransportStreamWrite = 0) →
      (∀ i, i < segs.length → (c.m_audioOffset + totalSize (segs.take i)) % 2 ^ 64 ≠ 0) →
      trace w (segs.map AudioSegment.op) c
        = segs.map (fun s => Call.TransportStreamWrite s.data s.size c.m_speechRequestId) ∧
      (run w (segs.map AudioSegment.op) c).m_audioOffset
        = (c.m_audioOffset + totalSize segs) % 2 ^ 64 ∧
      (run w (segs.map AudioSegment.op) c).m_speechRequestId = c.m_speechRequestId ∧
      (run w (segs.map AudioSegment.op) c).m_activeRequestIds = c.m_activeRequestIds := by
  intro segs
  induction segs with
  | nil =>
    intro c _ hlt _ _
    simp only [List.map_nil, trace, run, totalSize, List.sum_nil, Nat.add_zero, and_true,
      true_and]
    exact (Nat.mod_eq_of_lt hlt).symm
  | cons s rest ih =>
    intro c hconn hlt hsegs hwrap
    have hs := hsegs s (List.mem_cons_self _ _)
    have hoff : c.m_audioOffset ≠ 0 := by
      have h0 := hwrap 0 (by simp)
      simp only [List.take_zero, totalSize, List.map_nil, List.sum_nil, Nat.add_zero] at h0
      rw [Nat.mod_eq_of_lt hlt] at h0
      exact h0
    have hstep := QueueAudioSegment_steady s.env s.data s.size c hconn hoff hs.1 hs.2
    have hrest := ih (SignalWork { c with m_audioOffset := (c.m_audioOffset + s.size) % 2 ^ 64 })
      hconn (Nat.mod_lt _ (by norm_num))
      (fun t ht => hsegs t (List.mem_cons_of_mem _ ht))
      (by
        intro i hi
        have := hwrap (i + 1) (by simpa using hi)
        simpa [totalSize, SignalWork, Nat.add_assoc] using this)
    simp only [List.map_cons, trace, run, step, AudioSegment.op, hstep]
    simp only [AudioSegment.op] at hrest
    obtain ⟨h1, h2, h3, h4⟩ := hrest
    refine ⟨?_, ?_, ?_, ?_⟩
    · rw [h1]; simp [SignalWork]
    · rw [h2]; simp [SignalWork, totalSize, Nat.add_assoc]
    · rw [h3]; simp [SignalWork]
    · rw [h4]; simp [SignalWork]

/-- Counterexample to C9 as stated: from a connected state with audio offset
0 and speech request id R1, three segments of 2^63, 2^63 and 1 bytes, all
accepted by the transport: the offset is back at 0 after the second one, and
the third one prepares the stream a second time. -/
theorem C9_offset_wraps_to_zero :
    sampleTurnOpen.m_connected = true ∧
    sampleTurnOpen.m_audioOffset = 0 ∧
    sampleTurnOpen.m_speechRequestId = "R1" ∧
    (∀ s ∈ sampleWrappingAudio, 0 < s.size ∧ s.size < 2 ^ 64 ∧
      s.env.TransportStreamPrepare = 0 ∧ s.env.TransportStreamWrite = 0) ∧
    (trace sampleWorld (sampleWrappingAudio.map AudioSegment.op) sampleTurnOpen).count
      (.TransportStreamPrepare "/audio") = 2 := by
  decide

theorem QueueAudioSegment_first (env : Env) (d : Buffer) (size : Nat) (c : Impl)
    (hconn : c.m_connected = true) (hoff : c.m_audioOffset = 0) (hsize : 0 < size)
    (hp : env.TransportStreamPrepare = 0) (hw : env.TransportStreamWrite = 0) :
    (c.m_speechRequestId ≠ "" →
      QueueAudioSegment env (some d) size c
        = ⟨SignalWork { c with m_audioOffset := size % 2 ^ 64 },
            [.metrics_audio_start c.m_speechRequestId, .TransportStreamPrepare "/audio",
             .TransportStreamWrite d size c.m_speechRequestId], none⟩) ∧
    (c.m_speechRequestId = "" →
      QueueAudioSegment env (some d) size c
        = ⟨SignalWork { c with
              m_audioOffset := size % 2 ^ 64
              m_speechRequestId := env.guid
              m_activeRequestIds := insert env.guid c.m_activeRequestIds },
            [.metrics_transport_requestid env.guid, .metrics_audio_start env.guid,
             .TransportStreamPrepare "/audio", .TransportStreamWrite d size env.guid],
            none⟩) := by
  have hs : size ≠ 0 := Nat.pos_iff_ne_zero.1 hsize
  constructor
  · intro hne
    simp [QueueAudioSegment, prepareAudio, hconn, hoff, hs, hp, hw, hne]
  · intro he
    simp [QueueAudioSegment, prepareAudio, CreateRequestId, hconn, hoff, hs, hp, hw, he]

/-- Claim C9, amended: from a connected state with audio offset 0, for a run
of one or more `QueueAudioSegment` calls with non-null data and size > 0 that
the transport accepts, such that no proper non-empty prefix of the sizes adds
up to a multiple of 2^64: when the speech request id R1 is set, the stream is
prepared once, before the first write, every write carries R1, no request id
is created, and the audio offset ends as the sum of the sizes modulo 2^64;
when it is empty, one request id is created, on the first segment, and it is
carried by every write. -/
theorem C9_one_prepare_per_audio_run (w : World) (c : Impl) (seg : AudioSegment)
    (rest : List AudioSegment)
    (hconn : c.m_connected = true) (hoff : c.m_audioOffset = 0)
    (hsegs : ∀ s ∈ seg :: rest,
      0 < s.size ∧ s.env.TransportStreamPrepare = 0 ∧ s.env.TransportStreamWrite = 0)
    (hwrap : ∀ i, 0 < i → i < (seg :: rest).length →
      totalSize ((seg :: rest).take i) % 2 ^ 64 ≠ 0) :
    (run w ((seg :: rest).map AudioSegment.op) c).m_audioOffset
      = totalSize (seg :: rest) % 2 ^ 64 ∧
    (c.m_speechRequestId ≠ "" →
      trace w ((seg :: rest).map AudioSegment.op) c
        = [.metrics_audio_start c.m_speechRequestId, .TransportStreamPrepare "/audio"]
          ++ (seg :: rest).map
            (fun s => Call.TransportStreamWrite s.data s.size c.m_speechRequestId) ∧
      (run w ((seg :: rest).map AudioSegment.op) c).m_speechRequestId = c.m_speechRequestId ∧
      (run w ((seg :: rest).map AudioSegment.op) c).m_activeRequestIds
        = c.m_activeRequestIds) ∧
    (c.m_speechRequestId = "" →
      trace w ((seg :: rest).map AudioSegment.op) c
        = [.metrics_transport_requestid seg.env.guid, .metrics_audio_start seg.env.guid,
           .TransportStreamPrepare "/audio"]
          ++ (seg :: rest).map
            (fun s => Call.TransportStreamWrite s.data s.size seg.env.guid) ∧
      (run w ((seg :: rest).map AudioSegment.op) c).m_speechRequestId = seg.env.guid ∧
      (run w ((seg :: rest).map AudioSegment.op) c).m_activeRequestIds
        = insert seg.env.guid c.m_activeRequestIds) := by
  have hs := hsegs seg (List.mem_cons_self _ _)
  obtain ⟨hfirst1, hfirst2⟩ :=
    QueueAudioSegment_first seg.env seg.data seg.size c hconn hoff hs.1 hs.2.1 hs.2.2
  have hrest : ∀ c1 : Impl, c1.m_connected = true → c1.m_audioOffset = seg.size % 2 ^ 64 →
      trace w (rest.map AudioSegment.op) c1
        = rest.map (fun s => Call.TransportStreamWrite s.data s.size c1.m_speechRequestId) ∧
      (run w (rest.map AudioSegment.op) c1).m_audioOffset
        = totalSize (seg :: rest) % 2 ^ 64 ∧
      (run w (rest.map AudioSegment.op) c1).m_speechRequestId = c1.m_speechRequestId ∧
      (run w (rest.map AudioSegment.op) c1).m_activeRequestIds = c1.m_activeRequestIds := by
    intro c1 hc1 ho1
    have := audio_run_steady w rest c1 hc1 (by rw [ho1]; exact Nat.mod_lt _ (by norm_num))
      (fun t ht => ⟨(hsegs t (List.mem_cons_of_mem _ ht)).1,
        (hsegs t (List.mem_cons_of_mem _ ht)).2.2⟩)
      (by
        intro i hi
        have := hwrap (i + 1) (Nat.succ_pos _) (by simpa using hi)
        rw [ho1]
        simpa [totalSize] using this)
    rw [ho1] at this
    simpa [totalSize] using this
  by_cases he : c.m_speechRequestId = ""
  · have e := hfirst2 he
    obtain ⟨h1, h2, h3, h4⟩ := hrest _ (by simpa [SignalWork] using hconn)
      (show (SignalWork { c with
              m_audioOffset := seg.size % 2 ^ 64
              m_speechRequestId := seg.env.guid
              m_activeRequestIds := insert seg.env.guid c.m_activeRequestIds }).m_audioOffset
          = seg.size % 2 ^ 64 from rfl)
    simp only [List.map_cons, trace, run, step, AudioSegment.op, e]
    refine ⟨h2, fun hne => absurd he hne, fun _ => ⟨?_, ?_, ?_⟩⟩
    · rw [h1]; simp [SignalWork]
    · rw [h3]; simp [SignalWork]
    · rw [h4]; simp [SignalWork]
  · have e := hfirst1 he
    obtain ⟨h1, h2, h3, h4⟩ := hrest _ (by simpa [SignalWork] using hconn)
      (show (SignalWork { c with m_audioOffset := seg.size % 2 ^ 64 }).m_audioOffset
          = seg.size % 2 ^ 64 from rfl)
    simp only [List.map_cons, trace, run, step, AudioSegment.op, e]
    refine ⟨h2, fun _ => ⟨?_, ?_, ?_⟩, fun h => absurd h he⟩
    · rw [h1]; simp [SignalWork]
    · rw [h3]; simp [SignalWork]
    · rw [h4]; simp [SignalWork]

/-- Witness of C9: two segments of 4 and 2 bytes in the open sample turn
R1. -/
theorem C9_one_prepare_per_audio_run_witness :
    (run sampleWorld (sampleAudio.map AudioSegment.op) sampleTurnOpen).m_audioOffset = 6 ∧
    trace sampleWorld (sampleAudio.map AudioSegment.op) sampleTurnOpen
      = [.metrics_audio_start "R1", .TransportStreamPrepare "/audio",
         .TransportStreamWrite [1, 2, 3, 4] 4 "R1", .TransportStreamWrite [5, 6] 2 "R1"] :=
  have h := C9_one_prepare_per_audio_run sampleWorld sampleTurnOpen
    ⟨sampleEnv "R6", [1, 2, 3, 4], 4⟩ [⟨sampleEnv "R7", [5, 6], 2⟩]
    (by decide) (by decide) (by decide)
    (by
      intro i h0 hi
      have hi1 : i = 1 := by
        simp only [List.length_cons, List.length_nil] at hi
        omega
      subst hi1
      decide)
  ⟨h.1, (h.2.1 (by decide)).1⟩

/-! ## Lemmas on the calls of the operations -/

theorem Invoke_disconnected (c : Impl) (callbacks : List Callback)
    (h : c.m_connected = false) : Invoke c callbacks = ([], none) := by
  simp [Invoke, h]

theorem Invoke_calls (c : Impl) (callbacks : List Callback) :
    ∀ call ∈ (Invoke c callbacks).1, (∃ cb, call = .Invoke cb) ∧ c.m_connected = true := by
  intro call hc
  unfold Invoke at hc
  split_ifs at hc with h1 h2 h3
  · simp at hc
  · simp at hc
  · simp at hc
  · simp only [List.mem_map] at hc
    obtain ⟨cb, _, rfl⟩ := hc
    exact ⟨⟨cb, rfl⟩, by simpa using h1⟩

theorem deliver_calls (c : Impl) (calls : List Call) (r : Except Exception (List Callback)) :
    ∀ call ∈ (deliver c calls r).calls,
      call ∈ calls ∨ ((∃ cb, call = .Invoke cb) ∧ c.m_connected = true) := by
  intro call hc
  unfold deliver at hc
  cases r with
  | error e => exact Or.inl hc
  | ok cbs =>
    simp only [List.mem_append] at hc
    rcases hc with h | h
    · exact Or.inl h
    · exact Or.inr (Invoke_calls c cbs call h)

theorem endTurn_connected (requestId : String) (c : Impl) :
    (endTurn requestId c).m_connected = c.m_connected := by
  unfold endTurn
  split_ifs <;> rfl

theorem endTurn_audioOffset (requestId : String) (c : Impl) :
    (endTurn requestId c).m_audioOffset = c.m_audioOffset := by
  unfold endTurn
  split_ifs <;> rfl

theorem dispatch_calls (lib : Lib) (requestId pathStr : String) (contentType : Option String)
    (buffer : Buffer) (size : Nat) (c : Impl) :
    ∀ call ∈ (dispatch lib requestId pathStr contentType buffer size c).calls,
      call = .metrics_received_message requestId pathStr ∨ call = .telemetry_flush requestId ∨
      ((∃ cb, call = .Invoke cb) ∧ c.m_connected = true) := by
  have key : ∀ r, ∀ call ∈ (deliver c [Call.metrics_received_message requestId pathStr] r).calls,
      call = .metrics_received_message requestId pathStr ∨ call = .telemetry_flush requestId ∨
      ((∃ cb, call = .Invoke cb) ∧ c.m_connected = true) := by
    intro r call hc
    rcases deliver_calls c _ r call hc with h | h
    · exact Or.inl (by simpa using h)
    · exact Or.inr (Or.inr h)
  intro call hc
  unfold dispatch at hc
  simp only at hc
  split at hc
  · exact key _ call hc
  · split at hc
    · exact Or.inl (by simpa using hc)
    · split_ifs at hc
      all_goals first
        | exact key _ call hc
        | (unfold onTurnEnd at hc
           rcases deliver_calls _ _ _ call hc with h | h
           · simp only [List.mem_append, List.mem_singleton] at h
             rcases h with h | h
             · exact Or.inl h
             · exact Or.inr (Or.inl h)
           · rw [endTurn_connected] at h
             exact Or.inr (Or.inr h))

theorem OnTransportData_calls (lib : Lib) (responseHeader : Option HttpHeaders)
    (buffer : Buffer) (size errorCode : Nat) (c : Impl) :
    ∀ call ∈ (OnTransportData lib responseHeader buffer size errorCode c).calls,
      (∃ r p, call = .metrics_received_message r p) ∨ (∃ r, call = .telemetry_flush r) ∨
      ((∃ cb, call = .Invoke cb) ∧ c.m_connected = true) := by
  intro call hc
  unfold OnTransportData at hc
  by_cases he : errorCode ≠ 0
  · rw [if_pos he] at hc; simp at hc
  rw [if_neg he] at hc
  cases responseHeader with
  | none => simp at hc
  | some h =>
    simp only at hc
    cases hr : HTTPHeaders_FindHeaderValue h headers.requestId with
    | none => rw [hr] at hc; simp at hc
    | some requestId =>
      rw [hr] at hc
      simp only at hc
      by_cases ha : requestId = "" ∨ requestId ∉ c.m_activeRequestIds
      · rw [if_pos ha] at hc; simp at hc
      rw [if_neg ha] at hc
      cases hp : HTTPHeaders_FindHeaderValue h KEYWORD_PATH with
      | none => rw [hp] at hc; simp at hc
      | some pathStr =>
        rw [hp] at hc
        simp only at hc
        split_ifs at hc
        all_goals first
          | exact absurd hc (List.not_mem_nil _)
          | (rcases dispatch_calls lib requestId pathStr _ buffer size c call hc with x | x | x
             · exact Or.inl ⟨_, _, x⟩
             · exact Or.inr (Or.inl ⟨_, x⟩)
             · exact Or.inr (Or.inr x))

theorem OnTransportData_connected (lib : Lib) (responseHeader : Option HttpHeaders)
    (buffer : Buffer) (size errorCode : Nat) (c : Impl) :
    (OnTransportData lib responseHeader buffer size errorCode c).state.m_connected
      = c.m_connected := by
  rcases OnTransportData_state lib responseHeader buffer size errorCode c with e | ⟨r, e⟩
  · rw [e]
  · rw [e, endTurn_connected]

theorem OnTransportData_audioOffset (lib : Lib) (responseHeader : Option HttpHeaders)
    (buffer : Buffer) (size errorCode : Nat) (c : Impl) :
    (OnTransportData lib responseHeader buffer size errorCode c).state.m_audioOffset
      = c.m_audioOffset := by
  rcases OnTransportData_state lib responseHeader buffer size errorCode c with e | ⟨r, e⟩
  · rw [e]
  · rw [e, endTurn_audioOffset]

/-! ## A connection that is not connected -/

theorem step_event_disconnected (w : World) (op : Op) (c : Impl) (hop : op.isEvent = true)
    (hc : c.m_connected = false) :
    (step w op c).state.m_connected = false ∧
    ∀ call ∈ (step w op c).calls, call.isInvoke = false ∧ call.isTransport = false := by
  cases op with
  | Connect env => simp [Op.isEvent] at hop
  | SignalConnected => simp [Op.isEvent] at hop
  | Shutdown => simp [Op.isEvent] at hop
  | QueueMessage env path data size messageType =>
    cases data with
    | none => simp [step, QueueMessage, hc]
    | some d =>
      by_cases hp : path = "" <;> simp [step, QueueMessage, hc, hp, SignalWork]
  | QueueAudioSegment env data size =>
    cases data with
    | none =>
      by_cases hs : size = 0 <;> simp [step, QueueAudioSegment, QueueAudioEnd, hc, hs]
    | some d =>
      by_cases hs : size = 0 <;> simp [step, QueueAudioSegment, QueueAudioEnd, hc, hs]
  | QueueAudioEnd env => simp [step, QueueAudioEnd, hc]
  | OnTransportData responseHeader buffer size errorCode =>
    refine ⟨by simp only [step]; rw [OnTransportData_connected]; exact hc, ?_⟩
    intro call hcall
    rcases OnTransportData_calls w.lib responseHeader buffer size errorCode c call hcall
      with ⟨r, p, e⟩ | ⟨r, e⟩ | ⟨_, e⟩
    · subst e; exact ⟨rfl, rfl⟩
    · subst e; exact ⟨rfl, rfl⟩
    · rw [hc] at e; exact absurd e (by decide)
  | OnTransportError errorInfo =>
    simp [step, OnTransportError, Invoke_disconnected _ _ hc, hc]

theorem run_events_disconnected (w : World) (ops : List Op) :
    ∀ c : Impl, (∀ op ∈ ops, op.isEvent = true) → c.m_connected = false →
      (run w ops c).m_connected = false ∧
      ∀ call ∈ trace w ops c, call.isInvoke = false ∧ call.isTransport = false := by
  induction ops with
  | nil => intro c _ hc; exact ⟨hc, by simp [trace]⟩
  | cons op ops ih =>
    intro c hops hc
    obtain ⟨h1, h2⟩ := step_event_disconnected w op c (hops op (List.mem_cons_self _ _)) hc
    obtain ⟨h3, h4⟩ := ih (step w op c).state
      (fun o ho => hops o (List.mem_cons_of_mem _ ho)) h1
    refine ⟨h3, ?_⟩
    intro call hcall
    simp only [trace, List.mem_append] at hcall
    rcases hcall with h | h
    · exact h2 call h
    · exact h4 call h

/-- Claim C12: after `Shutdown` the connection is not connected, and it stays
so through every later sequence of send-API calls, inbound data events and
transport error events, none of which delivers a user callback. -/
theorem C12_no_callbacks_after_shutdown (w : World) (c : Impl) (ops : List Op)
    (hops : ∀ op ∈ ops, op.isEvent = true) :
    (Shutdown c).state.m_connected = false ∧
    (run w ops (Shutdown c).state).m_connected = false ∧
    ∀ call ∈ trace w ops (Shutdown c).state, call.isInvoke = false := by
  have h0 : (Shutdown c).state.m_connected = false := by
    unfold Shutdown
    simp only [SignalWork]
    split_ifs <;> rfl
  obtain ⟨h1, h2⟩ := run_events_disconnected w ops (Shutdown c).state hops h0
  exact ⟨h0, h1, fun call hcall => (h2 call hcall).1⟩

/-- Witness of C12: the sample session, run again after a `Shutdown` of the
connected sample connection, delivers no callback. -/
theorem C12_no_callbacks_after_shutdown_witness :
    (Shutdown sampleTurnOpen).state.m_connected = false ∧
    (run sampleWorld sampleSession.tail (Shutdown sampleTurnOpen).state).m_connected = false ∧
    ∀ call ∈ trace sampleWorld sampleSession.tail (Shutdown sampleTurnOpen).state,
      call.isInvoke = false :=
  C12_no_callbacks_after_shutdown sampleWorld sampleTurnOpen sampleSession.tail (by decide)

/-- Claim C13: on a connection that is not connected, `QueueMessage` with a
non-empty path and non-null data (of any kind), `QueueAudioSegment` with
non-null data and `QueueAudioEnd` throw nothing, make no call (hence no
transport call and no request id) and leave the active request ids, the
speech request id and the audio offset as they were. -/
theorem C13_disconnected_sends_are_no_ops (env : Env) (path : String) (d : Buffer)
    (size : Nat) (messageType : MessageType) (c : Impl)
    (hc : c.m_connected = false) (hpath : path ≠ "") :
    ((QueueMessage env path (some d) size messageType c).error = none ∧
      (QueueMessage env path (some d) size messageType c).calls = [] ∧
      (QueueMessage env path (some d) size messageType c).state.m_activeRequestIds
        = c.m_activeRequestIds ∧
      (QueueMessage env path (some d) size messageType c).state.m_speechRequestId
        = c.m_speechRequestId ∧
      (QueueMessage env path (some d) size messageType c).state.m_audioOffset
        = c.m_audioOffset) ∧
    QueueAudioSegment env (some d) size c = ⟨c, [], none⟩ ∧
    QueueAudioEnd env c = ⟨c, [], none⟩ := by
  refine ⟨by simp [QueueMessage, hc, hpath, SignalWork], ?_, by simp [QueueAudioEnd, hc]⟩
  by_cases hs : size = 0 <;> simp [QueueAudioSegment, QueueAudioEnd, hc, hs]

/-- Witness of C13: a Context message, an audio segment and an audio end on
the sample connection before `Connect`, with a speech request id set. -/
theorem C13_disconnected_sends_are_no_ops_witness :
    ((QueueMessage (sampleEnv "R5") "speech.context" (some [1]) 1 .Context
        { sampleFresh with m_speechRequestId := "R1" }).error = none ∧
      (QueueMessage (sampleEnv "R5") "speech.context" (some [1]) 1 .Context
        { sampleFresh with m_speechRequestId := "R1" }).calls = [] ∧
      (QueueMessage (sampleEnv "R5") "speech.context" (some [1]) 1 .Context
        { sampleFresh with m_speechRequestId := "R1" }).state.m_activeRequestIds = ∅ ∧
      (QueueMessage (sampleEnv "R5") "speech.context" (some [1]) 1 .Context
        { sampleFresh with m_speechRequestId := "R1" }).state.m_speechRequestId = "R1" ∧
      (QueueMessage (sampleEnv "R5") "speech.context" (some [1]) 1 .Context
        { sampleFresh with m_speechRequestId := "R1" }).state.m_audioOffset = 0) ∧
    QueueAudioSegment (sampleEnv "R5") (some [1]) 1 { sampleFresh with m_speechRequestId := "R1" }
      = ⟨{ sampleFresh with m_speechRequestId := "R1" }, [], none⟩ ∧
    QueueAudioEnd (sampleEnv "R5") { sampleFresh with m_speechRequestId := "R1" }
      = ⟨{ sampleFresh with m_speechRequestId := "R1" }, [], none⟩ :=
  C13_disconnected_sends_are_no_ops (sampleEnv "R5") "speech.context" [1] 1 .Context
    { sampleFresh with m_speechRequestId := "R1" } rfl (by decide)

/-- Claim C14: an inbound message whose request-id header is empty or names no
active request id is dropped, whatever its error code, path, content type and
body: no callback, no other call, no exception, and the state (active request
ids, speech request id, audio offset) stays as it was. -/
theorem C14_unknown_request_id_dropped (lib : Lib) (h : HttpHeaders) (buffer : Buffer)
    (size errorCode : Nat) (c : Impl) (rid : String)
    (hrid : HTTPHeaders_FindHeaderValue h headers.requestId = some rid)
    (hunknown : rid = "" ∨ rid ∉ c.m_activeRequestIds) :
    OnTransportData lib (some h) buffer size errorCode c = ⟨c, [], none⟩ := by
  unfold OnTransportData
  by_cases he : errorCode ≠ 0
  · rw [if_pos he]
  · rw [if_neg he]
    simp only [hrid]
    rw [if_pos hunknown]

/-- Witness of C14: a second `turn.end` for R1, after the first one removed
R1 from the active request ids of the sample connection, delivers nothing. -/
theorem C14_unknown_request_id_dropped_witness :
    "R1" ∉ sampleAfterTurnEnd.m_activeRequestIds ∧
    OnTransportData sampleLib (some (sampleHeaders "R1" "turn.end")) [] 0 0 sampleAfterTurnEnd
      = ⟨sampleAfterTurnEnd, [], none⟩ :=
  ⟨by decide,
    C14_unknown_request_id_dropped sampleLib (sampleHeaders "R1" "turn.end") [] 0 0
      sampleAfterTurnEnd "R1" (by decide) (Or.inr (by decide))⟩

/-- Claim C15: on a connected connection (with its callback set),
`OnTransportError` delivers exactly one `OnError` with recoverable = true;
for a failed WebSocket upgrade the kind is BadRequest for code 400,
AuthenticationError for 401 and 403, TooManyRequests for 429 and
ConnectionError for every other code; for every other reason it is
ConnectionError. -/
theorem C15_transport_error_classification (errorInfo : TransportErrorInfo) (c : Impl)
    (hc : c.m_connected = true) (hcb : c.m_callbacks = true) :
    ∃ message,
      (OnTransportError errorInfo c).calls
        = [.Invoke (.OnError true
            (if errorInfo.reason = .TRANSPORT_ERROR_WEBSOCKET_UPGRADE then
              (if errorInfo.errorCode = 400 then ErrorCode.BadRequest
               else if errorInfo.errorCode = 401 ∨ errorInfo.errorCode = 403 then
                 ErrorCode.AuthenticationError
               else if errorInfo.errorCode = 429 then ErrorCode.TooManyRequests
               else ErrorCode.ConnectionError)
             else ErrorCode.ConnectionError)
            message)] ∧
      (OnTransportError errorInfo c).error = none := by
  have key : ∃ message, transportErrorCallback errorInfo
      = .OnError true
          (if errorInfo.reason = .TRANSPORT_ERROR_WEBSOCKET_UPGRADE then
            (if errorInfo.errorCode = 400 then ErrorCode.BadRequest
             else if errorInfo.errorCode = 401 ∨ errorInfo.errorCode = 403 then
               ErrorCode.AuthenticationError
             else if errorInfo.errorCode = 429 then ErrorCode.TooManyRequests
             else ErrorCode.ConnectionError)
           else ErrorCode.ConnectionError)
          message := by
    obtain ⟨reason, code, str⟩ := errorInfo
    cases reason <;> simp only [transportErrorCallback] <;> (try split_ifs) <;>
      first
        | exact ⟨_, rfl⟩
        | (exfalso; simp_all)
  obtain ⟨message, hm⟩ := key
  exact ⟨message, by simp [OnTransportError, Invoke, hc, hcb, hm]⟩

/-- Witness of C15: scenario 6 of §8, a failed upgrade with code 401. -/
theorem C15_transport_error_classification_witness :
    (∃ message,
      (OnTransportError ⟨.TRANSPORT_ERROR_WEBSOCKET_UPGRADE, 401, none⟩ sampleTurnOpen).calls
        = [.Invoke (.OnError true
            (if (⟨.TRANSPORT_ERROR_WEBSOCKET_UPGRADE, 401, none⟩ : TransportErrorInfo).reason
                = .TRANSPORT_ERROR_WEBSOCKET_UPGRADE then
              (if (⟨.TRANSPORT_ERROR_WEBSOCKET_UPGRADE, 401, none⟩ : TransportErrorInfo).errorCode
                  = 400 then ErrorCode.BadRequest
               else if
                 (⟨.TRANSPORT_ERROR_WEBSOCKET_UPGRADE, 401, none⟩ : TransportErrorInfo).errorCode
                    = 401 ∨
                 (⟨.TRANSPORT_ERROR_WEBSOCKET_UPGRADE, 401, none⟩ : TransportErrorInfo).errorCode
                    = 403 then
                 ErrorCode.AuthenticationError
               else if
                 (⟨.TRANSPORT_ERROR_WEBSOCKET_UPGRADE, 401, none⟩ : TransportErrorInfo).errorCode
                    = 429 then ErrorCode.TooManyRequests
               else ErrorCode.ConnectionError)
             else ErrorCode.ConnectionError)
            message)] ∧
      (OnTransportError ⟨.TRANSPORT_ERROR_WEBSOCKET_UPGRADE, 401, none⟩ sampleTurnOpen).error
        = none) ∧
    (OnTransportError ⟨.TRANSPORT_ERROR_WEBSOCKET_UPGRADE, 401, none⟩ sampleTurnOpen).calls
      = [.Invoke (.OnError true .AuthenticationError
          ("WebSocket Upgrade failed with an authentication error (401)."
            ++ " Please check for correct subscription key (or authorization token)"
            ++ " and region name."))] :=
  ⟨C15_transport_error_classification ⟨.TRANSPORT_ERROR_WEBSOCKET_UPGRADE, 401, none⟩
    sampleTurnOpen (by decide) (by decide), by decide⟩

/-- Claim C16: after `OnTransportError`, for any reason and code, the
connection is not connected, and it stays so through every later sequence of
send-API calls, inbound data events and transport error events, which make no
transport call and deliver no user callback. The callback set is in place if
the connection was connected. -/
theorem C16_transport_errors_are_terminal (w : World) (errorInfo : TransportErrorInfo)
    (c : Impl) (ops : List Op) (hcb : c.m_connected = true → c.m_callbacks = true)
    (hops : ∀ op ∈ ops, op.isEvent = true) :
    (OnTransportError errorInfo c).state.m_connected = false ∧
    (run w ops (OnTransportError errorInfo c).state).m_connected = false ∧
    ∀ call ∈ trace w ops (OnTransportError errorInfo c).state,
      call.isTransport = false ∧ call.isInvoke = false := by
  have h0 : (OnTransportError errorInfo c).state.m_connected = false := by
    by_cases hc : c.m_connected = true
    · simp [OnTransportError, Invoke, hc, hcb hc]
    · have hc' : c.m_connected = false := by simpa using hc
      simp [OnTransportError, Invoke_disconnected _ _ hc']
  obtain ⟨h1, h2⟩ := run_events_disconnected w ops (OnTransportError errorInfo c).state hops h0
  exact ⟨h0, h1, fun call hcall => ⟨(h2 call hcall).2, (h2 call hcall).1⟩⟩

/-- Witness of C16: a failed upgrade on the connected sample connection,
followed by the rest of the sample session. -/
theorem C16_transport_errors_are_terminal_witness :
    (OnTransportError ⟨.TRANSPORT_ERROR_WEBSOCKET_UPGRADE, 401, none⟩
      sampleTurnOpen).state.m_connected = false ∧
    (run sampleWorld (sampleSession.drop 2)
      (OnTransportError ⟨.TRANSPORT_ERROR_WEBSOCKET_UPGRADE, 401, none⟩
        sampleTurnOpen).state).m_connected = false ∧
    ∀ call ∈ trace sampleWorld (sampleSession.drop 2)
      (OnTransportError ⟨.TRANSPORT_ERROR_WEBSOCKET_UPGRADE, 401, none⟩ sampleTurnOpen).state,
      call.isTransport = false ∧ call.isInvoke = false :=
  C16_transport_errors_are_terminal sampleWorld ⟨.TRANSPORT_ERROR_WEBSOCKET_UPGRADE, 401, none⟩
    sampleTurnOpen (sampleSession.drop 2) (by decide) (by decide)

/-- Claim C17: on a connected connection (with its callback set),
`InvokeRecognitionErrorCallback` delivers exactly one `OnError` with
recoverable = false; the kind is ServiceError for Error and InvalidMessage,
the kind of the same name for TooManyRequests, BadRequest, Forbidden and
ServiceUnavailable, and RuntimeError for the benign statuses; the message
ends with `Response text:` and the response. -/
theorem C17_recognition_error_classification (status : RecognitionStatus) (response : String)
    (c : Impl) (hc : c.m_connected = true) (hcb : c.m_callbacks = true) :
    ∃ lead,
      Invoke c [InvokeRecognitionErrorCallback status response]
        = ([.Invoke (.OnError false
            (match status with
             | .Error => ErrorCode.ServiceError
             | .InvalidMessage => ErrorCode.ServiceError
             | .TooManyRequests => ErrorCode.TooManyRequests
             | .BadRequest => ErrorCode.BadRequest
             | .Forbidden => ErrorCode.Forbidden
             | .ServiceUnavailable => ErrorCode.ServiceUnavailable
             | .Success => ErrorCode.RuntimeError
             | .NoMatch => ErrorCode.RuntimeError
             | .InitialSilenceTimeout => ErrorCode.RuntimeError
             | .InitialBabbleTimeout => ErrorCode.RuntimeError
             | .EndOfDictation => ErrorCode.RuntimeError)
            (lead ++ "Response text:" ++ response))], none) := by
  have key : ∀ (a : String), (a ++ "Response text:") ++ response
      = a ++ ("Response text:" ++ response) := fun a => String.append_assoc _ _ _
  cases status <;>
    simp only [Invoke, InvokeRecognitionErrorCallback, hc, hcb, Bool.not_true, if_false,
      List.map_cons, List.map_nil, Bool.false_eq_true] <;>
    simp only [List.cons_ne_nil, if_false]
  case Error =>
    exact ⟨"The speech recognition service encountered an internal error and could not continue. ", by rw [key]; rfl⟩
  case TooManyRequests =>
    exact ⟨"The number of parallel requests exceeded the number of allowed concurrent transcriptions. ", by rw [key]; rfl⟩
  case BadRequest =>
    exact ⟨"Invalid parameter or unsupported audio format in the request. ", by rw [key]; rfl⟩
  case Forbidden =>
    exact ⟨"The recognizer is using a free subscription that ran out of quota. ", by rw [key]; rfl⟩
  case ServiceUnavailable =>
    exact ⟨"The service is currently unavailable. ", by rw [key]; rfl⟩
  case InvalidMessage =>
    exact ⟨"Invalid response. ", by rw [key]; rfl⟩
  all_goals
    exact ⟨"Runtime Error: invoke error callback for non-error recognition status. ",
      by rw [key]; rfl⟩

/-- Witness of C17: the status TooManyRequests with the response `r` on the
connected sample connection. -/
theorem C17_recognition_error_classification_witness :
    (∃ lead,
      Invoke sampleTurnOpen [InvokeRecognitionErrorCallback .TooManyRequests "r"]
        = ([.Invoke (.OnError false
            (match RecognitionStatus.TooManyRequests with
             | .Error => ErrorCode.ServiceError
             | .InvalidMessage => ErrorCode.ServiceError
             | .TooManyRequests => ErrorCode.TooManyRequests
             | .BadRequest => ErrorCode.BadRequest
             | .Forbidden => ErrorCode.Forbidden
             | .ServiceUnavailable => ErrorCode.ServiceUnavailable
             | .Success => ErrorCode.RuntimeError
             | .NoMatch => ErrorCode.RuntimeError
             | .InitialSilenceTimeout => ErrorCode.RuntimeError
             | .InitialBabbleTimeout => ErrorCode.RuntimeError
             | .EndOfDictation => ErrorCode.RuntimeError)
            (lead ++ "Response text:" ++ "r"))], none)) ∧
    Invoke sampleTurnOpen [InvokeRecognitionErrorCallback .TooManyRequests "r"]
      = ([.Invoke (.OnError false .TooManyRequests
          ("The number of parallel requests exceeded the number of allowed concurrent"
            ++ " transcriptions. Response text:r"))], none) :=
  ⟨C17_recognition_error_classification .TooManyRequests "r" sampleTurnOpen
    (by decide) (by decide), by decide⟩

/-- Claim C18: `ToRecognitionStatus` sends the ten wire strings to the ten
statuses of the same name (BabbleTimeout to InitialBabbleTimeout), so the ten
strings go to ten distinct statuses, and sends every other string, such as a
string that differs in letter case or `InitialBabbleTimeout`, to
InvalidMessage. -/
theorem C18_recognition_status_table :
    (ToRecognitionStatus "Success" = .Success ∧
      ToRecognitionStatus "NoMatch" = .NoMatch ∧
      ToRecognitionStatus "InitialSilenceTimeout" = .InitialSilenceTimeout ∧
      ToRecognitionStatus "BabbleTimeout" = .InitialBabbleTimeout ∧
      ToRecognitionStatus "Error" = .Error ∧
      ToRecognitionStatus "EndOfDictation" = .EndOfDictation ∧
      ToRecognitionStatus "TooManyRequests" = .TooManyRequests ∧
      ToRecognitionStatus "BadRequest" = .BadRequest ∧
      ToRecognitionStatus "Forbidden" = .Forbidden ∧
      ToRecognitionStatus "ServiceUnavailable" = .ServiceUnavailable) ∧
    (∀ a ∈ ["Success", "NoMatch", "InitialSilenceTimeout", "BabbleTimeout", "Error",
        "EndOfDictation", "TooManyRequests", "BadRequest", "Forbidden", "ServiceUnavailable"],
      ∀ b ∈ ["Success", "NoMatch", "InitialSilenceTimeout", "BabbleTimeout", "Error",
        "EndOfDictation", "TooManyRequests", "BadRequest", "Forbidden", "ServiceUnavailable"],
      ToRecognitionStatus a = ToRecognitionStatus b → a = b) ∧
    (∀ str : String,
      str ∉ ["Success", "NoMatch", "InitialSilenceTimeout", "BabbleTimeout", "Error",
        "EndOfDictation", "TooManyRequests", "BadRequest", "Forbidden", "ServiceUnavailable"] →
      ToRecognitionStatus str = .InvalidMessage) ∧
    (∀ str : String, ToRecognitionStatus str = .InvalidMessage →
      str ∉ ["Success", "NoMatch", "InitialSilenceTimeout", "BabbleTimeout", "Error",
        "EndOfDictation", "TooManyRequests", "BadRequest", "Forbidden", "ServiceUnavailable"]) ∧
    ToRecognitionStatus "success" = .InvalidMessage ∧
    ToRecognitionStatus "SUCCESS" = .InvalidMessage ∧
    ToRecognitionStatus "InitialBabbleTimeout" = .InvalidMessage := by
  refine ⟨by decide, by decide, ?_, ?_, by decide, by decide, by decide⟩
  · intro str hstr
    simp only [List.mem_cons, List.mem_singleton, List.not_mem_nil, or_false, not_or] at hstr
    obtain ⟨h1, h2, h3, h4, h5, h6, h7, h8, h9, h10⟩ := hstr
    simp [ToRecognitionStatus, h1, h2, h3, h4, h5, h6, h7, h8, h9, h10]
  · intro str hstr hmem
    simp only [List.mem_cons, List.mem_singleton, List.not_mem_nil, or_false] at hmem
    rcases hmem with h | h | h | h | h | h | h | h | h | h <;> subst h <;>
      exact absurd hstr (by decide)

/-- Witness of C18: the string `Timeout` is none of the ten wire strings and
decodes to InvalidMessage. -/
theorem C18_recognition_status_table_witness :
    "Timeout" ∉ ["Success", "NoMatch", "InitialSilenceTimeout", "BabbleTimeout", "Error",
        "EndOfDictation", "TooManyRequests", "BadRequest", "Forbidden", "ServiceUnavailable"] ∧
    ToRecognitionStatus "Timeout" = .InvalidMessage :=
  ⟨by decide, C18_recognition_status_table.2.2.1 "Timeout" (by decide)⟩

/-! ## The audio offset and the preparation of the stream -/

theorem streamPrepared_append (l1 l2 : List Call) :
    ∀ b, streamPrepared b (l1 ++ l2) = streamPrepared (streamPrepared b l1) l2 := by
  induction l1 with
  | nil => intro b; rfl
  | cons x xs ih =>
    intro b
    cases x <;> exact ih _

theorem streamPrepared_unmarked (calls : List Call)
    (h : ∀ call ∈ calls,
      (∀ p, call ≠ .TransportStreamPrepare p) ∧ (∀ r, call ≠ .TransportStreamFlush r)) :
    ∀ b, streamPrepared b calls = b := by
  induction calls with
  | nil => intro b; rfl
  | cons x xs ih =>
    intro b
    have hx := h x (List.mem_cons_self _ _)
    have hxs := ih (fun c hc => h c (List.mem_cons_of_mem _ hc))
    cases x
    case TransportStreamPrepare p => exact absurd rfl (hx.1 p)
    case TransportStreamFlush r => exact absurd rfl (hx.2 r)
    all_goals simp only [streamPrepared, hxs]

theorem Connect_calls (k : EndpointConstants) (enc : String → String) (env : ConnectEnv)
    (c : Impl) :
    ∀ call ∈ (Connect k enc env c).calls,
      (∃ i, call = .metrics_device_startup i) ∨ (∃ u h i, call = .TransportRequestCreate u h i) := by
  unfold Connect
  repeat' split
  all_goals simp

theorem QueueMessage_calls (env : Env) (path : String) (data : Option Buffer) (size : Nat)
    (messageType : MessageType) (c : Impl) :
    (QueueMessage env path data size messageType c).state.m_audioOffset = c.m_audioOffset ∧
    ∀ call ∈ (QueueMessage env path data size messageType c).calls,
      (∃ r, call = .metrics_transport_requestid r) ∨
      (∃ p d s r, call = .TransportMessageWrite p d s r) := by
  unfold QueueMessage
  simp only [SignalWork, CreateRequestId]
  repeat' split
  all_goals simp

theorem step_other_audio (w : World) (op : Op) (c : Impl)
    (h1 : ∀ env data size, op ≠ .QueueAudioSegment env data size)
    (h2 : ∀ env, op ≠ .QueueAudioEnd env) :
    (step w op c).state.m_audioOffset = c.m_audioOffset ∧
    ∀ b, streamPrepared b (step w op c).calls = b := by
  cases op with
  | Connect env =>
    refine ⟨(Connect_frame w.k w.enc env c).2.2, streamPrepared_unmarked _ ?_⟩
    intro call hc
    rcases Connect_calls w.k w.enc env c call hc with ⟨i, e⟩ | ⟨u, h, i, e⟩ <;> subst e <;>
      exact ⟨fun _ => Call.noConfusion, fun _ => Call.noConfusion⟩
  | SignalConnected => exact ⟨rfl, fun _ => rfl⟩
  | Shutdown =>
    simp only [step, Shutdown, SignalWork]
    split_ifs <;> exact ⟨rfl, fun _ => rfl⟩
  | QueueMessage env path data size messageType =>
    obtain ⟨e, hcalls⟩ := QueueMessage_calls env path data size messageType c
    refine ⟨e, streamPrepared_unmarked _ ?_⟩
    intro call hc
    rcases hcalls call hc with ⟨r, e⟩ | ⟨p, d, s, r, e⟩ <;> subst e <;>
      exact ⟨fun _ => Call.noConfusion, fun _ => Call.noConfusion⟩
  | QueueAudioSegment env data size => exact absurd rfl (h1 env data size)
  | QueueAudioEnd env => exact absurd rfl (h2 env)
  | OnTransportData responseHeader buffer size errorCode =>
    refine ⟨OnTransportData_audioOffset _ _ _ _ _ _, streamPrepared_unmarked _ ?_⟩
    intro call hc
    rcases OnTransportData_calls w.lib responseHeader buffer size errorCode c call hc
      with ⟨r, p, e⟩ | ⟨r, e⟩ | ⟨⟨cb, e⟩, _⟩ <;> subst e <;>
      exact ⟨fun _ => Call.noConfusion, fun _ => Call.noConfusion⟩
  | OnTransportError errorInfo =>
    have hs : (OnTransportError errorInfo c).state.m_audioOffset = c.m_audioOffset := by
      unfold OnTransportError
      split <;> rfl
    have hcalls : (OnTransportError errorInfo c).calls
        = (Invoke c [transportErrorCallback errorInfo]).1 := by
      unfold OnTransportError
      split <;> simp_all
    refine ⟨hs, streamPrepared_unmarked _ ?_⟩
    intro call hc
    simp only [step, hcalls] at hc
    obtain ⟨⟨cb, e⟩, _⟩ := Invoke_calls _ _ call hc
    subst e
    exact ⟨fun _ => Call.noConfusion, fun _ => Call.noConfusion⟩

theorem QueueAudioEnd_audio (env : Env) (c : Impl) (b : Bool) :
    ((QueueAudioEnd env c).state.m_audioOffset = c.m_audioOffset ∧
      streamPrepared b (QueueAudioEnd env c).calls = b) ∨
    ((QueueAudioEnd env c).state.m_audioOffset = 0 ∧
      streamPrepared b (QueueAudioEnd env c).calls = false) := by
  unfold QueueAudioEnd
  simp only [SignalWork]
  repeat' split
  all_goals simp [streamPrepared]

theorem QueueAudioSegment_prepared (env : Env) (data : Option Buffer) (size : Nat) (c : Impl)
    (b : Bool) (hb : c.m_audioOffset ≠ 0 → b = true) :
    (QueueAudioSegment env data size c).state.m_audioOffset ≠ 0 →
      streamPrepared b (QueueAudioSegment env data size c).calls = true := by
  by_cases hs : size = 0
  · subst hs
    rw [show QueueAudioSegment env data 0 c = QueueAudioEnd env c from by simp [QueueAudioSegment]]
    rcases QueueAudioEnd_audio env c b with ⟨h1, h2⟩ | ⟨h1, h2⟩
    · rw [h1, h2]; exact hb
    · rw [h1]; intro h; exact absurd rfl h
  cases data with
  | none => simpa [QueueAudioSegment, hs, streamPrepared] using hb
  | some d =>
    by_cases hc : c.m_connected = true
    · by_cases h0 : c.m_audioOffset = 0
      · by_cases he : c.m_speechRequestId = "" <;>
          by_cases hp : env.TransportStreamPrepare = 0 <;>
          by_cases hw : env.TransportStreamWrite = 0 <;>
          simp [QueueAudioSegment, prepareAudio, CreateRequestId, SignalWork, streamPrepared,
            hs, hc, h0, he, hp, hw]
      · have hbt := hb h0
        subst hbt
        by_cases hw : env.TransportStreamWrite = 0 <;>
          simp [QueueAudioSegment, prepareAudio, SignalWork, streamPrepared, hs, hc, h0, hw]
    · have hc' : c.m_connected = false := by simpa using hc
      simpa [QueueAudioSegment, hs, hc', streamPrepared] using hb

theorem QueueAudioSegment_offset (env : Env) (data : Option Buffer) (size : Nat) (c : Impl)
    (b : Bool) (hp : env.TransportStreamPrepare = 0) (hw : env.TransportStreamWrite = 0)
    (hlt : c.m_audioOffset + size < 2 ^ 64) (hb : b = true → c.m_audioOffset ≠ 0) :
    (streamPrepared b (QueueAudioSegment env data size c).calls = true →
      (QueueAudioSegment env data size c).state.m_audioOffset ≠ 0) ∧
    (QueueAudioSegment env data size c).state.m_audioOffset ≤ c.m_audioOffset + size := by
  by_cases hs : size = 0
  · subst hs
    rw [show QueueAudioSegment env data 0 c = QueueAudioEnd env c from by
      simp [QueueAudioSegment]]
    rcases QueueAudioEnd_audio env c b with ⟨h1, h2⟩ | ⟨h1, h2⟩
    · rw [h1, h2]; exact ⟨hb, Nat.le_refl _⟩
    · rw [h1, h2]; exact ⟨fun h => absurd h (by decide), Nat.zero_le _⟩
  cases data with
  | none =>
    simp only [QueueAudioSegment, hs, if_false, streamPrepared]
    exact ⟨hb, Nat.le_add_right _ _⟩
  | some d =>
    by_cases hc : c.m_connected = true
    · have hmod : (c.m_audioOffset + size) % 2 ^ 64 = c.m_audioOffset + size :=
        Nat.mod_eq_of_lt hlt
      have hpos : c.m_audioOffset + size ≠ 0 := by omega
      by_cases h0 : c.m_audioOffset = 0
      · rw [h0] at hmod hpos
        by_cases he : c.m_speechRequestId = "" <;>
          simp only [QueueAudioSegment, prepareAudio, CreateRequestId, SignalWork,
            streamPrepared, hs, hc, h0, he, hp, hw, hmod, if_false, if_true, ne_eq,
            not_true_eq_false, Bool.not_true, Bool.false_eq_true, List.nil_append,
            List.cons_append, List.singleton_append, not_false_eq_true] <;>
          exact ⟨fun _ => hpos, by omega⟩
      · simp only [QueueAudioSegment, prepareAudio, SignalWork, streamPrepared, hs, hc, h0, hw,
          hmod, if_false, ne_eq, not_true_eq_false, Bool.not_true, Bool.false_eq_true,
          List.nil_append, not_false_eq_true]
        exact ⟨fun _ => hpos, Nat.le_refl _⟩
    · have hc' : c.m_connected = false := by simpa using hc
      simp only [QueueAudioSegment, hs, hc', if_false, Bool.not_false, if_true, streamPrepared]
      exact ⟨hb, Nat.le_add_right _ _⟩

theorem run_prepared (w : World) (ops : List Op) :
    ∀ (c : Impl) (b : Bool), (c.m_audioOffset ≠ 0 → b = true) →
      (run w ops c).m_audioOffset ≠ 0 → streamPrepared b (trace w ops c) = true := by
  induction ops with
  | nil => intro c b hb h; exact hb h
  | cons op ops ih =>
    intro c b hb
    simp only [run, trace, streamPrepared_append]
    apply ih
    by_cases h1 : ∃ env data size, op = .QueueAudioSegment env data size
    · obtain ⟨env, data, size, rfl⟩ := h1
      exact QueueAudioSegment_prepared env data size c b hb
    by_cases h2 : ∃ env, op = .QueueAudioEnd env
    · obtain ⟨env, rfl⟩ := h2
      rcases QueueAudioEnd_audio env c b with ⟨e1, e2⟩ | ⟨e1, e2⟩
      · simp only [step]; rw [e1, e2]; exact hb
      · simp only [step]; rw [e1]; intro h; exact absurd rfl h
    · obtain ⟨e1, e2⟩ := step_other_audio w op c
        (fun env data size e => h1 ⟨env, data, size, e⟩) (fun env e => h2 ⟨env, e⟩)
      rw [e1, e2]; exact hb

theorem run_offset (w : World) (ops : List Op) :
    ∀ (c : Impl) (b : Bool), (∀ op ∈ ops, op.audioAccepted) →
      c.m_audioOffset + audioBytes ops < 2 ^ 64 → (b = true → c.m_audioOffset ≠ 0) →
      streamPrepared b (trace w ops c) = true → (run w ops c).m_audioOffset ≠ 0 := by
  induction ops with
  | nil => intro c b _ _ hb h; exact hb h
  | cons op ops ih =>
    intro c b hacc hlt hb
    simp only [run, trace, streamPrepared_append]
    have hacc' : ∀ o ∈ ops, o.audioAccepted := fun o ho => hacc o (List.mem_cons_of_mem _ ho)
    by_cases h1 : ∃ env data size, op = .QueueAudioSegment env data size
    · obtain ⟨env, data, size, rfl⟩ := h1
      have ha := hacc _ (List.mem_cons_self _ _)
      simp only [audioBytes] at hlt
      obtain ⟨e1, e2⟩ := QueueAudioSegment_offset env data size c b ha.1 ha.2 (by omega) hb
      exact ih _ _ hacc' (by simp only [step]; omega) e1
    by_cases h2 : ∃ env, op = .QueueAudioEnd env
    · obtain ⟨env, rfl⟩ := h2
      simp only [audioBytes] at hlt
      rcases QueueAudioEnd_audio env c b with ⟨e1, e2⟩ | ⟨e1, e2⟩
      · refine ih _ _ hacc' (by simp only [step]; rw [e1]; exact hlt) ?_
        simp only [step]; rw [e1, e2]; exact hb
      · refine ih _ _ hacc' (by simp only [step]; rw [e1]; omega) ?_
        simp only [step]; rw [e2]; intro h; exact absurd h (by decide)
    · obtain ⟨e1, e2⟩ := step_other_audio w op c
        (fun env data size e => h1 ⟨env, data, size, e⟩) (fun env e => h2 ⟨env, e⟩)
      have hbytes : audioBytes (op :: ops) = audioBytes ops := by
        cases op with
        | QueueAudioSegment env data size => exact absurd ⟨env, data, size, rfl⟩ h1
        | _ => rfl
      rw [hbytes] at hlt
      refine ih _ _ hacc' (by rw [e1]; exact hlt) ?_
      rw [e1, e2]; exact hb

/-- Counterexample to C11 as stated: the sample connection is connected and
gets one audio segment; the transport prepares the stream and refuses the
write, `QueueAudioSegment` throws `RuntimeError`, and in the state it leaves
the audio offset is 0 although a stream has been prepared and not flushed. -/
theorem C11_prepared_with_offset_zero :
    Impl.create sampleSpeech true = .ok sampleFresh ∧
    (∃ what, (QueueAudioSegment sampleRefusingEnv (some [1]) 1
      (run sampleWorld [.Connect sampleConnectEnv] sampleFresh)).error
        = some (.RuntimeError what)) ∧
    (run sampleWorld sampleRefusedSession sampleFresh).m_audioOffset = 0 ∧
    streamPrepared false (trace sampleWorld sampleRefusedSession sampleFresh) = true := by
  exact ⟨by decide, ⟨_, rfl⟩, by decide, by decide⟩

/-- Claim C11, amended: in every state reached from a freshly constructed
connection, also after operations that threw, a non-zero audio offset means
that a stream has been prepared (a `TransportStreamPrepare` call was made and
no `TransportStreamFlush` after it); and when the transport accepted every
`TransportStreamPrepare` and `TransportStreamWrite` and fewer than 2^64 audio
bytes were handed over, the audio offset is 0 if and only if no stream has
been prepared. -/
theorem C11_audio_offset_tracks_preparation (w : World) (config : Client) (callbacks : Bool)
    (c0 : Impl) (ops : List Op) (h : Impl.create config callbacks = .ok c0) :
    ((run w ops c0).m_audioOffset ≠ 0 → streamPrepared false (trace w ops c0) = true) ∧
    ((∀ op ∈ ops, op.audioAccepted) → audioBytes ops < 2 ^ 64 →
      ((run w ops c0).m_audioOffset = 0 ↔ streamPrepared false (trace w ops c0) = false)) := by
  have h0 : c0.m_audioOffset = 0 := by
    unfold Impl.create at h
    split_ifs at h
    simp only [Except.ok.injEq] at h
    subst h
    rfl
  have hA := run_prepared w ops c0 false (fun hne => absurd h0 hne)
  refine ⟨hA, fun hacc hlt => ?_⟩
  have hB := run_offset w ops c0 false hacc (by rw [h0]; simpa using hlt)
    (fun hb => absurd hb (by decide))
  constructor
  · intro hz
    cases hp : streamPrepared false (trace w ops c0) with
    | false => rfl
    | true => exact absurd hz (hB hp)
  · intro hp
    by_contra hne
    rw [hA hne] at hp
    exact absurd hp (by decide)

/-- Witness of C11: the first three operations of the sample session (audio
written, not flushed) and the session with the refused write. -/
theorem C11_audio_offset_tracks_preparation_witness :
    Impl.create sampleSpeech true = .ok sampleFresh ∧
    (run sampleWorld (sampleSession.take 3) sampleFresh).m_audioOffset = 4 ∧
    streamPrepared false (trace sampleWorld (sampleSession.take 3) sampleFresh) = true ∧
    ((∀ op ∈ sampleSession.take 3, op.audioAccepted) → audioBytes (sampleSession.take 3) < 2 ^ 64 →
      ((run sampleWorld (sampleSession.take 3) sampleFresh).m_audioOffset = 0 ↔
        streamPrepared false (trace sampleWorld (sampleSession.take 3) sampleFresh) = false)) :=
  ⟨by decide, by decide,
    (C11_audio_offset_tracks_preparation sampleWorld sampleSpeech true sampleFresh
      (sampleSession.take 3) (by decide)).1 (by decide),
    (C11_audio_offset_tracks_preparation sampleWorld sampleSpeech true sampleFresh
      (sampleSession.take 3) (by decide)).2⟩

/-- Evaluation for C19: a detailed `speech.phrase` with status Success whose
only NBest entry has confidence 0 and display `a` is delivered with an empty
display text, since the running maximum starts at 0 and only a strictly
greater confidence is taken; the phrase of scenario 5 of §8 is delivered with
display text `b`. -/
theorem C19_zero_confidence_gives_empty_text :
    OnTransportData (sampleLibFor sampleZeroConfidencePhrase)
        (some (sampleJsonHeaders "R1" "speech.phrase")) [1] 1 0 sampleTurnOpen
      = ⟨sampleTurnOpen,
          [.metrics_received_message "R1" "speech.phrase",
           .Invoke (.OnSpeechPhrase ⟨"json", 0, 100, .Success, ""⟩)], none⟩ ∧
    OnTransportData (sampleLibFor sampleNBestPhrase)
        (some (sampleJsonHeaders "R1" "speech.phrase")) [1] 1 0 sampleTurnOpen
      = ⟨sampleTurnOpen,
          [.metrics_received_message "R1" "speech.phrase",
           .Invoke (.OnSpeechPhrase ⟨"json", 0, 100, .Success, "b"⟩)], none⟩ := by
  decide

theorem dispatch_speechPhrase (lib : Lib) (requestId : String) (contentType : Option String)
    (buffer : Buffer) (size : Nat) (c : Impl) (json : Json) (hsize : size ≠ 0)
    (hparse : lib.parse (buffer.take size) = some json) :
    dispatch lib requestId path.speechPhrase contentType buffer size c
      = deliver c [.metrics_received_message requestId path.speechPhrase]
          (onSpeechPhrase lib json) := by
  have hs : size > 0 := Nat.pos_of_ne_zero hsize
  unfold dispatch
  simp [hs, hparse, path.speechPhrase, path.translationSynthesis, path.speechStartDetected,
    path.speechEndDetected, path.turnStart, path.turnEnd, path.speechHypothesis,
    path.speechFragment]

theorem OnTransportData_dispatch (lib : Lib) (h : HttpHeaders) (buffer : Buffer) (size : Nat)
    (c : Impl) (rid pathStr contentType : String)
    (hrid : HTTPHeaders_FindHeaderValue h headers.requestId = some rid)
    (hne : rid ≠ "") (hact : rid ∈ c.m_activeRequestIds)
    (hpath : HTTPHeaders_FindHeaderValue h KEYWORD_PATH = some pathStr)
    (hsize : size ≠ 0)
    (hct : HTTPHeaders_FindHeaderValue h headers.contentType = some contentType) :
    OnTransportData lib (some h) buffer size 0 c
      = dispatch lib rid pathStr (some contentType) buffer size c := by
  unfold OnTransportData
  simp [hrid, hne, hact, hpath, hsize, hct]

/-- Claim C20: a `speech.phrase` message (active request id, connected
connection with its callback set, body with a content type) whose JSON object
has the status `Success`, numbers `Offset` and `Duration` and a string
`DisplayText` is delivered as exactly one `OnSpeechPhrase` that carries this
display text, whatever else the object holds (an `NBest` array or not), with
the offset and the duration read from the two fields and the status
Success. -/
theorem C20_simple_phrase (lib : Lib) (h : HttpHeaders) (buffer : Buffer) (size : Nat)
    (c : Impl) (rid contentType : String) (members : List (String × Json))
    (offsetObj durationObj : Json) (offset duration : Nat) (displayText : String)
    (hc : c.m_connected = true) (hcb : c.m_callbacks = true)
    (hrid : HTTPHeaders_FindHeaderValue h headers.requestId = some rid)
    (hne : rid ≠ "") (hact : rid ∈ c.m_activeRequestIds)
    (hpath : HTTPHeaders_FindHeaderValue h KEYWORD_PATH = some path.speechPhrase)
    (hsize : size ≠ 0)
    (hct : HTTPHeaders_FindHeaderValue h headers.contentType = some contentType)
    (hparse : lib.parse (buffer.take size) = some (.object members))
    (hstatus : Json.lookup json_properties.recoStatus members = some (.string "Success"))
    (hoffset : Json.lookup json_properties.offset members = some offsetObj)
    (hoffsetv : offsetObj.get_uint64 = .ok offset)
    (hduration : Json.lookup json_properties.duration members = some durationObj)
    (hdurationv : durationObj.get_uint64 = .ok duration)
    (hdisplay : Json.lookup json_properties.displayText members = some (.string displayText)) :
    OnTransportData lib (some h) buffer size 0 c
      = ⟨c,
          [.metrics_received_message rid path.speechPhrase,
           .Invoke (.OnSpeechPhrase
             ⟨lib.dump (.object members), offset, duration, .Success, displayText⟩)],
          none⟩ := by
  rw [OnTransportData_dispatch lib h buffer size c rid path.speechPhrase contentType hrid hne
      hact hpath hsize hct,
    dispatch_speechPhrase lib rid (some contentType) buffer size c (.object members) hsize hparse]
  have hp : onSpeechPhrase lib (.object members)
      = .ok [.OnSpeechPhrase
          ⟨lib.dump (.object members), offset, duration, .Success, displayText⟩] := by
    simp [onSpeechPhrase, Json.index, Json.find, Json.get_string, ToRecognitionStatus,
      hstatus, hoffset, hoffsetv, hduration, hdurationv, hdisplay, bind, Except.bind, pure,
      Except.pure]
  rw [hp]
  simp [deliver, Invoke, hc, hcb]

/-- Witness of C20: a `speech.phrase` with the display text `hello`, offset 7,
duration 100 and an NBest array, on the connected sample connection. -/
theorem C20_simple_phrase_witness :
    OnTransportData (sampleLibFor sampleSimplePhrase)
        (some (sampleJsonHeaders "R1" "speech.phrase")) [1] 1 0 sampleTurnOpen
      = ⟨sampleTurnOpen,
          [.metrics_received_message "R1" path.speechPhrase,
           .Invoke (.OnSpeechPhrase
             ⟨(sampleLibFor sampleSimplePhrase).dump (.object sampleSimpleMembers), 7, 100,
               .Success, "hello"⟩)],
          none⟩ :=
  C20_simple_phrase (sampleLibFor sampleSimplePhrase) (sampleJsonHeaders "R1" "speech.phrase")
    [1] 1 sampleTurnOpen "R1" "application/json" sampleSimpleMembers
    (.number_integer 7) (.number_integer 100) 7 100 "hello"
    (by decide) (by decide) (by decide) (by decide) (by decide) (by decide) (by decide)
    (by decide) rfl rfl rfl (by decide) rfl (by decide) rfl

/-! ## Lemmas on the dispatch of an accepted message -/

theorem OnTransportData_accepted (lib : Lib) (h : HttpHeaders) (buffer : Buffer) (size : Nat)
    (c : Impl) (rid pathStr : String)
    (hrid : HTTPHeaders_FindHeaderValue h headers.requestId = some rid)
    (hne : rid ≠ "") (hact : rid ∈ c.m_activeRequestIds)
    (hpath : HTTPHeaders_FindHeaderValue h KEYWORD_PATH = some pathStr)
    (hct : size ≠ 0 → HTTPHeaders_FindHeaderValue h headers.contentType ≠ none) :
    OnTransportData lib (some h) buffer size 0 c
      = dispatch lib rid pathStr
          (if size ≠ 0 then HTTPHeaders_FindHeaderValue h headers.contentType else none)
          buffer size c := by
  unfold OnTransportData
  by_cases hs : size ≠ 0
  · simp [hrid, hne, hact, hpath, hs, hct hs]
  · simp [hrid, hne, hact, hpath, hs]

theorem deliver_ok (c : Impl) (calls : List Call) (callbacks : List Callback)
    (hc : c.m_connected = true) (hcb : c.m_callbacks = true) :
    deliver c calls (.ok callbacks) = ⟨c, calls ++ callbacks.map Call.Invoke, none⟩ := by
  cases callbacks with
  | nil => simp [deliver, Invoke, hc]
  | cons x xs => simp [deliver, Invoke, hc, hcb]

theorem dispatch_speechDetected (lib : Lib) (requestId pathStr : String)
    (contentType : Option String) (buffer : Buffer) (size : Nat) (c : Impl) (json : Json)
    (hpath : pathStr = path.speechStartDetected ∨ pathStr = path.speechEndDetected)
    (hbody : (if size > 0 then lib.parse (buffer.take size) else some Json.null) = some json) :
    dispatch lib requestId pathStr contentType buffer size c
      = deliver c [.metrics_received_message requestId pathStr]
          (onSpeechDetected lib pathStr json) := by
  unfold dispatch
  rcases hpath with rfl | rfl <;>
    simp [hbody, path.translationSynthesis, path.speechStartDetected, path.speechEndDetected]

/-- Claim C23: a `speech.startDetected` or `speech.endDetected` message
(active request id, connected connection with its callback set) whose body is
empty, or is a JSON object without an `Offset` member or with a null one, is
delivered without exception as exactly one callback of its kind with offset
0; when `Offset` is a number n (an unsigned 64-bit integer) the delivered
offset is n. -/
theorem C23_missing_offset_tolerated (lib : Lib) (h : HttpHeaders) (buffer : Buffer)
    (size : Nat) (c : Impl) (rid pathStr : String)
    (hc : c.m_connected = true) (hcb : c.m_callbacks = true)
    (hrid : HTTPHeaders_FindHeaderValue h headers.requestId = some rid)
    (hne : rid ≠ "") (hact : rid ∈ c.m_activeRequestIds)
    (hpath : HTTPHeaders_FindHeaderValue h KEYWORD_PATH = some pathStr)
    (hkind : pathStr = path.speechStartDetected ∨ pathStr = path.speechEndDetected)
    (hct : size ≠ 0 → HTTPHeaders_FindHeaderValue h headers.contentType ≠ none) :
    (size = 0 →
      OnTransportData lib (some h) buffer size 0 c
        = ⟨c, [.metrics_received_message rid pathStr,
            .Invoke (if pathStr = path.speechStartDetected then
              .OnSpeechStartDetected (lib.dump (.object [(json_properties.offset, .null)])) 0
            else
              .OnSpeechEndDetected (lib.dump (.object [(json_properties.offset, .null)])) 0)],
          none⟩) ∧
    (∀ members, size ≠ 0 → lib.parse (buffer.take size) = some (.object members) →
      Json.lookup json_properties.offset members = none →
      OnTransportData lib (some h) buffer size 0 c
        = ⟨c, [.metrics_received_message rid pathStr,
            .Invoke (if pathStr = path.speechStartDetected then
              .OnSpeechStartDetected
                (lib.dump (.object (Json.insertMember json_properties.offset .null members))) 0
            else
              .OnSpeechEndDetected
                (lib.dump (.object (Json.insertMember json_properties.offset .null members))) 0)],
          none⟩) ∧
    (∀ members, size ≠ 0 → lib.parse (buffer.take size) = some (.object members) →
      Json.lookup json_properties.offset members = some .null →
      OnTransportData lib (some h) buffer size 0 c
        = ⟨c, [.metrics_received_message rid pathStr,
            .Invoke (if pathStr = path.speechStartDetected then
              .OnSpeechStartDetected (lib.dump (.object members)) 0
            else
              .OnSpeechEndDetected (lib.dump (.object members)) 0)],
          none⟩) ∧
    (∀ members (n : Nat), size ≠ 0 → lib.parse (buffer.take size) = some (.object members) →
      Json.lookup json_properties.offset members = some (.number_integer n) → n < 2 ^ 64 →
      OnTransportData lib (some h) buffer size 0 c
        = ⟨c, [.metrics_received_message rid pathStr,
            .Invoke (if pathStr = path.speechStartDetected then
              .OnSpeechStartDetected (lib.dump (.object members)) n
            else
              .OnSpeechEndDetected (lib.dump (.object members)) n)],
          none⟩) := by
  have key : ∀ json cb, (if size > 0 then lib.parse (buffer.take size) else some Json.null)
        = some json →
      onSpeechDetected lib pathStr json = .ok [cb] →
      OnTransportData lib (some h) buffer size 0 c
        = ⟨c, [.metrics_received_message rid pathStr, .Invoke cb], none⟩ := by
    intro json cb hbody hh
    rw [OnTransportData_accepted lib h buffer size c rid pathStr hrid hne hact hpath hct,
      dispatch_speechDetected lib rid pathStr _ buffer size c json hkind hbody, hh,
      deliver_ok c _ _ hc hcb]
    rfl
  refine ⟨?_, ?_, ?_, ?_⟩
  · intro h0
    apply key .null
    · simp [h0]
    · by_cases hp : pathStr = path.speechStartDetected <;>
        simp [onSpeechDetected, Json.index, Json.is_null, hp, bind, Except.bind, pure,
          Except.pure]
  · intro members hs hparse hl
    apply key (.object members)
    · simp [Nat.pos_of_ne_zero hs, hparse]
    · by_cases hp : pathStr = path.speechStartDetected <;>
        simp [onSpeechDetected, Json.index, Json.is_null, hp, hl, bind, Except.bind, pure,
          Except.pure]
  · intro members hs hparse hl
    apply key (.object members)
    · simp [Nat.pos_of_ne_zero hs, hparse]
    · by_cases hp : pathStr = path.speechStartDetected <;>
        simp [onSpeechDetected, Json.index, Json.is_null, hp, hl, bind, Except.bind, pure,
          Except.pure]
  · intro members n hs hparse hl hn
    apply key (.object members)
    · simp [Nat.pos_of_ne_zero hs, hparse]
    · have hn2 : n < 18446744073709551616 := by simpa using hn
      have hmod : ((n : Int) % 18446744073709551616).toNat = n := by omega
      by_cases hp : pathStr = path.speechStartDetected <;>
        simp [onSpeechDetected, Json.index, Json.is_null, Json.get_uint64, hp, hl, hmod, bind,
          Except.bind, pure, Except.pure]

/-- Witness of C23: a `speech.endDetected` without a body on the connected
sample connection. -/
theorem C23_missing_offset_tolerated_witness :
    OnTransportData sampleLib (some (sampleHeaders "R1" "speech.endDetected")) [] 0 0
        sampleTurnOpen
      = ⟨sampleTurnOpen, [.metrics_received_message "R1" "speech.endDetected",
          .Invoke (if "speech.endDetected" = path.speechStartDetected then
            .OnSpeechStartDetected (sampleLib.dump (.object [(json_properties.offset, .null)])) 0
          else
            .OnSpeechEndDetected (sampleLib.dump (.object [(json_properties.offset, .null)])) 0)],
        none⟩ :=
  (C23_missing_offset_tolerated sampleLib (sampleHeaders "R1" "speech.endDetected") [] 0
    sampleTurnOpen "R1" "speech.endDetected" (by decide) (by decide) (by decide) (by decide)
    (by decide) (by decide) (by decide) (fun h => absurd rfl h)).1 rfl

theorem dispatch_translationSynthesisEnd (lib : Lib) (requestId : String)
    (contentType : Option String) (buffer : Buffer) (size : Nat) (c : Impl) (json : Json)
    (hbody : (if size > 0 then lib.parse (buffer.take size) else some Json.null) = some json) :
    dispatch lib requestId path.translationSynthesisEnd contentType buffer size c
      = deliver c [.metrics_received_message requestId path.translationSynthesisEnd]
          (onTranslationSynthesisEnd json) := by
  unfold dispatch
  simp [hbody, path.translationSynthesis, path.speechStartDetected, path.speechEndDetected,
    path.turnStart, path.turnEnd, path.speechHypothesis, path.speechFragment, path.speechPhrase,
    path.translationHypothesis, path.translationPhrase, path.translationSynthesisEnd]

/-- Claim C22: a `translation.synthesis.end` message (active request id,
connected connection with its callback set) whose body is a JSON object, with
the string fields `SynthesisStatus` and `FailureReason` present or not, is
delivered as exactly one callback: `OnTranslationSynthesisEnd` if and only if
`SynthesisStatus` is present and equal to `Success`, else
`OnError(false, ServiceError, message)`, where the message is the failure
reason after `No synthesis status in synthesis.end message.` for a missing
status, after `Invalid synthesis status in synthesis.end message.` for an
unrecognised one, and alone for the status `Error`. -/
theorem C22_synthesis_end_outcome (lib : Lib) (h : HttpHeaders) (buffer : Buffer)
    (size : Nat) (c : Impl) (rid : String) (members : List (String × Json))
    (status failure : Option String)
    (hc : c.m_connected = true) (hcb : c.m_callbacks = true)
    (hrid : HTTPHeaders_FindHeaderValue h headers.requestId = some rid)
    (hne : rid ≠ "") (hact : rid ∈ c.m_activeRequestIds)
    (hpath : HTTPHeaders_FindHeaderValue h KEYWORD_PATH = some path.translationSynthesisEnd)
    (hsize : size ≠ 0)
    (hct : HTTPHeaders_FindHeaderValue h headers.contentType ≠ none)
    (hparse : lib.parse (buffer.take size) = some (.object members))
    (hstatus : Json.lookup json_properties.synthesisStatus members = status.map Json.string)
    (hfailure : Json.lookup json_properties.translationFailureReason members
      = failure.map Json.string) :
    OnTransportData lib (some h) buffer size 0 c
      = ⟨c, [.metrics_received_message rid path.translationSynthesisEnd,
          .Invoke
            (if status = some "Success" then
              .OnTranslationSynthesisEnd .Success (failure.getD "")
            else if status = some "Error" then
              .OnError false .ServiceError (failure.getD "")
            else if status = none then
              .OnError false .ServiceError
                ("No synthesis status in synthesis.end message." ++ failure.getD "")
            else
              .OnError false .ServiceError
                ("Invalid synthesis status in synthesis.end message." ++ failure.getD ""))],
        none⟩ := by
  rw [OnTransportData_accepted lib h buffer size c rid _ hrid hne hact hpath (fun _ => hct),
    dispatch_translationSynthesisEnd lib rid _ buffer size c (.object members)
      (by simp [Nat.pos_of_ne_zero hsize, hparse])]
  have hh : onTranslationSynthesisEnd (.object members)
      = .ok [if status = some "Success" then
              .OnTranslationSynthesisEnd .Success (failure.getD "")
            else if status = some "Error" then
              .OnError false .ServiceError (failure.getD "")
            else if status = none then
              .OnError false .ServiceError
                ("No synthesis status in synthesis.end message." ++ failure.getD "")
            else
              .OnError false .ServiceError
                ("Invalid synthesis status in synthesis.end message." ++ failure.getD "")] := by
    cases status with
    | none =>
      cases failure <;>
        simp_all [onTranslationSynthesisEnd, Json.find, Json.get_string, bind, Except.bind,
          pure, Except.pure]
    | some s =>
      by_cases h1 : s = "Success"
      · cases failure <;>
          simp_all [onTranslationSynthesisEnd, Json.find, Json.get_string, ToSynthesisStatus,
            bind, Except.bind, pure, Except.pure]
      · by_cases h2 : s = "Error"
        · cases failure <;>
            simp_all [onTranslationSynthesisEnd, Json.find, Json.get_string, ToSynthesisStatus,
              bind, Except.bind, pure, Except.pure]
        · cases failure <;>
            simp_all [onTranslationSynthesisEnd, Json.find, Json.get_string, ToSynthesisStatus,
              bind, Except.bind, pure, Except.pure]
  rw [hh, deliver_ok c _ _ hc hcb]
  rfl

/-- Witness of C22: a `translation.synthesis.end` whose body is the empty
object, on the connected sample connection. -/
theorem C22_synthesis_end_outcome_witness :
    OnTransportData sampleLib (some (sampleJsonHeaders "R1" "translation.synthesis.end"))
        [123, 125] 2 0 sampleTurnOpen
      = ⟨sampleTurnOpen, [.metrics_received_message "R1" path.translationSynthesisEnd,
          .Invoke
            (if (none : Option String) = some "Success" then
              .OnTranslationSynthesisEnd .Success ((none : Option String).getD "")
            else if (none : Option String) = some "Error" then
              .OnError false .ServiceError ((none : Option String).getD "")
            else if (none : Option String) = none then
              .OnError false .ServiceError
                ("No synthesis status in synthesis.end message."
                  ++ (none : Option String).getD "")
            else
              .OnError false .ServiceError
                ("Invalid synthesis status in synthesis.end message."
                  ++ (none : Option String).getD ""))],
        none⟩ :=
  C22_synthesis_end_outcome sampleLib (sampleJsonHeaders "R1" "translation.synthesis.end")
    [123, 125] 2 sampleTurnOpen "R1" [] none none (by decide) (by decide) (by decide)
    (by decide) (by decide) (by decide) (by decide) (by decide) rfl rfl rfl

/-- Evaluation for C24: a message on the unknown path `my.path`, with an
active request id and a content type, whose one-byte body is not JSON: the
parse of line 816 throws before the dispatch on the path, and no
`OnUserMessage` is delivered. -/
theorem C24_non_json_user_message_not_forwarded :
    sampleLib.parse [255] = none ∧
    OnTransportData sampleLib (some (sampleJsonHeaders "R1" "my.path")) [255] 1 0 sampleTurnOpen
      = ⟨sampleTurnOpen, [.metrics_received_message "R1" "my.path"],
          some .json_parse_error⟩ := by
  exact ⟨rfl, by decide⟩

theorem unknown_path_forwarded (lib : Lib) (h : HttpHeaders) (buffer : Buffer) (size : Nat)
    (c : Impl) (rid pathStr : String)
    (hc : c.m_connected = true) (hcb : c.m_callbacks = true)
    (hrid : HTTPHeaders_FindHeaderValue h headers.requestId = some rid)
    (hne : rid ≠ "") (hact : rid ∈ c.m_activeRequestIds)
    (hpath : HTTPHeaders_FindHeaderValue h KEYWORD_PATH = some pathStr)
    (hunknown : pathStr ∉ [path.translationSynthesis, path.speechStartDetected,
      path.speechEndDetected, path.turnStart, path.turnEnd, path.speechHypothesis,
      path.speechFragment, path.speechPhrase, path.translationHypothesis,
      path.translationPhrase, path.translationSynthesisEnd])
    (hct : size ≠ 0 → HTTPHeaders_FindHeaderValue h headers.contentType ≠ none)
    (hbody : size ≠ 0 → lib.parse (buffer.take size) ≠ none) :
    OnTransportData lib (some h) buffer size 0 c
      = ⟨c, [.metrics_received_message rid pathStr,
          .Invoke (.OnUserMessage pathStr
            ((if size ≠ 0 then HTTPHeaders_FindHeaderValue h headers.contentType
              else none).getD "") buffer size)],
        none⟩ := by
  rw [OnTransportData_accepted lib h buffer size c rid pathStr hrid hne hact hpath hct]
  simp only [List.mem_cons, List.mem_singleton, List.not_mem_nil, or_false, not_or] at hunknown
  obtain ⟨h1, h2, h3, h4, h5, h6, h7, h8, h9, h10, h11⟩ := hunknown
  have hj : ∃ json, (if size > 0 then lib.parse (buffer.take size) else some Json.null)
      = some json := by
    by_cases hs : size ≠ 0
    · obtain ⟨j, hj⟩ := Option.ne_none_iff_exists'.1 (hbody hs)
      exact ⟨j, by simp [Nat.pos_of_ne_zero hs, hj]⟩
    · have : ¬ size > 0 := by omega
      exact ⟨.null, by simp [this]⟩
  obtain ⟨json, hj⟩ := hj
  unfold dispatch
  simp only [hj, h1, h2, h3, h4, h5, h6, h7, h8, h9, h10, h11, if_false, or_self]
  rw [deliver_ok c _ _ hc hcb]
  rfl

/-! ## `translation.phrase` -/

theorem dispatch_translationPhrase (lib : Lib) (requestId : String)
    (contentType : Option String) (buffer : Buffer) (size : Nat) (c : Impl) (json : Json)
    (hbody : (if size > 0 then lib.parse (buffer.take size) else some Json.null) = some json) :
    dispatch lib requestId path.translationPhrase contentType buffer size c
      = deliver c [.metrics_received_message requestId path.translationPhrase]
          (onTranslationPhrase lib json) := by
  unfold dispatch
  simp [hbody, path.translationSynthesis, path.speechStartDetected, path.speechEndDetected,
    path.turnStart, path.turnEnd, path.speechHypothesis, path.speechFragment, path.speechPhrase,
    path.translationHypothesis, path.translationPhrase]

theorem RetrieveSpeechResult_ok (lib : Lib) (members : List (String × Json))
    (offsetObj durationObj : Json) (offset duration : Nat) (text : Option String)
    (hoffset : Json.lookup json_properties.offset members = some offsetObj)
    (hoffsetv : offsetObj.get_uint64 = .ok offset)
    (hduration : Json.lookup json_properties.duration members = some durationObj)
    (hdurationv : durationObj.get_uint64 = .ok duration)
    (htext : Json.lookup json_properties.text members = text.map Json.string) :
    RetrieveSpeechResult lib (.object members)
      = .ok ⟨lib.dump (.object members), offset, duration, text.getD ""⟩ := by
  cases text <;>
    simp_all [RetrieveSpeechResult, Json.at_, Json.find, Json.get_string, bind, Except.bind,
      pure, Except.pure]

theorem collectTranslations_ok :
    ∀ (items : List Json) (acc : List (String × String)),
      (∀ e ∈ items, ∃ l t, e.at_ json_properties.lang = .ok (.string l) ∧
        e.at_ json_properties.text = .ok (.string t)) →
      ∃ m, collectTranslations items acc = .ok m := by
  intro items
  induction items with
  | nil => intro acc _; exact ⟨acc, rfl⟩
  | cons e rest ih =>
    intro acc hall
    obtain ⟨l, t, hl, ht⟩ := hall e (List.mem_cons_self _ _)
    have hrest := fun a => ih a (fun x hx => hall x (List.mem_cons_of_mem _ hx))
    by_cases hempty : l = "" ∧ t = ""
    · obtain ⟨m, hm⟩ := hrest acc
      exact ⟨m, by
        simp [collectTranslations, hl, ht, Json.get_string, hempty, hm, bind, Except.bind]⟩
    · obtain ⟨m, hm⟩ := hrest (mapAssign acc l t)
      exact ⟨m, by
        simp only [collectTranslations, hl, ht, Json.get_string, bind, Except.bind]
        rw [if_neg hempty]
        exact hm⟩

/-- Counterexample to C21 as stated: a `translation.phrase` with `Offset`,
`Duration`, the recognition status `Success` and the translation status
`Success`, whose `Translation` object has no `Translations` array: the
`at` of line 730 throws and no `OnTranslationPhrase` is delivered. -/
theorem C21_success_without_translations :
    OnTransportData (sampleLibFor sampleTranslationWithoutTexts)
        (some (sampleJsonHeaders "R1" "translation.phrase")) [1] 1 0 sampleTurnOpen
      = ⟨sampleTurnOpen, [.metrics_received_message "R1" "translation.phrase"],
          some .json_out_of_range⟩ := by
  decide

theorem ToTranslationStatus_eq_success (s : String) :
    ToTranslationStatus s = .Success ↔ s = "Success" := by
  unfold ToTranslationStatus
  by_cases h1 : s = "Success"
  · simp [h1]
  · by_cases h2 : s = "Error" <;> simp [h1, h2]

theorem RetrieveTranslationResult_not_success (lib : Lib) (members : List (String × Json))
    (tr : Json) (htr : Json.lookup json_properties.translation members = some tr)
    (hns : tr.find json_properties.translationStatus ≠ some (.string "Success")) :
    ∀ r, RetrieveTranslationResult lib (.object members) true = .ok r →
      r.translationStatus ≠ .Success := by
  intro r hr
  unfold RetrieveTranslationResult at hr
  simp only [htr, bind, Except.bind, pure, Except.pure, if_true] at hr
  cases hst : tr.find json_properties.translationStatus with
  | none =>
    rw [hst] at hr
    simp only at hr
    cases hf : tr.find json_properties.translationFailureReason with
    | none =>
      rw [hf] at hr
      simp at hr
      rw [← hr]
      simp
    | some f =>
      rw [hf] at hr
      cases f <;> simp [Json.get_string] at hr
      rw [← hr]
      simp
  | some v =>
    rw [hst] at hr hns
    cases v
    case string s =>
      have hs : s ≠ "Success" := fun e => hns (by rw [e])
      have hts : ToTranslationStatus s ≠ .Success :=
        fun e => hs ((ToTranslationStatus_eq_success s).1 e)
      simp only [Json.get_string] at hr
      cases hf : tr.find json_properties.translationFailureReason with
      | none =>
        rw [hf] at hr
        simp [hts] at hr
        rw [← hr]
        exact hts
      | some f =>
        rw [hf] at hr
        cases f <;> simp [Json.get_string, hts] at hr
        rw [← hr]
        exact hts
    all_goals simp [Json.get_string] at hr

theorem RetrieveTranslationResult_success (lib : Lib) (members : List (String × Json))
    (tr translations : Json) (failure : Option String) (m : List (String × String))
    (htr : Json.lookup json_properties.translation members = some tr)
    (hstatus : tr.find json_properties.translationStatus = some (.string "Success"))
    (hfailure : tr.find json_properties.translationFailureReason = failure.map Json.string)
    (htranslations : tr.at_ json_properties.translations = .ok translations)
    (hm : collectTranslations translations.items [] = .ok m) :
    RetrieveTranslationResult lib (.object members) true
      = .ok ⟨.Success, failure.getD "", m⟩ := by
  unfold RetrieveTranslationResult
  cases failure <;>
    simp [htr, hstatus, hfailure, htranslations, hm, Json.get_string, ToTranslationStatus, bind,
      Except.bind, pure, Except.pure]

theorem onTranslationPhrase_success (lib : Lib) (members : List (String × Json))
    (speech : SpeechHypothesisMsg)
    (hstatus : Json.lookup json_properties.recoStatus members = some (.string "Success"))
    (hspeech : RetrieveSpeechResult lib (.object members) = .ok speech) :
    onTranslationPhrase lib (.object members)
      = match RetrieveTranslationResult lib (.object members) true with
        | .error e => .error e
        | .ok r =>
          if r.translationStatus = .Success then
            .ok [.OnTranslationPhrase speech.json speech.offset speech.duration speech.text r
              .Success]
          else .ok [] := by
  unfold onTranslationPhrase
  simp only [Json.at_, hstatus, Json.get_string, ToRecognitionStatus, hspeech, bind, Except.bind,
    pure, Except.pure, if_true]
  cases RetrieveTranslationResult lib (.object members) true with
  | error e => rfl
  | ok r => by_cases h : r.translationStatus = .Success <;> simp [h]

theorem onTranslationPhrase_benign (lib : Lib) (members : List (String × Json))
    (speech : SpeechHypothesisMsg) (s : String)
    (hs : s ∈ ["InitialSilenceTimeout", "BabbleTimeout", "NoMatch", "EndOfDictation"])
    (hstatus : Json.lookup json_properties.recoStatus members = some (.string s))
    (hspeech : RetrieveSpeechResult lib (.object members) = .ok speech) :
    onTranslationPhrase lib (.object members)
      = .ok [.OnTranslationPhrase speech.json speech.offset speech.duration speech.text
          ⟨.Success, "", []⟩ (ToRecognitionStatus s)] := by
  unfold onTranslationPhrase
  simp only [List.mem_cons, List.mem_singleton, List.not_mem_nil, or_false] at hs
  rcases hs with rfl | rfl | rfl | rfl <;>
    simp [Json.at_, hstatus, Json.get_string, ToRecognitionStatus, hspeech, bind, Except.bind,
      pure, Except.pure]

/-- Claim C21, amended: for a `translation.phrase` message (active request
id, connected connection with its callback set) whose JSON object has numbers
`Offset` and `Duration` and a `Text` that is a string or absent: with the
recognition status `Success` and a `Translation` member, no callback is
delivered unless `Translation.TranslationStatus` is the string `Success`, and
when it is, and `Translation.Translations` is present with entries that have
strings `Language` and `Text`, exactly one `OnTranslationPhrase` is delivered,
with the collected translations; with the recognition status
InitialSilenceTimeout, BabbleTimeout, NoMatch or EndOfDictation exactly one
`OnTranslationPhrase` is delivered, with the translation status Success, no
translations and the decoded recognition status. -/
theorem C21_translation_phrase_delivery (lib : Lib) (h : HttpHeaders) (buffer : Buffer)
    (size : Nat) (c : Impl) (rid : String) (members : List (String × Json))
    (offsetObj durationObj : Json) (offset duration : Nat) (text : Option String)
    (hc : c.m_connected = true) (hcb : c.m_callbacks = true)
    (hrid : HTTPHeaders_FindHeaderValue h headers.requestId = some rid)
    (hne : rid ≠ "") (hact : rid ∈ c.m_activeRequestIds)
    (hpath : HTTPHeaders_FindHeaderValue h KEYWORD_PATH = some path.translationPhrase)
    (hsize : size ≠ 0)
    (hct : HTTPHeaders_FindHeaderValue h headers.contentType ≠ none)
    (hparse : lib.parse (buffer.take size) = some (.object members))
    (hoffset : Json.lookup json_properties.offset members = some offsetObj)
    (hoffsetv : offsetObj.get_uint64 = .ok offset)
    (hduration : Json.lookup json_properties.duration members = some durationObj)
    (hdurationv : durationObj.get_uint64 = .ok duration)
    (htext : Json.lookup json_properties.text members = text.map Json.string) :
    (∀ tr, Json.lookup json_properties.recoStatus members = some (.string "Success") →
      Json.lookup json_properties.translation members = some tr →
      tr.find json_properties.translationStatus ≠ some (.string "Success") →
      (OnTransportData lib (some h) buffer size 0 c).calls
        = [.metrics_received_message rid path.translationPhrase]) ∧
    (∀ tr translations failure,
      Json.lookup json_properties.recoStatus members = some (.string "Success") →
      Json.lookup json_properties.translation members = some tr →
      tr.find json_properties.translationStatus = some (.string "Success") →
      tr.find json_properties.translationFailureReason = Option.map Json.string failure →
      tr.at_ json_properties.translations = .ok translations →
      (∀ e ∈ translations.items, ∃ l t, e.at_ json_properties.lang = .ok (.string l) ∧
        e.at_ json_properties.text = .ok (.string t)) →
      ∃ m, collectTranslations translations.items [] = .ok m ∧
        OnTransportData lib (some h) buffer size 0 c
          = ⟨c, [.metrics_received_message rid path.translationPhrase,
              .Invoke (.OnTranslationPhrase (lib.dump (.object members)) offset duration
                (text.getD "") ⟨.Success, failure.getD "", m⟩ .Success)],
            none⟩) ∧
    (∀ s ∈ ["InitialSilenceTimeout", "BabbleTimeout", "NoMatch", "EndOfDictation"],
      Json.lookup json_properties.recoStatus members = some (.string s) →
      OnTransportData lib (some h) buffer size 0 c
        = ⟨c, [.metrics_received_message rid path.translationPhrase,
            .Invoke (.OnTranslationPhrase (lib.dump (.object members)) offset duration
              (text.getD "") ⟨.Success, "", []⟩ (ToRecognitionStatus s))],
          none⟩) := by
  have hspeech := RetrieveSpeechResult_ok lib members offsetObj durationObj offset duration text
    hoffset hoffsetv hduration hdurationv htext
  have hout : OnTransportData lib (some h) buffer size 0 c
      = deliver c [.metrics_received_message rid path.translationPhrase]
          (onTranslationPhrase lib (.object members)) := by
    rw [OnTransportData_accepted lib h buffer size c rid _ hrid hne hact hpath (fun _ => hct),
      dispatch_translationPhrase lib rid _ buffer size c (.object members)
        (by simp [Nat.pos_of_ne_zero hsize, hparse])]
  refine ⟨?_, ?_, ?_⟩
  · intro tr hstatus htr hns
    rw [hout, onTranslationPhrase_success lib members _ hstatus hspeech]
    cases hr : RetrieveTranslationResult lib (.object members) true with
    | error e => simp [deliver]
    | ok r =>
      have := RetrieveTranslationResult_not_success lib members tr htr hns r hr
      simp [this, deliver_ok c _ _ hc hcb]
  · intro tr translations failure hstatus htr hts hfailure htranslations hentries
    obtain ⟨m, hm⟩ := collectTranslations_ok translations.items [] hentries
    refine ⟨m, hm, ?_⟩
    rw [hout, onTranslationPhrase_success lib members _ hstatus hspeech,
      RetrieveTranslationResult_success lib members tr translations failure m htr hts hfailure
        htranslations hm]
    simp [deliver_ok c _ _ hc hcb]
  · intro s hs hstatus
    rw [hout, onTranslationPhrase_benign lib members _ s hs hstatus hspeech,
      deliver_ok c _ _ hc hcb]
    rfl

/-- Witness of C21: a `translation.phrase` with the recognition status
`NoMatch` on the connected sample connection. -/
theorem C21_translation_phrase_delivery_witness :
    OnTransportData (sampleLibFor (.object sampleNoMatchTranslationMembers))
        (some (sampleJsonHeaders "R1" "translation.phrase")) [1] 1 0 sampleTurnOpen
      = ⟨sampleTurnOpen, [.metrics_received_message "R1" path.translationPhrase,
          .Invoke (.OnTranslationPhrase
            ((sampleLibFor (.object sampleNoMatchTranslationMembers)).dump
              (.object sampleNoMatchTranslationMembers))
            0 100 ((none : Option String).getD "") ⟨.Success, "", []⟩
            (ToRecognitionStatus "NoMatch"))],
        none⟩ :=
  (C21_translation_phrase_delivery (sampleLibFor (.object sampleNoMatchTranslationMembers))
    (sampleJsonHeaders "R1" "translation.phrase") [1] 1 sampleTurnOpen "R1"
    sampleNoMatchTranslationMembers (.number_integer 0) (.number_integer 100) 0 100 none
    (by decide) (by decide) (by decide) (by decide) (by decide) (by decide) (by decide)
    (by decide) rfl rfl rfl rfl rfl rfl).2.2 "NoMatch" (by decide) rfl

/-! ## Exceptions in the dispatcher -/

theorem deliver_error (c : Impl) (calls : List Call) (r : Except Exception (List Callback))
    (e : Exception) (hcb : c.m_connected = true → c.m_callbacks = true)
    (he : (deliver c calls r).error = some e) :
    deliver c calls r = ⟨c, calls, some e⟩ := by
  cases r with
  | error x =>
    simp only [deliver, Option.some.injEq] at he
    simp [deliver, he]
  | ok cbs =>
    exfalso
    simp only [deliver, Invoke] at he
    by_cases hc : c.m_connected = true
    · by_cases hn : cbs = [] <;> simp [hc, hcb hc, hn] at he
    · simp [hc] at he

theorem dispatch_error (lib : Lib) (requestId pathStr : String) (contentType : Option String)
    (buffer : Buffer) (size : Nat) (c : Impl) (e : Exception)
    (hcb : c.m_connected = true → c.m_callbacks = true)
    (he : (dispatch lib requestId pathStr contentType buffer size c).error = some e) :
    dispatch lib requestId pathStr contentType buffer size c
      = ⟨c, [.metrics_received_message requestId pathStr], some e⟩ := by
  have hcb2 : (endTurn requestId c).m_connected = true → (endTurn requestId c).m_callbacks = true := by
    unfold endTurn
    split_ifs <;> exact hcb
  unfold dispatch at he ⊢
  simp only at he ⊢
  split
  · rename_i hp
    rw [if_pos hp] at he
    exact deliver_error c _ _ e hcb he
  · rename_i hp
    rw [if_neg hp] at he
    split
    · rename_i hj
      rw [hj] at he
      simp only [Option.some.injEq] at he
      rw [he]
    · rename_i json hj
      rw [hj] at he
      simp only at he
      split_ifs at he ⊢
      all_goals first
        | exact deliver_error c _ _ e hcb he
        | (exfalso
           unfold onTurnEnd at he
           have := deliver_error _ _ _ e hcb2 he
           simp [deliver, Invoke] at this
           split_ifs at this <;> simp_all)

theorem OnTransportData_error (lib : Lib) (responseHeader : Option HttpHeaders)
    (buffer : Buffer) (size errorCode : Nat) (c : Impl) (e : Exception)
    (hcb : c.m_connected = true → c.m_callbacks = true)
    (he : (OnTransportData lib responseHeader buffer size errorCode c).error = some e) :
    (OnTransportData lib responseHeader buffer size errorCode c).state = c ∧
    ∀ call ∈ (OnTransportData lib responseHeader buffer size errorCode c).calls,
      call.isInvoke = false := by
  unfold OnTransportData at he ⊢
  by_cases h0 : errorCode ≠ 0
  · rw [if_pos h0] at he
    simp at he
  · rw [if_neg h0] at he ⊢
    cases responseHeader with
    | none => simp at he
    | some h =>
      simp only at he ⊢
      cases hrid : HTTPHeaders_FindHeaderValue h headers.requestId with
      | none => simp
      | some rid =>
        rw [hrid] at he
        simp only at he ⊢
        by_cases hr : rid = "" ∨ rid ∉ c.m_activeRequestIds
        · rw [if_pos hr] at he
          simp at he
        · rw [if_neg hr] at he ⊢
          cases hpath : HTTPHeaders_FindHeaderValue h KEYWORD_PATH with
          | none =>
            rw [hpath] at he
            simp at he
          | some pathStr =>
            rw [hpath] at he
            simp only at he ⊢
            split_ifs at he ⊢
            all_goals
              rw [dispatch_error lib _ _ _ _ _ c e hcb he]
              simp [Call.isInvoke]

/-- Counterexample to C25 as stated: on the connected sample connection, a
`speech.phrase` whose body is not JSON makes `OnTransportData` end with the
parse error of the JSON library, and a `speech.hypothesis` whose body is the
empty JSON object (no `Offset`) makes it end with the type error of the
conversion of a null to a number. -/
theorem C25_exception_escapes :
    (OnTransportData sampleLib (some (sampleJsonHeaders "R1" "speech.phrase")) [255] 1 0
        sampleTurnOpen).error = some .json_parse_error ∧
    (OnTransportData sampleLib (some (sampleJsonHeaders "R1" "speech.hypothesis")) [123, 125] 2 0
        sampleTurnOpen).error = some .json_type_error := by
  decide

/-- Claim C25, amended: `OnTransportData` has no handler of its own. When an
exception leaves it (on a connection that has its callback set while
connected), it has delivered no callback and has left the connection state as
it was; and one iteration of the worker loop in which the transport runs this
`OnTransportData` catches the exception: the iteration ends normally, with
one `OnError(false, RuntimeError, what)` delivered after the calls that
`OnTransportData` made, and with `m_haveWork` reset. -/
theorem C25_exception_caught_by_worker (lib : Lib) (responseHeader : Option HttpHeaders)
    (buffer : Buffer) (size errorCode : Nat) (c : Impl) (e : Exception)
    (what : Exception → String)
    (hc : c.m_connected = true) (hcb : c.m_callbacks = true)
    (he : (OnTransportData lib responseHeader buffer size errorCode c).error = some e)
    (hdef : ∀ s, e ≠ .undefined s) :
    (OnTransportData lib responseHeader buffer size errorCode c).state = c ∧
    (∀ call ∈ (OnTransportData lib responseHeader buffer size errorCode c).calls,
      call.isInvoke = false) ∧
    WorkThread_iteration (OnTransportData lib responseHeader buffer size errorCode) what c
      = ⟨{ c with m_haveWork := false },
          (OnTransportData lib responseHeader buffer size errorCode c).calls
            ++ [.Invoke (.OnError false .RuntimeError (what e))],
          none⟩ := by
  obtain ⟨hst, hcalls⟩ :=
    OnTransportData_error lib responseHeader buffer size errorCode c e (fun _ => hcb) he
  refine ⟨hst, hcalls, ?_⟩
  unfold WorkThread_iteration
  simp only [hc, Bool.not_true, Bool.false_eq_true, if_false, he, hst]
  cases e with
  | undefined s => exact absurd rfl (hdef s)
  | _ => simp [Invoke, hc, hcb]

/-- Witness of C25: the `speech.phrase` with a body that is not JSON, on the
connected sample connection. -/
theorem C25_exception_caught_by_worker_witness :
    WorkThread_iteration
        (OnTransportData sampleLib (some (sampleJsonHeaders "R1" "speech.phrase")) [255] 1 0)
        sampleWhat sampleTurnOpen
      = ⟨{ sampleTurnOpen with m_haveWork := false },
          (OnTransportData sampleLib (some (sampleJsonHeaders "R1" "speech.phrase")) [255] 1 0
            sampleTurnOpen).calls
            ++ [.Invoke (.OnError false .RuntimeError (sampleWhat .json_parse_error))],
          none⟩ :=
  (C25_exception_caught_by_worker sampleLib (some (sampleJsonHeaders "R1" "speech.phrase"))
    [255] 1 0 sampleTurnOpen .json_parse_error sampleWhat (by decide) (by decide) (by decide)
    (by intro s; exact Exception.noConfusion)).2.2

/-! ## Messages with an unknown status -/

theorem ToRecognitionStatus_unknown (s : String)
    (hs : s ∉ ["Success", "NoMatch", "InitialSilenceTimeout", "BabbleTimeout", "Error",
      "EndOfDictation", "TooManyRequests", "BadRequest", "Forbidden", "ServiceUnavailable"]) :
    ToRecognitionStatus s = .InvalidMessage := by
  simp only [List.mem_cons, List.mem_singleton, List.not_mem_nil, or_false, not_or] at hs
  obtain ⟨h1, h2, h3, h4, h5, h6, h7, h8, h9, h10⟩ := hs
  simp [ToRecognitionStatus, h1, h2, h3, h4, h5, h6, h7, h8, h9, h10]

theorem onSpeechPhrase_unknown (lib : Lib) (members : List (String × Json))
    (offsetObj durationObj : Json) (offset duration : Nat) (s : String)
    (hoffset : Json.lookup json_properties.offset members = some offsetObj)
    (hoffsetv : offsetObj.get_uint64 = .ok offset)
    (hduration : Json.lookup json_properties.duration members = some durationObj)
    (hdurationv : durationObj.get_uint64 = .ok duration)
    (hstatus : Json.lookup json_properties.recoStatus members = some (.string s))
    (hs : ToRecognitionStatus s = .InvalidMessage) :
    onSpeechPhrase lib (.object members)
      = .ok [.OnError false .ServiceError
          ("Invalid response. Response text:" ++ lib.dump (.object members))] := by
  simp [onSpeechPhrase, Json.index, Json.get_string, hstatus, hoffset, hoffsetv, hduration,
    hdurationv, hs, InvokeRecognitionErrorCallback, bind, Except.bind, pure, Except.pure]

theorem onTranslationPhrase_unknown (lib : Lib) (members : List (String × Json))
    (speech : SpeechHypothesisMsg) (s : String)
    (hstatus : Json.lookup json_properties.recoStatus members = some (.string s))
    (hs : ToRecognitionStatus s = .InvalidMessage)
    (hspeech : RetrieveSpeechResult lib (.object members) = .ok speech) :
    onTranslationPhrase lib (.object members)
      = .ok (.OnError false .ServiceError
            ("Invalid response. Response text:" ++ lib.dump (.object members))
          :: (if lib.defaultTranslationStatus = .Success then
              [.OnTranslationPhrase speech.json speech.offset speech.duration speech.text
                ⟨lib.defaultTranslationStatus, "", []⟩ .InvalidMessage]
            else [])) := by
  unfold onTranslationPhrase
  by_cases hd : lib.defaultTranslationStatus = .Success <;>
    simp [Json.at_, hstatus, Json.get_string, hs, hspeech, hd, InvokeRecognitionErrorCallback,
      bind, Except.bind, pure, Except.pure]

theorem onTranslationSynthesisEnd_not_success (members : List (String × Json))
    (status failure : Option String)
    (hstatus : Json.lookup json_properties.synthesisStatus members = status.map Json.string)
    (hfailure : Json.lookup json_properties.translationFailureReason members
      = failure.map Json.string)
    (hns : status ≠ some "Success") :
    ∃ message, onTranslationSynthesisEnd (.object members)
      = .ok [.OnError false .ServiceError message] := by
  cases status with
  | none =>
    refine ⟨"No synthesis status in synthesis.end message." ++ failure.getD "", ?_⟩
    cases failure <;>
      simp_all [onTranslationSynthesisEnd, Json.find, Json.get_string, bind, Except.bind,
        pure, Except.pure]
  | some s =>
    have h1 : s ≠ "Success" := fun e => hns (by rw [e])
    by_cases h2 : s = "Error"
    · refine ⟨failure.getD "", ?_⟩
      cases failure <;>
        simp_all [onTranslationSynthesisEnd, Json.find, Json.get_string, ToSynthesisStatus,
          bind, Except.bind, pure, Except.pure]
    · refine ⟨"Invalid synthesis status in synthesis.end message." ++ failure.getD "", ?_⟩
      cases failure <;>
        simp_all [onTranslationSynthesisEnd, Json.find, Json.get_string, ToSynthesisStatus,
          bind, Except.bind, pure, Except.pure]

/-- Counterexample to C26 as stated: on the connected sample connection, a
`speech.phrase` whose `RecognitionStatus` is the string `Bogus` is delivered
to the user as `OnError(false, ServiceError, "Invalid response. Response
text:" ++ body)`. -/
theorem C26_unknown_status_reported :
    OnTransportData (sampleLibFor (.object sampleUnknownStatusMembers))
        (some (sampleJsonHeaders "R1" "speech.phrase")) [1] 1 0 sampleTurnOpen
      = ⟨sampleTurnOpen, [.metrics_received_message "R1" "speech.phrase",
          .Invoke (.OnError false .ServiceError "Invalid response. Response text:json")],
        none⟩ := by
  decide

/-- Claim C26, amended: for an inbound message on a connected connection
with its callback set, whose headers carry the request id `rid`. When `rid`
is empty or not active, no callback is delivered. When `rid` is active, the
path is present and the body has a content type and parses to a JSON object:
a `speech.phrase` with numbers `Offset` and `Duration` whose
`RecognitionStatus` is a string outside the ten known ones delivers exactly
one callback, `OnError(false, ServiceError, "Invalid response. Response
text:" ++ body)`; a `translation.phrase` of that kind (with `Text` a string or
absent) delivers that `OnError` first, followed by an `OnTranslationPhrase`
only if a default-constructed translation result has the status Success; and
a `translation.synthesis.end` whose `SynthesisStatus` is absent or a string
other than `Success` (with `FailureReason` a string or absent) delivers
exactly one callback, an `OnError(false, ServiceError, ...)`. -/
theorem C26_protocol_violation_outcomes (lib : Lib) (h : HttpHeaders) (buffer : Buffer)
    (size : Nat) (c : Impl) (rid : String) (hc : c.m_connected = true)
    (hcb : c.m_callbacks = true)
    (hrid : HTTPHeaders_FindHeaderValue h headers.requestId = some rid) :
    ((rid = "" ∨ rid ∉ c.m_activeRequestIds) →
      OnTransportData lib (some h) buffer size 0 c = ⟨c, [], none⟩) ∧
    (∀ (members : List (String × Json)) (offsetObj durationObj : Json) (offset duration : Nat)
        (s : String),
      rid ≠ "" → rid ∈ c.m_activeRequestIds → size ≠ 0 →
      HTTPHeaders_FindHeaderValue h headers.contentType ≠ none →
      lib.parse (buffer.take size) = some (.object members) →
      Json.lookup json_properties.offset members = some offsetObj →
      offsetObj.get_uint64 = .ok offset →
      Json.lookup json_properties.duration members = some durationObj →
      durationObj.get_uint64 = .ok duration →
      Json.lookup json_properties.recoStatus members = some (.string s) →
      s ∉ ["Success", "NoMatch", "InitialSilenceTimeout", "BabbleTimeout", "Error",
        "EndOfDictation", "TooManyRequests", "BadRequest", "Forbidden", "ServiceUnavailable"] →
      (HTTPHeaders_FindHeaderValue h KEYWORD_PATH = some path.speechPhrase →
        OnTransportData lib (some h) buffer size 0 c
          = ⟨c, [.metrics_received_message rid path.speechPhrase,
              .Invoke (.OnError false .ServiceError
                ("Invalid response. Response text:" ++ lib.dump (.object members)))],
            none⟩) ∧
      (∀ text : Option String,
        HTTPHeaders_FindHeaderValue h KEYWORD_PATH = some path.translationPhrase →
        Json.lookup json_properties.text members = text.map Json.string →
        OnTransportData lib (some h) buffer size 0 c
          = ⟨c, .metrics_received_message rid path.translationPhrase
              :: .Invoke (.OnError false .ServiceError
                ("Invalid response. Response text:" ++ lib.dump (.object members)))
              :: (if lib.defaultTranslationStatus = .Success then
                  [.Invoke (.OnTranslationPhrase (lib.dump (.object members)) offset duration
                    (text.getD "") ⟨lib.defaultTranslationStatus, "", []⟩ .InvalidMessage)]
                else []),
            none⟩)) ∧
    (∀ (members : List (String × Json)) (status failure : Option String),
      rid ≠ "" → rid ∈ c.m_activeRequestIds → size ≠ 0 →
      HTTPHeaders_FindHeaderValue h headers.contentType ≠ none →
      lib.parse (buffer.take size) = some (.object members) →
      HTTPHeaders_FindHeaderValue h KEYWORD_PATH = some path.translationSynthesisEnd →
      Json.lookup json_properties.synthesisStatus members = status.map Json.string →
      Json.lookup json_properties.translationFailureReason members = failure.map Json.string →
      status ≠ some "Success" →
      ∃ message, OnTransportData lib (some h) buffer size 0 c
        = ⟨c, [.metrics_received_message rid path.translationSynthesisEnd,
            .Invoke (.OnError false .ServiceError message)], none⟩) := by
  refine ⟨?_, ?_, ?_⟩
  · intro hunknown
    unfold OnTransportData
    simp only [ne_eq, not_true_eq_false, if_false, hrid]
    rw [if_pos hunknown]
  · intro members offsetObj durationObj offset duration s hne hact hsize hct hparse hoffset
      hoffsetv hduration hdurationv hstatus hs
    have hinv := ToRecognitionStatus_unknown s hs
    have hbody : (if size > 0 then lib.parse (buffer.take size) else some Json.null)
        = some (.object members) := by simp [Nat.pos_of_ne_zero hsize, hparse]
    refine ⟨?_, ?_⟩
    · intro hpath
      rw [OnTransportData_accepted lib h buffer size c rid _ hrid hne hact hpath (fun _ => hct),
        dispatch_speechPhrase lib rid _ buffer size c (.object members) hsize hparse,
        onSpeechPhrase_unknown lib members offsetObj durationObj offset duration s hoffset
          hoffsetv hduration hdurationv hstatus hinv,
        deliver_ok c _ _ hc hcb]
      rfl
    · intro text hpath htext
      have hspeech := RetrieveSpeechResult_ok lib members offsetObj durationObj offset duration
        text hoffset hoffsetv hduration hdurationv htext
      rw [OnTransportData_accepted lib h buffer size c rid _ hrid hne hact hpath (fun _ => hct),
        dispatch_translationPhrase lib rid _ buffer size c (.object members) hbody,
        onTranslationPhrase_unknown lib members _ s hstatus hinv hspeech,
        deliver_ok c _ _ hc hcb]
      by_cases hd : lib.defaultTranslationStatus = .Success <;> simp [hd]
  · intro members status failure hne hact hsize hct hparse hpath hstatus hfailure hns
    obtain ⟨message, hm⟩ :=
      onTranslationSynthesisEnd_not_success members status failure hstatus hfailure hns
    refine ⟨message, ?_⟩
    rw [OnTransportData_accepted lib h buffer size c rid _ hrid hne hact hpath (fun _ => hct),
      dispatch_translationSynthesisEnd lib rid _ buffer size c (.object members)
        (by simp [Nat.pos_of_ne_zero hsize, hparse]),
      hm, deliver_ok c _ _ hc hcb]
    rfl

/-- Witness of C26: the `speech.phrase` with the recognition status `Bogus`
on the connected sample connection. -/
theorem C26_protocol_violation_outcomes_witness :
    OnTransportData (sampleLibFor (.object sampleUnknownStatusMembers))
        (some (sampleJsonHeaders "R1" "speech.phrase")) [1] 1 0 sampleTurnOpen
      = ⟨sampleTurnOpen, [.metrics_received_message "R1" path.speechPhrase,
          .Invoke (.OnError false .ServiceError
            ("Invalid response. Response text:"
              ++ (sampleLibFor (.object sampleUnknownStatusMembers)).dump
                (.object sampleUnknownStatusMembers)))],
        none⟩ :=
  ((C26_protocol_violation_outcomes (sampleLibFor (.object sampleUnknownStatusMembers))
    (sampleJsonHeaders "R1" "speech.phrase") [1] 1 sampleTurnOpen "R1" (by decide) (by decide)
    (by decide)).2.1 sampleUnknownStatusMembers (.number_integer 0) (.number_integer 100) 0 100
    "Bogus" (by decide) (by decide) (by decide) (by decide) rfl rfl rfl rfl rfl rfl
    (by decide)).1 (by decide)

/-! ## Every handled message surfaces a callback -/

theorem onSpeechDetected_nonempty (lib : Lib) (pathStr : String) (json : Json)
    (cbs : List Callback) (h : onSpeechDetected lib pathStr json = .ok cbs) : cbs ≠ [] := by
  unfold onSpeechDetected at h
  simp only [bind, Except.bind, pure, Except.pure] at h
  repeat' split at h
  all_goals first
    | (cases h; done)
    | (cases h; simp)

theorem onTurnStart_nonempty (lib : Lib) (json : Json)
    (cbs : List Callback) (h : onTurnStart lib json = .ok cbs) : cbs ≠ [] := by
  unfold onTurnStart at h
  simp only [bind, Except.bind, pure, Except.pure] at h
  repeat' split at h
  all_goals first
    | (cases h; done)
    | (cases h; simp)

theorem onSpeechHypothesis_nonempty (lib : Lib) (pathStr : String) (json : Json)
    (cbs : List Callback) (h : onSpeechHypothesis lib pathStr json = .ok cbs) : cbs ≠ [] := by
  unfold onSpeechHypothesis at h
  simp only [bind, Except.bind, pure, Except.pure] at h
  repeat' split at h
  all_goals first
    | (cases h; done)
    | (cases h; simp)

theorem onSpeechPhrase_nonempty (lib : Lib) (json : Json)
    (cbs : List Callback) (h : onSpeechPhrase lib json = .ok cbs) : cbs ≠ [] := by
  unfold onSpeechPhrase at h
  simp only [bind, Except.bind, pure, Except.pure] at h
  repeat' split at h
  all_goals first
    | (cases h; done)
    | (cases h; simp)

theorem onTranslationHypothesis_nonempty (lib : Lib) (json : Json)
    (cbs : List Callback) (h : onTranslationHypothesis lib json = .ok cbs) : cbs ≠ [] := by
  unfold onTranslationHypothesis at h
  simp only [bind, Except.bind, pure, Except.pure] at h
  repeat' split at h
  all_goals first
    | (cases h; done)
    | (cases h; simp)

theorem onTranslationSynthesisEnd_nonempty (json : Json)
    (cbs : List Callback) (h : onTranslationSynthesisEnd json = .ok cbs) : cbs ≠ [] := by
  unfold onTranslationSynthesisEnd at h
  simp only [bind, Except.bind, pure, Except.pure] at h
  repeat' split at h
  all_goals first
    | (cases h; done)
    | (cases h; simp)

theorem ToRecognitionStatus_eq_success (s : String) (h : ToRecognitionStatus s = .Success) :
    s = "Success" := by
  unfold ToRecognitionStatus at h
  by_contra hs
  rw [if_neg hs] at h
  repeat' split at h
  all_goals cases h

theorem RetrieveTranslationResult_undefined (lib : Lib) (members : List (String × Json))
    (expectStatus : Bool) (r : TranslationResult)
    (hr : RetrieveTranslationResult lib (.object members) expectStatus = .ok r) :
    ∃ tr, Json.lookup json_properties.translation members = some tr := by
  cases htr : Json.lookup json_properties.translation members with
  | some tr => exact ⟨tr, rfl⟩
  | none =>
    unfold RetrieveTranslationResult at hr
    simp [htr, bind, Except.bind, throw, throwThe, MonadExceptOf.throw] at hr

theorem RetrieveTranslationResult_status (lib : Lib) (members : List (String × Json))
    (tr : Json) (r : TranslationResult)
    (htr : Json.lookup json_properties.translation members = some tr)
    (hs : tr.find json_properties.translationStatus = some (.string "Success"))
    (hr : RetrieveTranslationResult lib (.object members) true = .ok r) :
    r.translationStatus = .Success := by
  unfold RetrieveTranslationResult at hr
  simp only [htr, hs, Json.get_string, ToTranslationStatus, bind, Except.bind, pure, Except.pure,
    if_true] at hr
  repeat' split at hr
  all_goals first
    | (cases hr; done)
    | (cases hr; rfl)

theorem onTranslationPhrase_empty (lib : Lib) (json : Json)
    (h : onTranslationPhrase lib json = .ok []) :
    ∃ members tr, json = .object members ∧
      Json.lookup json_properties.recoStatus members = some (.string "Success") ∧
      Json.lookup json_properties.translation members = some tr ∧
      tr.find json_properties.translationStatus ≠ some (.string "Success") := by
  cases json
  case object members =>
    cases hl : Json.lookup json_properties.recoStatus members with
    | none => simp [onTranslationPhrase, Json.at_, hl, bind, Except.bind] at h
    | some v =>
      cases v
      case string s =>
        cases hsp : RetrieveSpeechResult lib (.object members) with
        | error e =>
          simp [onTranslationPhrase, Json.at_, hl, Json.get_string, hsp, bind, Except.bind] at h
        | ok speech =>
          by_cases hs : s = "Success"
          · subst hs
            rw [onTranslationPhrase_success lib members speech hl hsp] at h
            cases hr : RetrieveTranslationResult lib (.object members) true with
            | error e => simp [hr] at h
            | ok r =>
              obtain ⟨tr, htr⟩ := RetrieveTranslationResult_undefined lib members true r hr
              refine ⟨members, tr, rfl, hl, htr, ?_⟩
              intro hfs
              have hst := RetrieveTranslationResult_status lib members tr r htr hfs hr
              simp [hr, hst] at h
          · exfalso
            have hns : ToRecognitionStatus s ≠ .Success :=
              fun e => hs (ToRecognitionStatus_eq_success s e)
            unfold onTranslationPhrase at h
            simp only [Json.at_, hl, Json.get_string, hsp, bind, Except.bind, pure,
              Except.pure] at h
            cases hst : ToRecognitionStatus s <;> rw [hst] at h <;> simp at h
            · exact hns hst
            all_goals
              split_ifs at h <;> simp at h
      all_goals simp [onTranslationPhrase, Json.at_, hl, Json.get_string, bind, Except.bind] at h
  all_goals simp [onTranslationPhrase, Json.at_, bind, Except.bind] at h

theorem deliver_surfaces (c : Impl) (calls : List Call) (r : Except Exception (List Callback))
    (hc : c.m_connected = true) (hcb : c.m_callbacks = true)
    (hok : (deliver c calls r).error = none) (hne : ∀ cbs, r = .ok cbs → cbs ≠ []) :
    ∃ cb, Call.Invoke cb ∈ (deliver c calls r).calls := by
  cases r with
  | error e => simp [deliver] at hok
  | ok cbs =>
    rw [deliver_ok c _ _ hc hcb]
    cases cbs with
    | nil => exact absurd rfl (hne [] rfl)
    | cons x xs => exact ⟨x, by simp⟩

theorem endTurn_callbacks (requestId : String) (c : Impl) :
    (endTurn requestId c).m_callbacks = c.m_callbacks := by
  unfold endTurn
  split_ifs <;> rfl

/-- Counterexample to C27 as stated: on the connected sample connection, a
`translation.phrase` with `Offset`, `Duration`, the recognition status
`Success` and `Translation.TranslationStatus` `Error` passes the header
preconditions, has every field the path reads, and is handled without any
callback: only the metrics call is made. -/
theorem C27_failed_translation_silent :
    OnTransportData (sampleLibFor (.object sampleFailedTranslationMembers))
        (some (sampleJsonHeaders "R1" "translation.phrase")) [1] 1 0 sampleTurnOpen
      = ⟨sampleTurnOpen, [.metrics_received_message "R1" "translation.phrase"], none⟩ := by
  decide

/-- Claim C27, amended: for every inbound message on a connected connection
with its callback set that passes the header preconditions (error code 0,
active `X-RequestId`, `Path` present, `Content-Type` present when the size is
not 0) and that `OnTransportData` handles without an exception, at least one
user callback is delivered, except for a `translation.phrase` whose body is a
JSON object with the recognition status `Success` and a `Translation` member
whose `TranslationStatus` is not the string `Success`. -/
theorem C27_callback_unless_failed_translation (lib : Lib) (h : HttpHeaders) (buffer : Buffer)
    (size : Nat) (c : Impl) (rid pathStr : String)
    (hc : c.m_connected = true) (hcb : c.m_callbacks = true)
    (hrid : HTTPHeaders_FindHeaderValue h headers.requestId = some rid)
    (hne : rid ≠ "") (hact : rid ∈ c.m_activeRequestIds)
    (hpath : HTTPHeaders_FindHeaderValue h KEYWORD_PATH = some pathStr)
    (hct : size ≠ 0 → HTTPHeaders_FindHeaderValue h headers.contentType ≠ none)
    (hok : (OnTransportData lib (some h) buffer size 0 c).error = none) :
    (∃ cb, Call.Invoke cb ∈ (OnTransportData lib (some h) buffer size 0 c).calls) ∨
    (pathStr = path.translationPhrase ∧ size ≠ 0 ∧
      ∃ members tr, lib.parse (buffer.take size) = some (.object members) ∧
        Json.lookup json_properties.recoStatus members = some (.string "Success") ∧
        Json.lookup json_properties.translation members = some tr ∧
        tr.find json_properties.translationStatus ≠ some (.string "Success")) := by
  rw [OnTransportData_accepted lib h buffer size c rid pathStr hrid hne hact hpath hct] at hok ⊢
  generalize (if size ≠ 0 then HTTPHeaders_FindHeaderValue h headers.contentType else none)
    = contentType at hok ⊢
  unfold dispatch at hok ⊢
  simp only at hok ⊢
  by_cases ha : pathStr = path.translationSynthesis
  · rw [if_pos ha] at hok ⊢
    exact Or.inl (deliver_surfaces c _ _ hc hcb hok (by intro cbs e; cases e; simp))
  rw [if_neg ha] at hok ⊢
  cases hp : (if size > 0 then lib.parse (buffer.take size) else some Json.null) with
  | none =>
    rw [hp] at hok
    simp at hok
  | some json =>
    rw [hp] at hok
    simp only at hok ⊢
    by_cases h1 : pathStr = path.speechStartDetected ∨ pathStr = path.speechEndDetected
    · rw [if_pos h1] at hok ⊢
      exact Or.inl (deliver_surfaces c _ _ hc hcb hok (onSpeechDetected_nonempty lib _ json))
    rw [if_neg h1] at hok ⊢
    by_cases h2 : pathStr = path.turnStart
    · rw [if_pos h2] at hok ⊢
      exact Or.inl (deliver_surfaces c _ _ hc hcb hok (onTurnStart_nonempty lib json))
    rw [if_neg h2] at hok ⊢
    by_cases h3 : pathStr = path.turnEnd
    · rw [if_pos h3] at hok ⊢
      have hc2 : (endTurn rid c).m_connected = true := by rw [endTurn_connected]; exact hc
      have hcb2 : (endTurn rid c).m_callbacks = true := by rw [endTurn_callbacks]; exact hcb
      exact Or.inl (deliver_surfaces _ _ _ hc2 hcb2 hok (by intro cbs e; cases e; simp))
    rw [if_neg h3] at hok ⊢
    by_cases h4 : pathStr = path.speechHypothesis ∨ pathStr = path.speechFragment
    · rw [if_pos h4] at hok ⊢
      exact Or.inl (deliver_surfaces c _ _ hc hcb hok (onSpeechHypothesis_nonempty lib _ json))
    rw [if_neg h4] at hok ⊢
    by_cases h5 : pathStr = path.speechPhrase
    · rw [if_pos h5] at hok ⊢
      exact Or.inl (deliver_surfaces c _ _ hc hcb hok (onSpeechPhrase_nonempty lib json))
    rw [if_neg h5] at hok ⊢
    by_cases h6 : pathStr = path.translationHypothesis
    · rw [if_pos h6] at hok ⊢
      exact Or.inl (deliver_surfaces c _ _ hc hcb hok
        (onTranslationHypothesis_nonempty lib json))
    rw [if_neg h6] at hok ⊢
    by_cases h7 : pathStr = path.translationPhrase
    · rw [if_pos h7] at hok ⊢
      by_cases hempty : onTranslationPhrase lib json = .ok []
      · obtain ⟨members, tr, hj, hst, htr, hts⟩ := onTranslationPhrase_empty lib json hempty
        subst hj
        have hsz : size ≠ 0 := by
          intro h0
          simp [h0] at hp
        refine Or.inr ⟨h7, hsz, members, tr, ?_, hst, htr, hts⟩
        simpa [Nat.pos_of_ne_zero hsz] using hp
      · exact Or.inl (deliver_surfaces c _ _ hc hcb hok
          (by intro cbs e he; exact hempty (by rw [e, he])))
    rw [if_neg h7] at hok ⊢
    by_cases h8 : pathStr = path.translationSynthesisEnd
    · rw [if_pos h8] at hok ⊢
      exact Or.inl (deliver_surfaces c _ _ hc hcb hok (onTranslationSynthesisEnd_nonempty json))
    rw [if_neg h8] at hok ⊢
    exact Or.inl (deliver_surfaces c _ _ hc hcb hok (by intro cbs e; cases e; simp))

/-- Witness of C27: the `speech.phrase` with the display text `hello` on the
connected sample connection. -/
theorem C27_callback_unless_failed_translation_witness :
    (∃ cb, Call.Invoke cb ∈ (OnTransportData (sampleLibFor sampleSimplePhrase)
        (some (sampleJsonHeaders "R1" "speech.phrase")) [1] 1 0 sampleTurnOpen).calls) ∨
    ("speech.phrase" = path.translationPhrase ∧ 1 ≠ 0 ∧
      ∃ members tr, (sampleLibFor sampleSimplePhrase).parse (List.take 1 [1])
          = some (.object members) ∧
        Json.lookup json_properties.recoStatus members = some (.string "Success") ∧
        Json.lookup json_properties.translation members = some tr ∧
        tr.find json_properties.translationStatus ≠ some (.string "Success")) :=
  C27_callback_unless_failed_translation (sampleLibFor sampleSimplePhrase)
    (sampleJsonHeaders "R1" "speech.phrase") [1] 1 sampleTurnOpen "R1" "speech.phrase"
    (by decide) (by decide) (by decide) (by decide) (by decide) (by decide)
    (fun _ => by decide) (by decide)

/-! ## Lemmas on the URL builder -/

theorem contains_append (a b n : String) (h : contains a n = true) :
    contains (a ++ b) n = true := by
  simp only [contains, decide_eq_true_eq] at h ⊢
  obtain ⟨s, t, e⟩ := h
  exact ⟨s, t ++ b.data, by simp [← e]⟩

theorem contains_mid (a n b : String) : contains (a ++ n ++ b) n = true := by
  simp only [contains, decide_eq_true_eq]
  exact ⟨a.data, b.data, by simp⟩

theorem contains_guard (ce : Bool) (x y n : String) (hy : contains y n = true) :
    contains (if (!ce || !contains x n) = true then y else x) n = true := by
  by_cases hg : (!ce || !contains x n) = true
  · rw [if_pos hg]
    exact hy
  · rw [if_neg hg]
    simp only [Bool.or_eq_true, Bool.not_eq_true', not_or, Bool.not_eq_false] at hg
    exact hg.2

theorem contains_ite {c : Prop} [Decidable c] (a b n : String)
    (ha : contains a n = true) (hb : contains b n = true) :
    contains (if c then a else b) n = true := by
  split_ifs
  · exact ha
  · exact hb

theorem String_join_nil : String.join [] = "" := rfl

theorem String_join_append (l1 l2 : List String) :
    String.join (l1 ++ l2) = String.join l1 ++ String.join l2 := by
  induction l1 with
  | nil => simp [String_join_nil]
  | cons a l ih =>
    rw [List.cons_append, String_join_cons, String_join_cons, ih, String.append_assoc]

theorem ParamsAppended_refl (k : EndpointConstants) (enc : String → String) (cfg : Client)
    (oss : String) : ParamsAppended k enc cfg oss oss :=
  ⟨[], by simp [String_join_nil], by simp⟩

theorem ParamsAppended_trans (k : EndpointConstants) (enc : String → String) (cfg : Client)
    (a b c : String) (h1 : ParamsAppended k enc cfg a b) (h2 : ParamsAppended k enc cfg b c) :
    ParamsAppended k enc cfg a c := by
  obtain ⟨l1, e1, g1⟩ := h1
  obtain ⟨l2, e2, g2⟩ := h2
  refine ⟨l1 ++ l2, ?_, ?_⟩
  · rw [e2, e1, String_join_append, String.append_assoc]
  · intro p hp
    rcases List.mem_append.1 hp with hp | hp
    · exact g1 p hp
    · exact g2 p hp

theorem ParamsAppended_snoc (k : EndpointConstants) (enc : String → String) (cfg : Client)
    (oss u name value : String) (h : ParamsAppended k enc cfg oss u)
    (hp : IsParam k enc cfg ("&" ++ name ++ value)) :
    ParamsAppended k enc cfg oss (u ++ "&" ++ name ++ value) := by
  refine ParamsAppended_trans k enc cfg oss u _ h ⟨["&" ++ name ++ value], ?_, ?_⟩
  · simp [String_join_cons, String_join_nil, String.append_assoc]
  · intro p hp2
    rw [List.mem_singleton.1 hp2]
    exact hp

theorem ParamsAppended_ite {c : Prop} [Decidable c] (k : EndpointConstants)
    (enc : String → String) (cfg : Client) (oss a b : String)
    (ha : ParamsAppended k enc cfg oss a) (hb : ParamsAppended k enc cfg oss b) :
    ParamsAppended k enc cfg oss (if c then a else b) := by
  split_ifs
  · exact ha
  · exact hb

theorem ParamsAppended_extends (k : EndpointConstants) (enc : String → String) (cfg : Client)
    (oss u : String) (h : ParamsAppended k enc cfg oss u) : ∃ t, u = oss ++ t := by
  obtain ⟨l, e, -⟩ := h
  exact ⟨_, e⟩

theorem targets_fuel (t : String) : (t.data.drop 0).count ',' < t.length + 1 := by
  have := List.count_le_length ',' (List.drop 0 t.data)
  simp only [List.drop_zero] at this ⊢
  exact Nat.lt_succ_of_le this

theorem ParamsAppended_targets (k : EndpointConstants) (enc : String → String) (cfg : Client)
    (t oss u : String) (h : ParamsAppended k enc cfg oss u) :
    ParamsAppended k enc cfg oss
      (appendTargets enc t (t.length + 1) 0 (find_first_of t ',' 0) u) := by
  obtain ⟨pieces, -, -, -, hrun⟩ := appendTargets_pieces enc t (t.length + 1) 0 u (targets_fuel t)
  refine ParamsAppended_trans k enc cfg oss u _ h
    ⟨pieces.map fun p => "&to=" ++ enc p, hrun, ?_⟩
  intro p hp
  obtain ⟨q, -, rfl⟩ := List.mem_map.1 hp
  refine ⟨endpoint.translation.to_, enc q, ?_, by simp, Or.inr (Or.inr (Or.inr ⟨q, rfl⟩))⟩
  have : "&to=" = "&" ++ endpoint.translation.to_ := by decide
  rw [this]

theorem contains_targets (enc : String → String) (t u : String) :
    contains (appendTargets enc t (t.length + 1) 0 (find_first_of t ',' 0) u)
      endpoint.translation.to_ = true := by
  obtain ⟨pieces, hlen, -, -, hrun⟩ :=
    appendTargets_pieces enc t (t.length + 1) 0 u (targets_fuel t)
  rw [hrun]
  cases pieces with
  | nil => simp at hlen
  | cons p ps =>
    have : "&to=" = "&" ++ endpoint.translation.to_ := by decide
    rw [List.map_cons, String_join_cons, this]
    have e : u ++ ("&" ++ endpoint.translation.to_ ++ enc p
          ++ String.join (List.map (fun p => "&" ++ endpoint.translation.to_ ++ enc p) ps))
        = (u ++ "&") ++ endpoint.translation.to_
          ++ (enc p ++ String.join (List.map (fun p => "&" ++ endpoint.translation.to_ ++ enc p)
            ps)) := by
      simp only [String.append_assoc]
    rw [e]
    exact contains_mid _ _ _

theorem contains_targets_mono (enc : String → String) (t u n : String)
    (h : contains u n = true) :
    contains (appendTargets enc t (t.length + 1) 0 (find_first_of t ',' 0) u) n = true := by
  obtain ⟨pieces, -, -, -, hrun⟩ := appendTargets_pieces enc t (t.length + 1) 0 u (targets_fuel t)
  rw [hrun]
  exact contains_append _ _ _ h

theorem appendFormat_contains (cfg : Client) (ce : Bool) (oss : String) :
    contains (appendFormat cfg ce oss) endpoint.unifiedspeech.outputFormatQueryParam = true := by
  unfold appendFormat
  simp only
  exact contains_guard ce oss _ _ (contains_mid _ _ _)

theorem appendFormat_shape (cfg : Client) (ce : Bool) (oss : String) :
    appendFormat cfg ce oss = oss ∨
    ((∃ v ∈ g_outFormatStrings, appendFormat cfg ce oss
        = oss ++ "?" ++ endpoint.unifiedspeech.outputFormatQueryParam ++ v) ∧
      (ce = false ∨ '?' ∉ oss.data)) ∨
    ((∃ v ∈ g_outFormatStrings, appendFormat cfg ce oss
        = oss ++ "&" ++ endpoint.unifiedspeech.outputFormatQueryParam ++ v) ∧
      ce = true ∧ '?' ∈ oss.data) := by
  have hv : g_outFormatStrings.getD cfg.m_outputFormat.toNat "" ∈ g_outFormatStrings := by
    cases cfg.m_outputFormat <;> decide
  unfold appendFormat
  simp only
  by_cases hg : (!ce || !contains oss endpoint.unifiedspeech.outputFormatQueryParam) = true
  · rw [if_pos hg]
    by_cases hd : (ce && containsChar oss '?') = true
    · rw [if_pos hd]
      simp only [Bool.and_eq_true, containsChar, decide_eq_true_eq] at hd
      exact Or.inr (Or.inr ⟨⟨_, hv, rfl⟩, hd.1, hd.2⟩)
    · rw [if_neg hd]
      refine Or.inr (Or.inl ⟨⟨_, hv, rfl⟩, ?_⟩)
      simp only [Bool.and_eq_true, containsChar, decide_eq_true_eq, not_and] at hd
      cases ce with
      | false => exact Or.inl rfl
      | true => exact Or.inr (hd rfl)
  · rw [if_neg hg]
    exact Or.inl rfl

theorem appendFormat_extends (cfg : Client) (ce : Bool) (oss : String) :
    ∃ t, appendFormat cfg ce oss = oss ++ t := by
  rcases appendFormat_shape cfg ce oss with h | ⟨⟨v, -, h⟩, -⟩ | ⟨⟨v, -, h⟩, -⟩
  · exact ⟨"", by simp [h]⟩
  · exact ⟨"?" ++ endpoint.unifiedspeech.outputFormatQueryParam ++ v, by
      rw [h]; simp only [String.append_assoc]⟩
  · exact ⟨"&" ++ endpoint.unifiedspeech.outputFormatQueryParam ++ v, by
      rw [h]; simp only [String.append_assoc]⟩

theorem appendParams_appended (k : EndpointConstants) (enc : String → String) (cfg : Client)
    (ce : Bool) (oss : String) :
    ParamsAppended k enc cfg oss (appendParams k enc cfg ce oss) := by
  have hdep : IsParam k enc cfg ("&" ++ k.unifiedspeech_deploymentIdQueryParam ++ cfg.m_modelId) :=
    ⟨_, _, rfl, by simp, Or.inl rfl⟩
  have hlang : IsParam k enc cfg
      ("&" ++ endpoint.unifiedspeech.langQueryParam ++ cfg.m_language) :=
    ⟨_, _, rfl, by simp, Or.inr (Or.inl rfl)⟩
  have hfrom : IsParam k enc cfg
      ("&" ++ endpoint.translation.from_ ++ enc cfg.m_translationSourceLanguage) :=
    ⟨_, _, rfl, by simp, Or.inr (Or.inr (Or.inr ⟨_, rfl⟩))⟩
  have hfeat : IsParam k enc cfg
      ("&" ++ endpoint.translation.features ++ endpoint.translation.requireVoice) :=
    ⟨_, _, rfl, by simp, Or.inr (Or.inr (Or.inl rfl))⟩
  have hvoice : IsParam k enc cfg
      ("&" ++ endpoint.translation.voice ++ enc cfg.m_translationVoice) :=
    ⟨_, _, rfl, by simp, Or.inr (Or.inr (Or.inr ⟨_, rfl⟩))⟩
  unfold appendParams
  cases cfg.m_endpoint <;> simp only
  all_goals
    repeat' first
      | exact ParamsAppended_refl k enc cfg oss
      | apply ParamsAppended_ite
      | apply ParamsAppended_targets
      | (refine ParamsAppended_snoc k enc cfg oss _ _ _ ?_ hdep)
      | (refine ParamsAppended_snoc k enc cfg oss _ _ _ ?_ hlang)
      | (refine ParamsAppended_snoc k enc cfg oss _ _ _ ?_ hfrom)
      | (refine ParamsAppended_snoc k enc cfg oss _ _ _ ?_ hfeat)
      | (refine ParamsAppended_snoc k enc cfg oss _ _ _ ?_ hvoice)

theorem append_ne_empty (a b : String) (h : a ≠ "") : a ++ b ≠ "" := by
  intro e
  apply h
  have hd : (a ++ b).data = [] := by rw [e]
  simp only [String.data_append, List.append_eq_nil] at hd
  exact String.ext hd.1

theorem urlBase_ne_empty (k : EndpointConstants) (cfg : Client) (base : String)
    (h : urlBase k cfg = .ok base) : base ≠ "" := by
  have hp : ∀ rest : String, endpoint.protocol ++ rest ≠ "" :=
    fun rest => append_ne_empty _ rest (by decide)
  unfold urlBase at h
  simp only at h
  by_cases hc : cfg.m_customEndpointUrl ≠ ""
  · rw [if_pos hc] at h
    cases h
    exact hc
  · rw [if_neg hc] at h
    cases hk : cfg.m_endpoint <;> rw [hk] at h <;> simp only at h
    all_goals first
      | (cases h; exact hp _)
      | cases h

theorem appendParams_contains_mono (k : EndpointConstants) (enc : String → String)
    (cfg : Client) (ce : Bool) (oss n : String) (h : contains oss n = true) :
    contains (appendParams k enc cfg ce oss) n = true := by
  obtain ⟨t, e⟩ := ParamsAppended_extends k enc cfg oss _ (appendParams_appended k enc cfg ce oss)
  rw [e]
  exact contains_append _ _ _ h

theorem appendParams_fixed (k : EndpointConstants) (enc : String → String) (cfg : Client)
    (ce : Bool) (oss : String) :
    appendParams k enc cfg true (appendParams k enc cfg ce oss)
      = appendParams k enc cfg ce oss := by
  cases hkind : cfg.m_endpoint
  case Speech =>
    by_cases hm : cfg.m_modelId ≠ ""
    · have hc : contains (appendParams k enc cfg ce oss) k.unifiedspeech_deploymentIdQueryParam
          = true := by
        simp only [appendParams, hkind, if_pos hm]
        exact contains_guard ce oss _ _ (contains_mid _ _ _)
      generalize appendParams k enc cfg ce oss = r at hc ⊢
      simp [appendParams, hkind, hm, hc]
    · by_cases hl : cfg.m_language ≠ ""
      · have hc : contains (appendParams k enc cfg ce oss) endpoint.unifiedspeech.langQueryParam
            = true := by
          simp only [appendParams, hkind, if_neg hm, if_pos hl]
          exact contains_guard ce oss _ _ (contains_mid _ _ _)
        generalize appendParams k enc cfg ce oss = r at hc ⊢
        simp only [appendParams, hkind, if_neg hm, if_pos hl, hc]
        simp
      · generalize appendParams k enc cfg ce oss = r
        simp only [appendParams, hkind, if_neg hm, if_neg hl]
  case Intent =>
    by_cases hl : cfg.m_language ≠ ""
    · have hc : contains (appendParams k enc cfg ce oss) endpoint.unifiedspeech.langQueryParam
          = true := by
        simp only [appendParams, hkind, if_pos hl]
        exact contains_guard ce oss _ _ (contains_mid _ _ _)
      generalize appendParams k enc cfg ce oss = r at hc ⊢
      simp only [appendParams, hkind, if_pos hl, hc]
      simp
    · generalize appendParams k enc cfg ce oss = r
      simp only [appendParams, hkind, if_neg hl]
  case Translation =>
    have hfrom : contains (appendParams k enc cfg ce oss) endpoint.translation.from_ = true := by
      simp only [appendParams, hkind]
      repeat' first
        | exact contains_guard ce oss _ _ (contains_mid _ _ _)
        | apply contains_ite
        | apply contains_targets_mono
        | apply contains_append
    have hto : contains (appendParams k enc cfg ce oss) endpoint.translation.to_ = true := by
      simp only [appendParams, hkind]
      repeat' first
        | exact contains_guard ce _ _ _ (contains_targets _ _ _)
        | apply contains_ite
        | apply contains_append
    have hvoice : cfg.m_translationVoice ≠ "" →
        contains (appendParams k enc cfg ce oss) endpoint.translation.voice = true := by
      intro hv
      simp only [appendParams, hkind, if_pos hv]
      exact contains_guard ce _ _ _ (contains_mid _ _ _)
    generalize appendParams k enc cfg ce oss = r at hfrom hto hvoice ⊢
    by_cases hv : cfg.m_translationVoice ≠ ""
    · simp only [appendParams, hkind, if_pos hv]
      simp [hfrom, hto, hvoice hv]
    · simp only [appendParams, hkind, if_neg hv]
      simp [hfrom, hto]
  case CDSDK => simp only [appendParams, hkind]
  case CustomEndpoint => simp only [appendParams, hkind]

/-- Claim C29: the URL builder is idempotent. When it succeeds on a
configuration with the result `u`, it returns exactly `u` on the
configuration that differs only in having `u` as its custom endpoint URL: the
format parameter and every parameter of the endpoint kind are already in `u`
and are suppressed. The builder reads nothing but the configuration, so any
configuration equal to this one gives the same result. -/
theorem C29_url_builder_idempotent (k : EndpointConstants) (enc : String → String)
    (cfg : Client) (u : String) (h : ConstructConnectionUrl k enc cfg = .ok u) :
    ConstructConnectionUrl k enc { cfg with m_customEndpointUrl := u } = .ok u ∧
    ∀ cfg2, cfg2 = cfg → ConstructConnectionUrl k enc cfg2 = .ok u := by
  refine ⟨?_, fun cfg2 e => e ▸ h⟩
  unfold ConstructConnectionUrl at h
  cases hb : urlBase k cfg with
  | error e =>
    rw [hb] at h
    cases h
  | ok base =>
    rw [hb] at h
    simp only [Except.ok.injEq] at h
    have hbase := urlBase_ne_empty k cfg base hb
    obtain ⟨t1, e1⟩ := appendFormat_extends cfg (decide (cfg.m_customEndpointUrl ≠ "")) base
    obtain ⟨t2, e2⟩ := ParamsAppended_extends k enc cfg _ _
      (appendParams_appended k enc cfg (decide (cfg.m_customEndpointUrl ≠ ""))
        (appendFormat cfg (decide (cfg.m_customEndpointUrl ≠ "")) base))
    have hu : u ≠ "" := by
      rw [← h, e2, e1]
      exact append_ne_empty _ _ (append_ne_empty _ _ hbase)
    have hfmt : contains u endpoint.unifiedspeech.outputFormatQueryParam = true := by
      rw [← h]
      exact appendParams_contains_mono k enc cfg _ _ _ (appendFormat_contains cfg _ base)
    have hfix := appendParams_fixed k enc cfg (decide (cfg.m_customEndpointUrl ≠ ""))
      (appendFormat cfg (decide (cfg.m_customEndpointUrl ≠ "")) base)
    rw [h] at hfix
    have hbase2 : urlBase k { cfg with m_customEndpointUrl := u } = .ok u := by
      simp [urlBase, hu]
    have hformat2 : appendFormat { cfg with m_customEndpointUrl := u } true u = u := by
      simp [appendFormat, hfmt]
    have hparams2 : appendParams k enc { cfg with m_customEndpointUrl := u } true u
        = appendParams k enc cfg true u := rfl
    unfold ConstructConnectionUrl
    rw [hbase2]
    simp only [hu, ne_eq, not_false_eq_true, decide_True, hformat2, hparams2, hfix]

/-- Witness of C29: scenario 1 of §8 built twice. -/
theorem C29_url_builder_idempotent_witness :
    ConstructConnectionUrl sampleConstants sampleEncode
        { sampleSpeech with
          m_customEndpointUrl :=
            "wss://westus.stt.speech.microsoft.com/speech/recognition/interactive"
              ++ "/cognitiveservices/v1?format=detailed&language=en-us" }
      = .ok ("wss://westus.stt.speech.microsoft.com/speech/recognition/interactive"
          ++ "/cognitiveservices/v1?format=detailed&language=en-us") ∧
    ∀ cfg2, cfg2 = sampleSpeech → ConstructConnectionUrl sampleConstants sampleEncode cfg2
      = .ok ("wss://westus.stt.speech.microsoft.com/speech/recognition/interactive"
          ++ "/cognitiveservices/v1?format=detailed&language=en-us") :=
  C29_url_builder_idempotent sampleConstants sampleEncode sampleSpeech
    ("wss://westus.stt.speech.microsoft.com/speech/recognition/interactive"
      ++ "/cognitiveservices/v1?format=detailed&language=en-us") (by decide)

/-- Counterexample to C30 as stated: scenario 2 of §8 has the endpoint kind
Intent and the region `westus`, which is also its intent region; the URL
contains the region string although the kind is neither Speech nor
Translation. -/
theorem C30_intent_url_contains_region :
    sampleIntent.m_customEndpointUrl = "" ∧ sampleIntent.m_endpoint = .Intent ∧
    sampleIntent.m_region = "westus" ∧
    ConstructConnectionUrl sampleConstants sampleEncode sampleIntent
      = .ok ("wss://speech.platform.bing.com/speech/westus/recognition/interactive"
          ++ "/cognitiveservices/v1?format=simple&language=en-us") ∧
    contains ("wss://speech.platform.bing.com/speech/westus/recognition/interactive"
      ++ "/cognitiveservices/v1?format=simple&language=en-us") sampleIntent.m_region = true := by
  decide

/-- Claim C30, amended: for every configuration with an empty custom endpoint
URL and an endpoint kind other than CustomEndpoint, the builder succeeds and
the URL begins with the protocol prefix `wss://`. For the kinds Speech and
Translation the configured region follows the prefix at once, so the URL
contains it. For the kinds Intent and CDSDK the builder does not read the
region: the URL is the same for every region. -/
theorem C30_protocol_and_region (k : EndpointConstants) (enc : String → String) (cfg : Client)
    (hcustom : cfg.m_customEndpointUrl = "") (hkind : cfg.m_endpoint ≠ .CustomEndpoint) :
    (∃ rest, ConstructConnectionUrl k enc cfg = .ok (endpoint.protocol ++ rest)) ∧
    ((cfg.m_endpoint = .Speech ∨ cfg.m_endpoint = .Translation) →
      ∃ rest, ConstructConnectionUrl k enc cfg
          = .ok (endpoint.protocol ++ cfg.m_region ++ rest) ∧
        contains (endpoint.protocol ++ cfg.m_region ++ rest) cfg.m_region = true) ∧
    ((cfg.m_endpoint = .Intent ∨ cfg.m_endpoint = .CDSDK) →
      ∀ region, ConstructConnectionUrl k enc { cfg with m_region := region }
        = ConstructConnectionUrl k enc cfg) := by
  have hbuild : ∀ base, urlBase k cfg = .ok base →
      ∃ t, ConstructConnectionUrl k enc cfg = .ok (base ++ t) := by
    intro base hb
    obtain ⟨t1, e1⟩ := appendFormat_extends cfg (decide (cfg.m_customEndpointUrl ≠ "")) base
    obtain ⟨t2, e2⟩ := ParamsAppended_extends k enc cfg _ _
      (appendParams_appended k enc cfg (decide (cfg.m_customEndpointUrl ≠ ""))
        (appendFormat cfg (decide (cfg.m_customEndpointUrl ≠ "")) base))
    refine ⟨t1 ++ t2, ?_⟩
    unfold ConstructConnectionUrl
    rw [hb]
    simp only
    rw [e2, e1, String.append_assoc]
  have hregion : (cfg.m_endpoint = .Speech ∨ cfg.m_endpoint = .Translation) →
      ∃ rest, ConstructConnectionUrl k enc cfg
        = .ok (endpoint.protocol ++ cfg.m_region ++ rest) := by
    intro hk
    rcases hk with hk | hk
    all_goals
      obtain ⟨t, ht⟩ := hbuild _ (by simp [urlBase, hcustom, hk]; rfl)
      simp only [String.append_assoc] at ht
      refine ⟨?_, ?_⟩
      rotate_left
      · rw [String.append_assoc]
        exact ht
  refine ⟨?_, ?_, ?_⟩
  · cases hk : cfg.m_endpoint
    case CustomEndpoint => exact absurd hk hkind
    all_goals
      obtain ⟨t, ht⟩ := hbuild _ (by simp [urlBase, hcustom, hk]; rfl)
      simp only [String.append_assoc] at ht
      exact ⟨_, ht⟩
  · intro hk
    obtain ⟨rest, hr⟩ := hregion hk
    exact ⟨rest, hr, contains_mid _ _ _⟩
  · intro hk region
    rcases hk with hk | hk <;>
      simp [ConstructConnectionUrl, urlBase, appendFormat, appendParams, hcustom, hk]

/-- Witness of C30: scenario 1 of §8, of kind Speech. -/
theorem C30_protocol_and_region_witness :
    ∃ rest, ConstructConnectionUrl sampleConstants sampleEncode sampleSpeech
        = .ok (endpoint.protocol ++ sampleSpeech.m_region ++ rest) ∧
      contains (endpoint.protocol ++ sampleSpeech.m_region ++ rest) sampleSpeech.m_region
        = true :=
  (C30_protocol_and_region sampleConstants sampleEncode sampleSpeech (by decide)
    (by decide)).2.1 (Or.inl rfl)

/-! ## Question marks in the URL -/

theorem noq_append (a b : String) (ha : '?' ∉ a.data) (hb : '?' ∉ b.data) :
    '?' ∉ (a ++ b).data := by
  simp [String.data_append, ha, hb]

theorem noq_join (l : List String) (h : ∀ p ∈ l, '?' ∉ p.data) :
    '?' ∉ (String.join l).data := by
  induction l with
  | nil => simp [String_join_nil]
  | cons a l ih =>
    rw [String_join_cons]
    exact noq_append _ _ (h a (List.mem_cons_self _ _))
      (ih fun p hp => h p (List.mem_cons_of_mem _ hp))

theorem count_append_noq (a b : String) (hb : '?' ∉ b.data) :
    (a ++ b).data.count '?' = a.data.count '?' := by
  simp [String.data_append, List.count_append, List.count_eq_zero_of_not_mem hb]

/-- Counterexample to C28 as stated: the builder copies the custom endpoint
URL and the language as they are. A custom endpoint URL with two question
marks gives a URL with two question marks, and scenario 1 of §8 with the
language `a?b` gives a URL with two question marks. -/
theorem C28_two_question_marks :
    (ConstructConnectionUrl sampleConstants sampleEncode
        { sampleSpeech with m_customEndpointUrl := "wss://example.com/a?b=1?c=2" }
      = .ok "wss://example.com/a?b=1?c=2&format=detailed&language=en-us" ∧
    "wss://example.com/a?b=1?c=2&format=detailed&language=en-us".data.count '?' = 2) ∧
    (ConstructConnectionUrl sampleConstants sampleEncode { sampleSpeech with m_language := "a?b" }
      = .ok ("wss://westus.stt.speech.microsoft.com/speech/recognition/interactive"
          ++ "/cognitiveservices/v1?format=detailed&language=a?b") ∧
    ("wss://westus.stt.speech.microsoft.com/speech/recognition/interactive"
      ++ "/cognitiveservices/v1?format=detailed&language=a?b").data.count '?' = 2) := by
  decide

theorem count_ite {c : Prop} [Decidable c] (a b : String) (n : Nat)
    (ha : a.data.count '?' = n) (hb : b.data.count '?' = n) :
    (if c then a else b).data.count '?' = n := by
  split_ifs
  · exact ha
  · exact hb

theorem count_snoc (u t : String) (n : Nat) (hu : u.data.count '?' = n)
    (ht : '?' ∉ t.data) : (u ++ t).data.count '?' = n := by
  rw [count_append_noq _ _ ht]
  exact hu

theorem count_targets (enc : String → String) (t u : String) (n : Nat)
    (henc : ∀ s, '?' ∉ (enc s).data) (hu : u.data.count '?' = n) :
    (appendTargets enc t (t.length + 1) 0 (find_first_of t ',' 0) u).data.count '?' = n := by
  obtain ⟨pieces, -, -, -, hrun⟩ := appendTargets_pieces enc t (t.length + 1) 0 u (targets_fuel t)
  rw [hrun]
  refine count_snoc _ _ _ hu (noq_join _ ?_)
  intro p hp
  obtain ⟨q, -, rfl⟩ := List.mem_map.1 hp
  exact noq_append _ _ (by decide) (henc q)

theorem urlBase_copied_noq (k : EndpointConstants) (cfg : Client) (base : String)
    (hcustom : cfg.m_customEndpointUrl = "")
    (hvals : ∀ s ∈ copiedStrings k cfg, '?' ∉ s.data)
    (h : urlBase k cfg = .ok base) : '?' ∉ base.data := by
  have hmode : ∀ m : RecognitionMode, '?' ∉ (g_recoModeStrings.getD m.toNat "").data := by
    intro m
    cases m <;> decide
  have hprot : '?' ∉ endpoint.protocol.data := by decide
  unfold urlBase at h
  simp only [hcustom, ne_eq, not_true_eq_false, if_false] at h
  cases hk : cfg.m_endpoint <;> rw [hk] at h <;> simp only at h
  case Speech =>
    cases h
    have h1 := hvals cfg.m_region (by simp [copiedStrings, hcustom, hk])
    exact noq_append _ _ (noq_append _ _ (noq_append _ _ (noq_append _ _
      (noq_append _ _ hprot h1) (by decide)) (by decide)) (hmode _)) (by decide)
  case Translation =>
    cases h
    have h1 := hvals cfg.m_region (by simp [copiedStrings, hcustom, hk])
    have h3 := hvals k.translation_hostnameSuffix (by simp [copiedStrings, hcustom, hk])
    have h4 := hvals k.translation_path (by simp [copiedStrings, hcustom, hk])
    exact noq_append _ _ (noq_append _ _ (noq_append _ _ hprot h1) h3) h4
  case Intent =>
    cases h
    have h2 := hvals cfg.m_intentRegion (by simp [copiedStrings, hcustom, hk])
    have h5 := hvals k.luis_hostname (by simp [copiedStrings, hcustom, hk])
    have h6 := hvals k.luis_pathPrefix1 (by simp [copiedStrings, hcustom, hk])
    have h7 := hvals k.luis_pathPrefix2 (by simp [copiedStrings, hcustom, hk])
    have h8 := hvals k.luis_pathSuffix (by simp [copiedStrings, hcustom, hk])
    exact noq_append _ _ (noq_append _ _ (noq_append _ _ (noq_append _ _ (noq_append _ _
      (noq_append _ _ hprot h5) h6) h2) h7) (hmode _)) h8
  case CDSDK =>
    cases h
    have h9 := hvals k.CDSDK_url (by simp [copiedStrings, hcustom, hk])
    exact noq_append _ _ hprot h9
  case CustomEndpoint => cases h

theorem appendParams_count (k : EndpointConstants) (enc : String → String) (cfg : Client)
    (ce : Bool) (oss : String)
    (hvals : ∀ s ∈ copiedStrings k cfg, '?' ∉ s.data)
    (henc : cfg.m_endpoint = .Translation → ∀ s, '?' ∉ (enc s).data) :
    (appendParams k enc cfg ce oss).data.count '?' = oss.data.count '?' := by
  have hamp : '?' ∉ "&".data := by decide
  cases hk : cfg.m_endpoint
  case Speech =>
    by_cases hm : cfg.m_modelId ≠ ""
    · have h1 := hvals k.unifiedspeech_deploymentIdQueryParam (by simp [copiedStrings, hk, hm])
      have h2 := hvals cfg.m_modelId (by simp [copiedStrings, hk, hm])
      simp only [appendParams, hk, if_pos hm]
      exact count_ite _ _ _ (count_snoc _ _ _ (count_snoc _ _ _ (count_snoc _ _ _ rfl hamp) h1) h2)
        rfl
    · have h3 := hvals cfg.m_language (by simp [copiedStrings, hk, hm])
      simp only [appendParams, hk, if_neg hm]
      exact count_ite _ _ _
        (count_ite _ _ _
          (count_snoc _ _ _ (count_snoc _ _ _ (count_snoc _ _ _ rfl hamp) (by decide)) h3) rfl)
        rfl
  case Intent =>
    have h3 := hvals cfg.m_language (by simp [copiedStrings, hk])
    simp only [appendParams, hk]
    exact count_ite _ _ _
      (count_ite _ _ _
        (count_snoc _ _ _ (count_snoc _ _ _ (count_snoc _ _ _ rfl hamp) (by decide)) h3) rfl)
      rfl
  case Translation =>
    have he := henc hk
    simp only [appendParams, hk]
    repeat' first
      | exact rfl
      | apply count_ite
      | apply count_targets _ _ _ _ he
      | exact count_snoc _ _ _ (by assumption) (he _)
      | (refine count_snoc _ _ _ ?_ (he _))
      | (refine count_snoc _ _ _ ?_ (by decide))
  case CDSDK => simp only [appendParams, hk]
  case CustomEndpoint => simp only [appendParams, hk]

/-- Claim C28, amended: when the builder succeeds with the URL `u`, then `u`
is the base (the custom endpoint URL, or the protocol, host and path of the
endpoint kind), followed by at most one format parameter, followed by
parameters that are each introduced by `&`. The format parameter is
introduced by `?` when there is no custom endpoint URL or the custom endpoint
URL has no `?`, and by `&` when the custom endpoint URL has a `?`. If the
custom endpoint URL, when there is one, has at most one `?`, the strings that
the builder copies unencoded for this configuration (`copiedStrings`) have
none, and, for the kind Translation, the results of the encoder have none,
then `u` has at most one `?`. -/
theorem C28_query_string_shape (k : EndpointConstants) (enc : String → String) (cfg : Client)
    (u : String) (h : ConstructConnectionUrl k enc cfg = .ok u) :
    ∃ base withFormat, urlBase k cfg = .ok base ∧
      (withFormat = base ∨
        ((∃ v ∈ g_outFormatStrings,
            withFormat = base ++ "?" ++ endpoint.unifiedspeech.outputFormatQueryParam ++ v) ∧
          (cfg.m_customEndpointUrl = "" ∨ '?' ∉ base.data)) ∨
        ((∃ v ∈ g_outFormatStrings,
            withFormat = base ++ "&" ++ endpoint.unifiedspeech.outputFormatQueryParam ++ v) ∧
          cfg.m_customEndpointUrl ≠ "" ∧ '?' ∈ base.data)) ∧
      ParamsAppended k enc cfg withFormat u ∧
      ((cfg.m_customEndpointUrl ≠ "" → cfg.m_customEndpointUrl.data.count '?' ≤ 1) →
        (∀ s ∈ copiedStrings k cfg, '?' ∉ s.data) →
        (cfg.m_endpoint = .Translation → ∀ s, '?' ∉ (enc s).data) →
        u.data.count '?' ≤ 1) := by
  unfold ConstructConnectionUrl at h
  cases hb : urlBase k cfg with
  | error e =>
    rw [hb] at h
    cases h
  | ok base =>
    rw [hb] at h
    simp only [Except.ok.injEq] at h
    have happ := appendParams_appended k enc cfg (decide (cfg.m_customEndpointUrl ≠ ""))
      (appendFormat cfg (decide (cfg.m_customEndpointUrl ≠ "")) base)
    rw [h] at happ
    have hshape : appendFormat cfg (decide (cfg.m_customEndpointUrl ≠ "")) base = base ∨
        ((∃ v ∈ g_outFormatStrings,
            appendFormat cfg (decide (cfg.m_customEndpointUrl ≠ "")) base
              = base ++ "?" ++ endpoint.unifiedspeech.outputFormatQueryParam ++ v) ∧
          (cfg.m_customEndpointUrl = "" ∨ '?' ∉ base.data)) ∨
        ((∃ v ∈ g_outFormatStrings,
            appendFormat cfg (decide (cfg.m_customEndpointUrl ≠ "")) base
              = base ++ "&" ++ endpoint.unifiedspeech.outputFormatQueryParam ++ v) ∧
          cfg.m_customEndpointUrl ≠ "" ∧ '?' ∈ base.data) := by
      rcases appendFormat_shape cfg (decide (cfg.m_customEndpointUrl ≠ "")) base
        with h1 | ⟨h2, hq⟩ | ⟨h3, hce, hq⟩
      · exact Or.inl h1
      · refine Or.inr (Or.inl ⟨h2, ?_⟩)
        rcases hq with hq | hq
        · exact Or.inl (by simpa using hq)
        · exact Or.inr hq
      · exact Or.inr (Or.inr ⟨h3, by simpa using hce, hq⟩)
    refine ⟨base, _, rfl, hshape, happ, ?_⟩
    intro hq hvals henc
    rw [← h, appendParams_count k enc cfg _ _ hvals henc]
    have hbase1 : base.data.count '?' ≤ 1 := by
      by_cases hc : cfg.m_customEndpointUrl = ""
      · rw [List.count_eq_zero_of_not_mem (urlBase_copied_noq k cfg base hc hvals hb)]
        exact Nat.zero_le _
      · have : base = cfg.m_customEndpointUrl := by
          simp [urlBase, hc] at hb
          exact hb.symm
        rw [this]
        exact hq hc
    have hfmt : ∀ v ∈ g_outFormatStrings, '?' ∉ v.data := by decide
    rcases hshape with h1 | ⟨⟨v, hv, h2⟩, hq2⟩ | ⟨⟨v, hv, h3⟩, -, -⟩
    · rw [h1]
      exact hbase1
    · have hb0 : '?' ∉ base.data := by
        rcases hq2 with hc | hq2
        · exact urlBase_copied_noq k cfg base hc hvals hb
        · exact hq2
      rw [h2, count_append_noq _ _ (hfmt v hv), count_append_noq _ _ (by decide)]
      simp [String.data_append, List.count_append, List.count_eq_zero_of_not_mem hb0]
    · rw [h3, count_append_noq _ _ (hfmt v hv), count_append_noq _ _ (by decide),
        count_append_noq _ _ (by decide)]
      exact hbase1

/-- Witness of C28: scenario 1 of §8 with the sample constants and the sample
encoder: the region and the language have no question mark, and the URL has
one. -/
theorem C28_query_string_shape_witness :
    ("wss://westus.stt.speech.microsoft.com/speech/recognition/interactive"
      ++ "/cognitiveservices/v1?format=detailed&language=en-us").data.count '?' ≤ 1 :=
  Exists.elim
    (C28_query_string_shape sampleConstants sampleEncode sampleSpeech
      ("wss://westus.stt.speech.microsoft.com/speech/recognition/interactive"
        ++ "/cognitiveservices/v1?format=detailed&language=en-us") (by decide))
    fun _ h1 => Exists.elim h1 fun _ h2 =>
      h2.2.2.2 (by decide) (by decide) (fun hk => absurd hk (by decide))

/-! ## The URL of each endpoint kind -/

/-- Counterexample to C31 as stated: for the sample configuration of kind
CDSDK the builder returns the protocol, the CDSDK URL constant and then the
format parameter, not the constant alone. -/
theorem C31_cdsdk_url_has_format :
    sampleCDSDK.m_customEndpointUrl = "" ∧ sampleCDSDK.m_endpoint = .CDSDK ∧
    ConstructConnectionUrl sampleConstants sampleEncode sampleCDSDK
      = .ok ("wss://" ++ sampleConstants.CDSDK_url ++ "?format=detailed") ∧
    ConstructConnectionUrl sampleConstants sampleEncode sampleCDSDK
      ≠ .ok ("wss://" ++ sampleConstants.CDSDK_url) ∧
    ConstructConnectionUrl sampleConstants sampleEncode sampleCDSDK
      ≠ .ok sampleConstants.CDSDK_url := by
  decide

/-- Claim C31, amended: for every configuration with an empty custom endpoint
URL and endpoint kind CDSDK the builder returns the protocol prefix, the fixed
CDSDK URL constant and the format parameter `?format=simple` or
`?format=detailed`, and nothing else: the URL is the same for all such
configurations with the same output format, whatever their language, model
id, region and recognition mode. -/
theorem C31_cdsdk_url (k : EndpointConstants) (enc : String → String) (cfg : Client)
    (hcustom : cfg.m_customEndpointUrl = "") (hkind : cfg.m_endpoint = .CDSDK) :
    ConstructConnectionUrl k enc cfg
      = .ok ("wss://" ++ k.CDSDK_url ++ "?format="
          ++ (match cfg.m_outputFormat with
              | .Simple => "simple"
              | .Detailed => "detailed")) ∧
    ∀ cfg2 : Client, cfg2.m_customEndpointUrl = "" → cfg2.m_endpoint = .CDSDK →
      cfg2.m_outputFormat = cfg.m_outputFormat →
      ConstructConnectionUrl k enc cfg2 = ConstructConnectionUrl k enc cfg := by
  have e2 : ∀ a b : String, a ++ "?format=" ++ b = a ++ "?" ++ "format=" ++ b := by
    intro a b
    rw [String.append_assoc a "?" "format="]
    rfl
  have key : ∀ c : Client, c.m_customEndpointUrl = "" → c.m_endpoint = .CDSDK →
      ConstructConnectionUrl k enc c
        = .ok ("wss://" ++ k.CDSDK_url ++ "?format="
            ++ (match c.m_outputFormat with
                | .Simple => "simple"
                | .Detailed => "detailed")) := by
    intro c hc hk
    rw [e2]
    cases hf : c.m_outputFormat <;>
      simp [ConstructConnectionUrl, urlBase, appendFormat, appendParams, hc, hk, hf,
        OutputFormat.toNat, g_outFormatStrings, endpoint.protocol,
        endpoint.unifiedspeech.outputFormatQueryParam]
  refine ⟨key cfg hcustom hkind, ?_⟩
  intro cfg2 hc2 hk2 hf2
  rw [key cfg2 hc2 hk2, key cfg hcustom hkind, hf2]

/-- Witness of C31: the sample configuration of kind CDSDK. -/
theorem C31_cdsdk_url_witness :
    ConstructConnectionUrl sampleConstants sampleEncode sampleCDSDK
      = .ok ("wss://" ++ sampleConstants.CDSDK_url ++ "?format="
          ++ (match sampleCDSDK.m_outputFormat with
              | .Simple => "simple"
              | .Detailed => "detailed")) :=
  (C31_cdsdk_url sampleConstants sampleEncode sampleCDSDK (by decide) (by decide)).1

/-- Claim C32: for a configuration of kind Speech, with a model id the URL is
the same whatever the language is, with or without a custom endpoint URL; and
without a model id, with a language and without a custom endpoint URL, the URL
is the base, the format parameter and then `&language=` and the language, with
no deployment-id parameter. -/
theorem C32_speech_parameter_precedence (k : EndpointConstants) (enc : String → String)
    (cfg : Client) (hkind : cfg.m_endpoint = .Speech) :
    (cfg.m_modelId ≠ "" →
      ∀ language, ConstructConnectionUrl k enc { cfg with m_language := language }
        = ConstructConnectionUrl k enc cfg) ∧
    (cfg.m_modelId = "" → cfg.m_language ≠ "" → cfg.m_customEndpointUrl = "" →
      ∃ base, urlBase k cfg = .ok base ∧
        ConstructConnectionUrl k enc cfg
          = .ok (base ++ "?format="
              ++ (match cfg.m_outputFormat with
                  | .Simple => "simple"
                  | .Detailed => "detailed")
              ++ "&language=" ++ cfg.m_language)) := by
  have e2 : ∀ a b : String, a ++ "?format=" ++ b = a ++ "?" ++ "format=" ++ b := by
    intro a b
    rw [String.append_assoc a "?" "format="]
    rfl
  have e3 : ∀ a b : String, a ++ "&language=" ++ b = a ++ "&" ++ "language=" ++ b := by
    intro a b
    rw [String.append_assoc a "&" "language="]
    rfl
  refine ⟨?_, ?_⟩
  · intro hm language
    simp [ConstructConnectionUrl, urlBase, appendFormat, appendParams, hkind, hm]
  · intro hm hl hc
    refine ⟨endpoint.protocol ++ cfg.m_region ++ endpoint.unifiedspeech.hostnameSuffix
      ++ endpoint.unifiedspeech.pathPrefix ++ g_recoModeStrings.getD cfg.m_recoMode.toNat ""
      ++ endpoint.unifiedspeech.pathSuffix, by simp [urlBase, hc, hkind], ?_⟩
    rw [e2, e3]
    cases hf : cfg.m_outputFormat <;>
      simp [ConstructConnectionUrl, urlBase, appendFormat, appendParams, hc, hkind, hm, hl, hf,
        OutputFormat.toNat, g_outFormatStrings, endpoint.unifiedspeech.outputFormatQueryParam,
        endpoint.unifiedspeech.langQueryParam]

/-- Witness of C32: the sample configuration with the model id `m1` and a
custom endpoint URL that already has the deployment-id parameter: the URL is
the same with the language `de-de`. -/
theorem C32_speech_parameter_precedence_witness :
    ConstructConnectionUrl sampleConstants sampleEncode { sampleCustom with m_language := "de-de" }
      = ConstructConnectionUrl sampleConstants sampleEncode sampleCustom :=
  (C32_speech_parameter_precedence sampleConstants sampleEncode sampleCustom (by decide)).1
    (by decide) "de-de"

theorem appendFormat_custom (cfg : Client) (oss : String) :
    appendFormat cfg true oss
      = if contains oss "format=" = true then oss
        else if '?' ∈ oss.data then
          oss ++ "&format="
            ++ (match cfg.m_outputFormat with
                | .Simple => "simple"
                | .Detailed => "detailed")
        else
          oss ++ "?format="
            ++ (match cfg.m_outputFormat with
                | .Simple => "simple"
                | .Detailed => "detailed") := by
  have e1 : ∀ a b : String, a ++ "&format=" ++ b = a ++ "&" ++ "format=" ++ b := by
    intro a b
    rw [String.append_assoc a "&" "format="]
    rfl
  have e2 : ∀ a b : String, a ++ "?format=" ++ b = a ++ "?" ++ "format=" ++ b := by
    intro a b
    rw [String.append_assoc a "?" "format="]
    rfl
  rw [e1, e2]
  by_cases hc : contains oss "format=" = true
  · simp [appendFormat, hc, endpoint.unifiedspeech.outputFormatQueryParam]
  · by_cases hq : '?' ∈ oss.data <;> cases hf : cfg.m_outputFormat <;>
      simp [appendFormat, hc, hq, hf, containsChar, OutputFormat.toNat, g_outFormatStrings,
        endpoint.unifiedspeech.outputFormatQueryParam]

theorem appendFormat_plain (cfg : Client) (oss : String) :
    appendFormat cfg false oss
      = oss ++ "?format="
          ++ (match cfg.m_outputFormat with
              | .Simple => "simple"
              | .Detailed => "detailed") := by
  have e2 : ∀ a b : String, a ++ "?format=" ++ b = a ++ "?" ++ "format=" ++ b := by
    intro a b
    rw [String.append_assoc a "?" "format="]
    rfl
  rw [e2]
  cases hf : cfg.m_outputFormat <;>
    simp [appendFormat, hf, OutputFormat.toNat, g_outFormatStrings,
      endpoint.unifiedspeech.outputFormatQueryParam]

/-- Claim C33: with a non-empty custom endpoint URL `U` the builder succeeds,
and its result is `U`, then the format parameter unless `U` contains
`format=`, introduced by `&` if `U` contains a `?` and by `?` if it does not,
then the parameters of the endpoint kind; with an empty custom endpoint URL
the result is the base, then `?format=` and the output format, then the
parameters of the endpoint kind. -/
theorem C33_format_parameter (k : EndpointConstants) (enc : String → String) (cfg : Client) :
    (cfg.m_customEndpointUrl ≠ "" →
      ∃ u, ConstructConnectionUrl k enc cfg = .ok u ∧
        (contains cfg.m_customEndpointUrl "format=" = true →
          ParamsAppended k enc cfg cfg.m_customEndpointUrl u) ∧
        (contains cfg.m_customEndpointUrl "format=" = false →
          '?' ∈ cfg.m_customEndpointUrl.data →
          ParamsAppended k enc cfg
            (cfg.m_customEndpointUrl ++ "&format="
              ++ (match cfg.m_outputFormat with
                  | .Simple => "simple"
                  | .Detailed => "detailed")) u) ∧
        (contains cfg.m_customEndpointUrl "format=" = false →
          '?' ∉ cfg.m_customEndpointUrl.data →
          ParamsAppended k enc cfg
            (cfg.m_customEndpointUrl ++ "?format="
              ++ (match cfg.m_outputFormat with
                  | .Simple => "simple"
                  | .Detailed => "detailed")) u)) ∧
    (cfg.m_customEndpointUrl = "" →
      ∀ base, urlBase k cfg = .ok base →
        ∃ u, ConstructConnectionUrl k enc cfg = .ok u ∧
          ParamsAppended k enc cfg
            (base ++ "?format="
              ++ (match cfg.m_outputFormat with
                  | .Simple => "simple"
                  | .Detailed => "detailed")) u) := by
  refine ⟨?_, ?_⟩
  · intro hc
    have hb : urlBase k cfg = .ok cfg.m_customEndpointUrl := by simp [urlBase, hc]
    have hu : ConstructConnectionUrl k enc cfg
        = .ok (appendParams k enc cfg true (appendFormat cfg true cfg.m_customEndpointUrl)) := by
      simp [ConstructConnectionUrl, hb, hc]
    have happ := appendParams_appended k enc cfg true (appendFormat cfg true cfg.m_customEndpointUrl)
    generalize appendParams k enc cfg true (appendFormat cfg true cfg.m_customEndpointUrl) = r
      at hu happ
    refine ⟨r, hu, ?_, ?_, ?_⟩
    · intro h1
      rw [appendFormat_custom, if_pos h1] at happ
      exact happ
    · intro h1 h2
      rw [appendFormat_custom, if_neg (by simp [h1]), if_pos h2] at happ
      exact happ
    · intro h1 h2
      rw [appendFormat_custom, if_neg (by simp [h1]), if_neg h2] at happ
      exact happ
  · intro hc base hb
    have hu : ConstructConnectionUrl k enc cfg
        = .ok (appendParams k enc cfg false (appendFormat cfg false base)) := by
      simp [ConstructConnectionUrl, hb, hc]
    have happ := appendParams_appended k enc cfg false (appendFormat cfg false base)
    generalize appendParams k enc cfg false (appendFormat cfg false base) = r at hu happ
    rw [appendFormat_plain] at happ
    exact ⟨r, hu, happ⟩

/-- Witness of C33: the sample custom endpoint URL has a `?` and no
`format=`, so the format parameter follows it with `&`. -/
theorem C33_format_parameter_witness :
    ∃ u, ConstructConnectionUrl sampleConstants sampleEncode sampleCustom = .ok u ∧
      (contains sampleCustom.m_customEndpointUrl "format=" = true →
        ParamsAppended sampleConstants sampleEncode sampleCustom
          sampleCustom.m_customEndpointUrl u) ∧
      (contains sampleCustom.m_customEndpointUrl "format=" = false →
        '?' ∈ sampleCustom.m_customEndpointUrl.data →
        ParamsAppended sampleConstants sampleEncode sampleCustom
          (sampleCustom.m_customEndpointUrl ++ "&format="
            ++ (match sampleCustom.m_outputFormat with
                | .Simple => "simple"
                | .Detailed => "detailed")) u) ∧
      (contains sampleCustom.m_customEndpointUrl "format=" = false →
        '?' ∉ sampleCustom.m_customEndpointUrl.data →
        ParamsAppended sampleConstants sampleEncode sampleCustom
          (sampleCustom.m_customEndpointUrl ++ "?format="
            ++ (match sampleCustom.m_outputFormat with
                | .Simple => "simple"
                | .Detailed => "detailed")) u) :=
  (C33_format_parameter sampleConstants sampleEncode sampleCustom).1 (by decide)

/-- Claim C34: the builder fails if and only if the custom endpoint URL is
empty and the endpoint kind is none of Speech, Translation, Intent and CDSDK,
and then with `InvalidArgument`; with a non-empty custom endpoint URL it
returns a URL that begins with the custom endpoint URL, whatever the endpoint
kind is. -/
theorem C34_failure_condition (k : EndpointConstants) (enc : String → String) (cfg : Client) :
    ((∃ e, ConstructConnectionUrl k enc cfg = .error e) ↔
      (cfg.m_customEndpointUrl = "" ∧
        cfg.m_endpoint ∉ [EndpointType.Speech, .Translation, .Intent, .CDSDK])) ∧
    (∀ e, ConstructConnectionUrl k enc cfg = .error e →
      e = .InvalidArgument "Unknown endpoint type.") ∧
    (cfg.m_customEndpointUrl ≠ "" →
      ∃ rest, ConstructConnectionUrl k enc cfg = .ok (cfg.m_customEndpointUrl ++ rest)) := by
  have hbuild : ∀ base, urlBase k cfg = .ok base →
      ∃ t, ConstructConnectionUrl k enc cfg = .ok (base ++ t) := by
    intro base hb
    obtain ⟨t1, e1⟩ := appendFormat_extends cfg (decide (cfg.m_customEndpointUrl ≠ "")) base
    obtain ⟨t2, e2⟩ := ParamsAppended_extends k enc cfg _ _
      (appendParams_appended k enc cfg (decide (cfg.m_customEndpointUrl ≠ ""))
        (appendFormat cfg (decide (cfg.m_customEndpointUrl ≠ "")) base))
    refine ⟨t1 ++ t2, ?_⟩
    unfold ConstructConnectionUrl
    rw [hb]
    simp only
    rw [e2, e1, String.append_assoc]
  have herr : ∀ e, urlBase k cfg = .error e →
      ConstructConnectionUrl k enc cfg = .error e := by
    intro e he
    unfold ConstructConnectionUrl
    rw [he]
  by_cases hc : cfg.m_customEndpointUrl = ""
  · by_cases hk : cfg.m_endpoint = .CustomEndpoint
    · have he := herr (.InvalidArgument "Unknown endpoint type.") (by simp [urlBase, hc, hk])
      refine ⟨⟨fun _ => ⟨hc, by simp [hk]⟩, fun _ => ⟨_, he⟩⟩, ?_, fun h => absurd hc h⟩
      intro e h
      rw [he] at h
      cases h
      rfl
    · have hok : ∃ u, ConstructConnectionUrl k enc cfg = .ok u := by
        cases hk2 : cfg.m_endpoint
        all_goals first
          | exact absurd hk2 hk
          | (obtain ⟨t, ht⟩ := hbuild _ (by simp [urlBase, hc, hk2]; rfl)
             exact ⟨_, ht⟩)
      obtain ⟨u, hu⟩ := hok
      refine ⟨⟨?_, ?_⟩, ?_, fun h => absurd hc h⟩
      · rintro ⟨e, he⟩
        rw [hu] at he
        cases he
      · rintro ⟨-, h⟩
        exfalso
        apply h
        cases hk2 : cfg.m_endpoint <;> simp_all
      · intro e he
        rw [hu] at he
        cases he
  · obtain ⟨t, ht⟩ := hbuild cfg.m_customEndpointUrl (by simp [urlBase, hc])
    refine ⟨⟨?_, fun h => absurd h.1 hc⟩, ?_, fun _ => ⟨t, ht⟩⟩
    · rintro ⟨e, he⟩
      rw [ht] at he
      cases he
    · intro e he
      rw [ht] at he
      cases he

/-- Witness of C34: the sample configuration with a custom endpoint URL. -/
theorem C34_failure_condition_witness :
    ∃ rest, ConstructConnectionUrl sampleConstants sampleEncode sampleCustom
      = .ok (sampleCustom.m_customEndpointUrl ++ rest) :=
  (C34_failure_condition sampleConstants sampleEncode sampleCustom).2.2 (by decide)

/-! ## The headers of the connection request -/

theorem connectionHeaders_ok (env : ConnectEnv) (cfg : Client) (hdrs : HttpHeaders)
    (h : connectionHeaders env cfg = .ok hdrs) :
    cfg.m_authType ≠ .Unknown ∧
    hdrs = (if cfg.m_endpoint = .CDSDK then
        [("X-Output-AudioCodec", "riff-16khz-16bit-mono-pcm"), ("User-Agent", env.g_userAgent)]
      else [])
      ++ [if cfg.m_authType = .SubscriptionKey then
          ("Ocp-Apim-Subscription-Key", cfg.m_authData)
        else if cfg.m_authType = .AuthorizationToken then
          ("Authorization", "Bearer " ++ cfg.m_authData)
        else ("X-Search-DelegationRPSToken", cfg.m_authData)] := by
  unfold connectionHeaders at h
  simp only at h
  cases ha : cfg.m_authType <;> rw [ha] at h <;> simp only at h
  case Unknown => cases h
  all_goals
    split_ifs at h
    all_goals
      simp only [Except.ok.injEq] at h
      subst h
      simp [HTTPHeaders_ReplaceHeaderNameValuePair, headers.audioResponseFormat,
        headers.userAgent, headers.ocpApimSubscriptionKey, headers.authorization,
        headers.searchDelegationRPSToken, *]

theorem Connect_headers (k : EndpointConstants) (enc : String → String) (env : ConnectEnv)
    (c : Impl) (url : String) (hdrs : HttpHeaders) (id : String)
    (h : Call.TransportRequestCreate url hdrs id ∈ (Connect k enc env c).calls) :
    connectionHeaders env c.m_config = .ok hdrs := by
  unfold Connect at h
  cases hh : connectionHeaders env c.m_config with
  | error e =>
    rw [hh] at h
    simp only at h
    split_ifs at h <;> simp at h
  | ok headersPtr =>
    rw [hh] at h
    simp only at h
    cases hu : ConstructConnectionUrl k enc c.m_config with
    | error e =>
      rw [hu] at h
      simp only at h
      split_ifs at h <;> simp at h
    | ok u =>
      rw [hu] at h
      simp only at h
      split_ifs at h <;> simp at h <;> rw [h.2.1]

/-- Claim C35: the header map that `Connect` hands to the transport is, in
this order, `X-Output-AudioCodec: riff-16khz-16bit-mono-pcm` and `User-Agent`
when the endpoint kind is CDSDK and nothing otherwise, followed by the one
authentication header of the authentication kind
(`Ocp-Apim-Subscription-Key: S`, `Authorization: Bearer S` or
`X-Search-DelegationRPSToken: S`), and no other header; with any other
authentication kind `Connect` on a connection that was not connected before
throws `RuntimeError`, makes no call and creates no transport. -/
theorem C35_connection_headers (k : EndpointConstants) (enc : String → String)
    (env : ConnectEnv) (c : Impl) (hS : c.m_config.m_authData ≠ "") :
    (∀ url hdrs id, Call.TransportRequestCreate url hdrs id ∈ (Connect k enc env c).calls →
      c.m_config.m_authData ≠ "" ∧ c.m_config.m_authType ≠ .Unknown ∧
      hdrs = (if c.m_config.m_endpoint = .CDSDK then
          [("X-Output-AudioCodec", "riff-16khz-16bit-mono-pcm"),
            ("User-Agent", env.g_userAgent)]
        else [])
        ++ [if c.m_config.m_authType = .SubscriptionKey then
            ("Ocp-Apim-Subscription-Key", c.m_config.m_authData)
          else if c.m_config.m_authType = .AuthorizationToken then
            ("Authorization", "Bearer " ++ c.m_config.m_authData)
          else ("X-Search-DelegationRPSToken", c.m_config.m_authData)]) ∧
    (c.m_config.m_authType = .Unknown → c.m_transport = false → c.m_connected = false →
      (∃ what, (Connect k enc env c).error = some (.RuntimeError what)) ∧
      (Connect k enc env c).calls = [] ∧
      (Connect k enc env c).state.m_transport = false) := by
  refine ⟨?_, ?_⟩
  · intro url hdrs id hmem
    obtain ⟨h1, h2⟩ := connectionHeaders_ok env c.m_config hdrs
      (Connect_headers k enc env c url hdrs id hmem)
    exact ⟨hS, h1, h2⟩
  · intro ha ht hc
    have hh : connectionHeaders env c.m_config
        = .error (.RuntimeError "Unsupported authentication type") := by
      simp [connectionHeaders, ha]
    unfold Connect
    by_cases hal : env.HTTPHeaders_Alloc = true
    · simp [ht, hc, hal, hh]
    · simp [ht, hc, hal]

/-- Witness of C35: `Connect` on the fresh sample connection of kind CDSDK
with the authorization token `tok`. -/
theorem C35_connection_headers_witness :
    (Connect sampleConstants sampleEncode sampleConnectEnv sampleFreshCDSDK).calls
      = [.metrics_device_startup "c0",
         .TransportRequestCreate
           ("wss://" ++ sampleConstants.CDSDK_url ++ "?format=detailed")
           [("X-Output-AudioCodec", "riff-16khz-16bit-mono-pcm"), ("User-Agent", "agent"),
            ("Authorization", "Bearer tok")] "c0"] ∧
    [("X-Output-AudioCodec", "riff-16khz-16bit-mono-pcm"), ("User-Agent", "agent"),
        ("Authorization", "Bearer tok")]
      = (if sampleFreshCDSDK.m_config.m_endpoint = .CDSDK then
          [("X-Output-AudioCodec", "riff-16khz-16bit-mono-pcm"),
            ("User-Agent", sampleConnectEnv.g_userAgent)]
        else [])
        ++ [if sampleFreshCDSDK.m_config.m_authType = .SubscriptionKey then
            ("Ocp-Apim-Subscription-Key", sampleFreshCDSDK.m_config.m_authData)
          else if sampleFreshCDSDK.m_config.m_authType = .AuthorizationToken then
            ("Authorization", "Bearer " ++ sampleFreshCDSDK.m_config.m_authData)
          else ("X-Search-DelegationRPSToken", sampleFreshCDSDK.m_config.m_authData)] :=
  ⟨by decide,
    ((C35_connection_headers sampleConstants sampleEncode sampleConnectEnv sampleFreshCDSDK
      (by decide)).1 ("wss://" ++ sampleConstants.CDSDK_url ++ "?format=detailed")
      [("X-Output-AudioCodec", "riff-16khz-16bit-mono-pcm"), ("User-Agent", "agent"),
        ("Authorization", "Bearer tok")] "c0" (by decide)).2.2⟩

/-! ## The speech request id after `turn.end` -/

theorem OnTransportData_turnEnd (lib : Lib) (h : HttpHeaders) (buffer : Buffer) (size : Nat)
    (c : Impl) (rid : String)
    (hrid : HTTPHeaders_FindHeaderValue h headers.requestId = some rid)
    (hne : rid ≠ "") (hact : rid ∈ c.m_activeRequestIds)
    (hpath : HTTPHeaders_FindHeaderValue h KEYWORD_PATH = some path.turnEnd)
    (hbody : size = 0 ∨
      (HTTPHeaders_FindHeaderValue h headers.contentType ≠ none ∧
        lib.parse (buffer.take size) ≠ none)) :
    OnTransportData lib (some h) buffer size 0 c
      = onTurnEnd rid [Call.metrics_received_message rid path.turnEnd] c := by
  have hd : ∀ ct, dispatch lib rid path.turnEnd ct buffer size c
      = onTurnEnd rid [Call.metrics_received_message rid path.turnEnd] c := by
    intro ct
    unfold dispatch
    rcases hbody with h0 | ⟨_, hp⟩
    · subst h0
      simp [path.turnEnd, path.translationSynthesis, path.speechStartDetected,
        path.speechEndDetected, path.turnStart]
    · obtain ⟨j, hj⟩ := Option.ne_none_iff_exists'.1 hp
      by_cases hs : size > 0
      · simp [hs, hj, path.turnEnd, path.translationSynthesis, path.speechStartDetected,
          path.speechEndDetected, path.turnStart]
      · simp [hs, path.turnEnd, path.translationSynthesis, path.speechStartDetected,
          path.speechEndDetected, path.turnStart]
  unfold OnTransportData
  rcases hbody with h0 | ⟨hct, _⟩
  · subst h0
    simp [hrid, hne, hact, hpath, hd]
  · simp [hrid, hne, hact, hpath, hd, hct]

/-- Counterexample to C36 as stated: after `Connect` and one agent message
the request id R1 is active and the speech request id is empty, hence not
R1; after the `turn.end` of R1 the speech request id is empty. -/
theorem C36_empty_without_having_been_rid :
    "R1" ∈ sampleAgentTurn.m_activeRequestIds ∧
    sampleAgentTurn.m_speechRequestId ≠ "R1" ∧
    (OnTransportData sampleLib (some (sampleHeaders "R1" "turn.end")) [] 0 0
      sampleAgentTurn).state.m_speechRequestId = "" ∧
    "R1" ∉ (OnTransportData sampleLib (some (sampleHeaders "R1" "turn.end")) [] 0 0
      sampleAgentTurn).state.m_activeRequestIds := by
  decide

/-- Claim C36, amended: for every connection state and every inbound
`turn.end` (error code 0, body empty or with a content type and parsing)
whose non-empty request id `rid` is active, the speech request id afterwards
is empty if it was `rid` and is what it was otherwise; so it is empty
afterwards if and only if it was `rid` or was already empty, and when it was
not empty before, it is empty afterwards if and only if it was `rid`. -/
theorem C36_speech_request_id_after_turn_end (lib : Lib) (h : HttpHeaders) (buffer : Buffer)
    (size : Nat) (c : Impl) (rid : String)
    (hrid : HTTPHeaders_FindHeaderValue h headers.requestId = some rid)
    (hne : rid ≠ "") (hact : rid ∈ c.m_activeRequestIds)
    (hpath : HTTPHeaders_FindHeaderValue h KEYWORD_PATH = some path.turnEnd)
    (hbody : size = 0 ∨
      (HTTPHeaders_FindHeaderValue h headers.contentType ≠ none ∧
        lib.parse (buffer.take size) ≠ none)) :
    (OnTransportData lib (some h) buffer size 0 c).state.m_speechRequestId
      = (if c.m_speechRequestId = rid then "" else c.m_speechRequestId) ∧
    ((OnTransportData lib (some h) buffer size 0 c).state.m_speechRequestId = "" ↔
      (c.m_speechRequestId = rid ∨ c.m_speechRequestId = "")) ∧
    (c.m_speechRequestId ≠ "" →
      ((OnTransportData lib (some h) buffer size 0 c).state.m_speechRequestId = "" ↔
        c.m_speechRequestId = rid)) := by
  have hs : (OnTransportData lib (some h) buffer size 0 c).state.m_speechRequestId
      = (if c.m_speechRequestId = rid then "" else c.m_speechRequestId) := by
    rw [OnTransportData_turnEnd lib h buffer size c rid hrid hne hact hpath hbody]
    simp only [onTurnEnd, deliver, endTurn]
    by_cases e : rid = c.m_speechRequestId
    · simp [e]
    · have e2 : ¬ c.m_speechRequestId = rid := fun x => e x.symm
      simp [e, e2]
  refine ⟨hs, ?_, ?_⟩
  · rw [hs]
    by_cases e : c.m_speechRequestId = rid
    · simp [e]
    · simp [e]
  · intro hn
    rw [hs]
    by_cases e : c.m_speechRequestId = rid
    · simp [e]
    · simp [e, hn]

/-- Witness of C36: the `turn.end` of R1, without a body, on the sample
connection with the turn R1 open. -/
theorem C36_speech_request_id_after_turn_end_witness :
    (OnTransportData sampleLib (some (sampleHeaders "R1" "turn.end")) [] 0 0
      sampleTurnOpen).state.m_speechRequestId
      = (if sampleTurnOpen.m_speechRequestId = "R1" then ""
        else sampleTurnOpen.m_speechRequestId) :=
  (C36_speech_request_id_after_turn_end sampleLib (sampleHeaders "R1" "turn.end") [] 0
    sampleTurnOpen "R1" (by decide) (by decide) (by decide) (by decide) (Or.inl rfl)).1

/-! ## `translation.phrase` with an error status -/

/-- Claim C39: on a connected connection with a non-zero audio offset,
`QueueAudioEnd` calls `TransportStreamFlush` once, with the speech request id,
sets the audio offset to 0 whatever the flush returns, throws `RuntimeError`
if and only if the flush returned a non-zero value (and nothing otherwise),
and leaves the speech request id and the active request ids as they were;
with the audio offset 0 it makes no call and leaves the state as it was. -/
theorem C39_audio_end_resets_offset (env : Env) (c : Impl) :
    (c.m_connected = true → c.m_audioOffset ≠ 0 →
      (QueueAudioEnd env c).calls
        = [.TransportStreamFlush c.m_speechRequestId, .metrics_audio_end c.m_speechRequestId] ∧
      (QueueAudioEnd env c).state.m_audioOffset = 0 ∧
      ((∃ what, (QueueAudioEnd env c).error = some (.RuntimeError what))
        ↔ env.TransportStreamFlush ≠ 0) ∧
      (env.TransportStreamFlush = 0 → (QueueAudioEnd env c).error = none) ∧
      (QueueAudioEnd env c).state.m_speechRequestId = c.m_speechRequestId ∧
      (QueueAudioEnd env c).state.m_activeRequestIds = c.m_activeRequestIds) ∧
    (c.m_audioOffset = 0 → QueueAudioEnd env c = ⟨c, [], none⟩) := by
  refine ⟨?_, ?_⟩
  · intro hc ho
    by_cases hf : env.TransportStreamFlush = 0
    · simp [QueueAudioEnd, hc, ho, hf, SignalWork]
    · simp [QueueAudioEnd, hc, ho, hf]
  · intro ho
    simp [QueueAudioEnd, ho]

/-- Witness of C39: the end of the audio stream on the sample connection
that has sent 4 bytes, with a transport whose flush fails. -/
theorem C39_audio_end_resets_offset_witness :
    (QueueAudioEnd sampleFailingFlushEnv sampleAudioSent).calls
      = [.TransportStreamFlush sampleAudioSent.m_speechRequestId,
         .metrics_audio_end sampleAudioSent.m_speechRequestId] ∧
    (QueueAudioEnd sampleFailingFlushEnv sampleAudioSent).state.m_audioOffset = 0 ∧
    ((∃ what, (QueueAudioEnd sampleFailingFlushEnv sampleAudioSent).error
        = some (.RuntimeError what))
      ↔ sampleFailingFlushEnv.TransportStreamFlush ≠ 0) ∧
    (sampleFailingFlushEnv.TransportStreamFlush = 0 →
      (QueueAudioEnd sampleFailingFlushEnv sampleAudioSent).error = none) ∧
    (QueueAudioEnd sampleFailingFlushEnv sampleAudioSent).state.m_speechRequestId
      = sampleAudioSent.m_speechRequestId ∧
    (QueueAudioEnd sampleFailingFlushEnv sampleAudioSent).state.m_activeRequestIds
      = sampleAudioSent.m_activeRequestIds :=
  (C39_audio_end_resets_offset sampleFailingFlushEnv sampleAudioSent).1 (by decide) (by decide)

/-! ## The NBest selection -/

theorem find_ext_mem {α : Type} (p q : α → Bool) :
    ∀ l : List α, (∀ x ∈ l, p x = q x) → l.find? p = l.find? q := by
  intro l
  induction l with
  | nil => intro _; rfl
  | cons a l ih =>
    intro h
    simp only [List.find?_cons, h a (List.mem_cons_self _ _)]
    rw [ih fun x hx => h x (List.mem_cons_of_mem _ hx)]

theorem exists_max_confidence :
    ∀ l : List (Rat × String), l ≠ [] → ∃ m ∈ l, ∀ y ∈ l, y.1 ≤ m.1 := by
  intro l
  induction l with
  | nil => intro h; exact absurd rfl h
  | cons a l ih =>
    intro _
    by_cases hl : l = []
    · subst hl
      exact ⟨a, List.mem_cons_self _ _, by simp⟩
    · obtain ⟨m, hm, hmax⟩ := ih hl
      by_cases ham : a.1 ≤ m.1
      · refine ⟨m, List.mem_cons_of_mem _ hm, ?_⟩
        intro y hy
        rcases List.mem_cons.1 hy with rfl | hy
        · exact ham
        · exact hmax y hy
      · refine ⟨a, List.mem_cons_self _ _, ?_⟩
        intro y hy
        rcases List.mem_cons.1 hy with rfl | hy
        · exact le_refl _
        · exact le_trans (hmax y hy) (le_of_lt (not_le.1 ham))

theorem nbestChoice_skip (conf : Rat) (disp : String) (e : Rat × String)
    (rest : List (Rat × String)) (h : ¬ conf < e.1) :
    nbestChoice conf disp (e :: rest) = nbestChoice conf disp rest := by
  unfold nbestChoice
  have he : decide (conf < e.1 ∧ ∀ y ∈ e :: rest, y.1 ≤ e.1) = false := by
    simp [h]
  rw [List.find?_cons, he]
  simp only
  rw [find_ext_mem _ (fun x => decide (conf < x.1 ∧ ∀ y ∈ rest, y.1 ≤ x.1)) rest]
  intro x _
  apply decide_eq_decide.2
  constructor
  · rintro ⟨h1, h2⟩
    exact ⟨h1, fun y hy => h2 y (List.mem_cons_of_mem _ hy)⟩
  · rintro ⟨h1, h2⟩
    refine ⟨h1, fun y hy => ?_⟩
    rcases List.mem_cons.1 hy with rfl | hy
    · exact le_of_lt (lt_of_le_of_lt (not_lt.1 h) h1)
    · exact h2 y hy

theorem nbestChoice_take (conf : Rat) (disp : String) (e : Rat × String)
    (rest : List (Rat × String)) (h : conf < e.1) :
    nbestChoice conf disp (e :: rest) = nbestChoice e.1 e.2 rest := by
  unfold nbestChoice
  by_cases hmax : ∀ y ∈ rest, y.1 ≤ e.1
  · have he : decide (conf < e.1 ∧ ∀ y ∈ e :: rest, y.1 ≤ e.1) = true := by
      simp only [decide_eq_true_eq]
      refine ⟨h, fun y hy => ?_⟩
      rcases List.mem_cons.1 hy with rfl | hy
      · exact le_refl _
      · exact hmax y hy
    have hnone : rest.find? (fun x => decide (e.1 < x.1 ∧ ∀ y ∈ rest, y.1 ≤ x.1)) = none := by
      rw [List.find?_eq_none]
      intro x hx
      simp only [decide_eq_true_eq, not_and]
      intro hlt
      exact absurd (hmax x hx) (not_le.2 hlt)
    rw [List.find?_cons, he, hnone]
  · have hex : ∃ y ∈ rest, e.1 < y.1 := by
      by_contra hno
      apply hmax
      intro y hy
      by_contra hle
      exact hno ⟨y, hy, not_le.1 hle⟩
    obtain ⟨y0, hy0, hlt0⟩ := hex
    have he : decide (conf < e.1 ∧ ∀ y ∈ e :: rest, y.1 ≤ e.1) = false := by
      simp only [decide_eq_false_iff_not, not_and]
      intro _ hall
      exact absurd (hall y0 (List.mem_cons_of_mem _ hy0)) (not_le.2 hlt0)
    have hsame : rest.find? (fun x => decide (conf < x.1 ∧ ∀ y ∈ e :: rest, y.1 ≤ x.1))
        = rest.find? (fun x => decide (e.1 < x.1 ∧ ∀ y ∈ rest, y.1 ≤ x.1)) := by
      apply find_ext_mem
      intro x _
      apply decide_eq_decide.2
      constructor
      · rintro ⟨_, h2⟩
        have hx := fun y hy => h2 y (List.mem_cons_of_mem _ hy)
        exact ⟨lt_of_lt_of_le hlt0 (hx y0 hy0), hx⟩
      · rintro ⟨h1, h2⟩
        refine ⟨lt_trans h h1, fun y hy => ?_⟩
        rcases List.mem_cons.1 hy with rfl | hy
        · exact le_of_lt h1
        · exact h2 y hy
    have hsome : ∃ z, rest.find? (fun x => decide (e.1 < x.1 ∧ ∀ y ∈ rest, y.1 ≤ x.1))
        = some z := by
      obtain ⟨m, hm, hmmax⟩ := exists_max_confidence rest (List.ne_nil_of_mem hy0)
      cases hf : rest.find? (fun x => decide (e.1 < x.1 ∧ ∀ y ∈ rest, y.1 ≤ x.1)) with
      | some z => exact ⟨z, rfl⟩
      | none =>
        rw [List.find?_eq_none] at hf
        exact absurd (by
          simp only [decide_eq_true_eq]
          exact ⟨lt_of_lt_of_le hlt0 (hmmax y0 hy0), hmmax⟩) (hf m hm)
    obtain ⟨z, hz⟩ := hsome
    rw [List.find?_cons, he]
    simp only
    rw [hsame, hz]

theorem selectNBest_choice :
    ∀ (items : List Json) (entries : List (Rat × String)) (conf : Rat) (disp : String),
      List.Forall₂ IsNBestEntry items entries →
      selectNBest items conf disp = .ok (nbestChoice conf disp entries) := by
  intro items entries conf disp h
  induction h generalizing conf disp with
  | nil => rfl
  | @cons item e _ _ hhead _ ih =>
    obtain ⟨⟨cj, hcj, hcv⟩, hd⟩ := hhead
    by_cases hgt : conf < e.1
    · rw [nbestChoice_take _ _ _ _ hgt, ← ih]
      simp [selectNBest, hcj, hcv, hd, hgt, Json.get_string, bind, Except.bind]
    · rw [nbestChoice_skip _ _ _ _ hgt, ← ih]
      simp [selectNBest, hcj, hcv, hgt, bind, Except.bind]

/-- Claim C40: a `speech.phrase` message (active request id, connected
connection with its callback set, numbers `Offset` and `Duration`) with the
status `Success`, no `DisplayText` and an `NBest` array whose elements have a
number `Confidence` and a string `Display` is delivered as exactly one
`OnSpeechPhrase` whose display text is the `Display` of the first element
whose confidence is strictly greater than 0 and is the maximum over the
array, and the empty string when the array is empty or no confidence is
strictly greater than 0. -/
theorem C40_nbest_selection (lib : Lib) (h : HttpHeaders) (buffer : Buffer) (size : Nat)
    (c : Impl) (rid : String) (members : List (String × Json))
    (offsetObj durationObj : Json) (offset duration : Nat) (items : List Json)
    (entries : List (Rat × String))
    (hc : c.m_connected = true) (hcb : c.m_callbacks = true)
    (hrid : HTTPHeaders_FindHeaderValue h headers.requestId = some rid)
    (hne : rid ≠ "") (hact : rid ∈ c.m_activeRequestIds)
    (hpath : HTTPHeaders_FindHeaderValue h KEYWORD_PATH = some path.speechPhrase)
    (hsize : size ≠ 0)
    (hct : HTTPHeaders_FindHeaderValue h headers.contentType ≠ none)
    (hparse : lib.parse (buffer.take size) = some (.object members))
    (hstatus : Json.lookup json_properties.recoStatus members = some (.string "Success"))
    (hoffset : Json.lookup json_properties.offset members = some offsetObj)
    (hoffsetv : offsetObj.get_uint64 = .ok offset)
    (hduration : Json.lookup json_properties.duration members = some durationObj)
    (hdurationv : durationObj.get_uint64 = .ok duration)
    (hdisplay : Json.lookup json_properties.displayText members = none)
    (hnbest : Json.lookup json_properties.nbest members = some (.array items))
    (hentries : List.Forall₂ IsNBestEntry items entries) :
    OnTransportData lib (some h) buffer size 0 c
      = ⟨c,
          [.metrics_received_message rid path.speechPhrase,
           .Invoke (.OnSpeechPhrase
             ⟨lib.dump (.object members), offset, duration, .Success,
               nbestChoice 0 "" entries⟩)],
          none⟩ ∧
    ((entries = [] ∨ ∀ e ∈ entries, e.1 ≤ 0) → nbestChoice 0 "" entries = "") := by
  refine ⟨?_, ?_⟩
  · rw [OnTransportData_accepted lib h buffer size c rid _ hrid hne hact hpath (fun _ => hct),
      dispatch_speechPhrase lib rid _ buffer size c (.object members) hsize hparse]
    have hsel := selectNBest_choice items entries 0 "" hentries
    have hp : onSpeechPhrase lib (.object members)
        = .ok [.OnSpeechPhrase
            ⟨lib.dump (.object members), offset, duration, .Success,
              nbestChoice 0 "" entries⟩] := by
      simp [onSpeechPhrase, Json.index, Json.find, Json.at_, Json.get_string, Json.items,
        ToRecognitionStatus, hstatus, hoffset, hoffsetv, hduration, hdurationv, hdisplay,
        hnbest, hsel, bind, Except.bind, pure, Except.pure]
    rw [hp, deliver_ok c _ _ hc hcb]
    rfl
  · intro hnone
    unfold nbestChoice
    have : entries.find? (fun e => decide (0 < e.1 ∧ ∀ y ∈ entries, y.1 ≤ e.1)) = none := by
      rw [List.find?_eq_none]
      intro x hx
      simp only [decide_eq_true_eq, not_and]
      intro hpos
      rcases hnone with hnil | hle
      · rw [hnil] at hx
        exact absurd hx (List.not_mem_nil _)
      · exact absurd (hle x hx) (not_le.2 hpos)
    rw [this]

/-- Witness of C40: the detailed `speech.phrase` of scenario 5 of §8, with the
confidences 0.5, 0.9 and 0.8: the display text is `b`. -/
theorem C40_nbest_selection_witness :
    OnTransportData (sampleLibFor (.object sampleNBestMembers))
        (some (sampleJsonHeaders "R1" "speech.phrase")) [1] 1 0 sampleTurnOpen
      = ⟨sampleTurnOpen,
          [.metrics_received_message "R1" path.speechPhrase,
           .Invoke (.OnSpeechPhrase
             ⟨(sampleLibFor (.object sampleNBestMembers)).dump (.object sampleNBestMembers),
               0, 100, .Success,
               nbestChoice 0 ""
                 [(Rat.divInt 1 2, "a"), (Rat.divInt 9 10, "b"), (Rat.divInt 4 5, "c")]⟩)],
          none⟩ ∧
    nbestChoice 0 "" [(Rat.divInt 1 2, "a"), (Rat.divInt 9 10, "b"), (Rat.divInt 4 5, "c")]
      = "b" :=
  ⟨(C40_nbest_selection (sampleLibFor (.object sampleNBestMembers))
      (sampleJsonHeaders "R1" "speech.phrase") [1] 1 sampleTurnOpen "R1" sampleNBestMembers
      (.number_integer 0) (.number_integer 100) 0 100
      [.object [("Confidence", .number_float (Rat.divInt 1 2)), ("Display", .string "a")],
       .object [("Confidence", .number_float (Rat.divInt 9 10)), ("Display", .string "b")],
       .object [("Confidence", .number_float (Rat.divInt 4 5)), ("Display", .string "c")]]
      [(Rat.divInt 1 2, "a"), (Rat.divInt 9 10, "b"), (Rat.divInt 4 5, "c")]
      (by decide) (by decide) (by decide) (by decide) (by decide) (by decide) (by decide)
      (by decide) rfl rfl rfl rfl rfl rfl rfl rfl
      (.cons ⟨⟨_, rfl, rfl⟩, rfl⟩ (.cons ⟨⟨_, rfl, rfl⟩, rfl⟩
        (.cons ⟨⟨_, rfl, rfl⟩, rfl⟩ .nil)))).1,
    by decide⟩

/-! ## The translations map -/

theorem mapLookup_absent (m : List (String × String)) (k : String)
    (h : m.any (fun p => decide (p.1 = k)) = false) : mapLookup m k = none := by
  unfold mapLookup
  rw [Option.map_eq_none', List.find?_eq_none]
  intro x hx
  have := List.any_eq_false.1 h x hx
  simpa using this

theorem mapLookup_map (m : List (String × String)) (k v l : String) :
    mapLookup (m.map fun p => if p.1 = k then (k, v) else p) l
      = if l = k then (if m.any (fun p => decide (p.1 = k)) then some v else none)
        else mapLookup m l := by
  induction m with
  | nil => simp [mapLookup]
  | cons a m ih =>
    unfold mapLookup at ih ⊢
    by_cases hak : a.1 = k
    · by_cases hlk : l = k
      · simp [List.find?_cons, hak, hlk]
      · have hkl : ¬ k = l := fun e => hlk e.symm
        simp only [List.map_cons, hak, if_true, List.find?_cons, hkl, decide_False, hlk,
          if_false] at ih ⊢
        exact ih
    · by_cases hal : a.1 = l
      · have hlk : ¬ l = k := fun e => hak (hal.trans e)
        simp [List.find?_cons, hak, hal, hlk]
      · simp only [List.map_cons, hak, if_false, List.find?_cons, hal, decide_False,
          List.any_cons, Bool.false_or] at ih ⊢
        exact ih

theorem mapLookup_mapAssign (m : List (String × String)) (k v l : String) :
    mapLookup (mapAssign m k v) l = if l = k then some v else mapLookup m l := by
  unfold mapAssign
  by_cases hany : m.any (fun p => decide (p.1 = k)) = true
  · rw [if_pos hany, mapLookup_map]
    by_cases hlk : l = k <;> simp [hlk, hany]
  · rw [if_neg hany]
    have habs := mapLookup_absent m k (Bool.eq_false_iff.2 hany)
    unfold mapLookup at habs ⊢
    rw [List.find?_append]
    by_cases hlk : l = k
    · subst hlk
      rw [Option.map_eq_none'] at habs
      simp [habs]
    · have hkl : ¬ k = l := fun e => hlk e.symm
      simp [hlk, hkl]

theorem translationsLookup_cons (e : String × String) (rest : List (String × String))
    (l : String) :
    translationsLookup (e :: rest) l
      = (translationsLookup rest l).or
          (if (e.1 = "" ∧ e.2 = "") then none else if e.1 = l then some e.2 else none) := by
  unfold translationsLookup
  by_cases hempty : e.1 = "" ∧ e.2 = ""
  · simp [List.filter_cons, hempty.1, hempty.2]
  · have hk : (!(decide (e.1 = "") && decide (e.2 = ""))) = true := by
      by_cases h1 : e.1 = ""
      · by_cases h2 : e.2 = ""
        · exact absurd ⟨h1, h2⟩ hempty
        · simp [h2]
      · simp [h1]
    rw [List.filter_cons, if_pos hk, List.reverse_cons, List.find?_append, if_neg hempty]
    by_cases hl : e.1 = l
    · cases hf : List.find? (fun e => decide (e.1 = l))
          (List.filter (fun e => !(decide (e.1 = "") && decide (e.2 = ""))) rest).reverse <;>
        simp [hl]
    · cases hf : List.find? (fun e => decide (e.1 = l))
          (List.filter (fun e => !(decide (e.1 = "") && decide (e.2 = ""))) rest).reverse <;>
        simp [hl]

theorem collectTranslations_lookup :
    ∀ (items : List Json) (entries : List (String × String)) (acc : List (String × String)),
      List.Forall₂ IsTranslationEntry items entries →
      ∃ m, collectTranslations items acc = .ok m ∧
        (∀ l, mapLookup m l = (translationsLookup entries l).or (mapLookup acc l)) ∧
        ((∀ e ∈ entries, e.1 = "" ∧ e.2 = "") → m = acc) := by
  intro items entries acc h
  induction h generalizing acc with
  | nil => exact ⟨acc, rfl, by simp [translationsLookup], fun _ => rfl⟩
  | @cons item e _ rest hhead _ ih =>
    obtain ⟨hl, ht⟩ := hhead
    by_cases hempty : e.1 = "" ∧ e.2 = ""
    · obtain ⟨m, hm, hlook, hall⟩ := ih acc
      refine ⟨m, ?_, ?_, ?_⟩
      · simp [collectTranslations, hl, ht, Json.get_string, hempty, hm, bind, Except.bind]
      · intro l
        rw [hlook l, translationsLookup_cons, if_pos hempty]
        simp
      · intro hx
        exact hall fun x hx2 => hx x (List.mem_cons_of_mem _ hx2)
    · obtain ⟨m, hm, hlook, _⟩ := ih (mapAssign acc e.1 e.2)
      refine ⟨m, ?_, ?_, ?_⟩
      · simp only [collectTranslations, hl, ht, Json.get_string, bind, Except.bind]
        rw [if_neg hempty]
        exact hm
      · intro l
        rw [hlook l, translationsLookup_cons, if_neg hempty, mapLookup_mapAssign]
        by_cases hel : e.1 = l
        · subst hel
          cases translationsLookup rest e.1 <;> simp
        · have hle : ¬ l = e.1 := fun x => hel x.symm
          cases translationsLookup rest l <;> simp [hel, hle]
      · intro hx
        exact absurd (hx e (List.mem_cons_self _ _)) hempty

/-- Claim C38: for a JSON object with a `Translation` member whose
`FailureReason` is a string or absent. When the `Translations` array is read
(status not expected, or `TranslationStatus` equal to `Success`) and its
entries have strings `Language` and `Text`, the result is not an error and
its map sends each language to the text of the last entry with that language
among the entries that are not both-empty (so an entry with an empty language
and a non-empty text is stored under the empty key), and the map is empty when
every entry is both-empty. When the status is expected and
`TranslationStatus` is missing or is a string other than `Success`, the map is
empty whatever `Translations` is; a missing status gives InvalidMessage with
the failure reason `Status is missing in the protocol message. Response
text:`, the message, and then the `FailureReason` field if present. -/
theorem C38_translations_map (lib : Lib) (members : List (String × Json)) (tr : Json)
    (failure : Option String)
    (htr : Json.lookup json_properties.translation members = some tr)
    (hfailure : tr.find json_properties.translationFailureReason = failure.map Json.string) :
    (∀ (translations : Json) (entries : List (String × String)),
      tr.at_ json_properties.translations = .ok translations →
      List.Forall₂ IsTranslationEntry translations.items entries →
      (∃ m, RetrieveTranslationResult lib (.object members) false
          = .ok ⟨lib.defaultTranslationStatus, "", m⟩ ∧
        (∀ l, mapLookup m l = translationsLookup entries l) ∧
        ((∀ e ∈ entries, e.1 = "" ∧ e.2 = "") → m = [])) ∧
      (tr.find json_properties.translationStatus = some (.string "Success") →
        ∃ m, RetrieveTranslationResult lib (.object members) true
            = .ok ⟨.Success, failure.getD "", m⟩ ∧
          (∀ l, mapLookup m l = translationsLookup entries l) ∧
          ((∀ e ∈ entries, e.1 = "" ∧ e.2 = "") → m = []))) ∧
    (tr.find json_properties.translationStatus = none →
      RetrieveTranslationResult lib (.object members) true
        = .ok ⟨.InvalidMessage,
            "Status is missing in the protocol message. Response text:"
              ++ lib.dump (.object members) ++ failure.getD "", []⟩) ∧
    (∀ s, tr.find json_properties.translationStatus = some (.string s) → s ≠ "Success" →
      RetrieveTranslationResult lib (.object members) true
        = .ok ⟨ToTranslationStatus s, failure.getD "", []⟩) := by
  refine ⟨?_, ?_, ?_⟩
  · intro translations entries htranslations hentries
    obtain ⟨m, hm, hlook, hall⟩ :=
      collectTranslations_lookup translations.items entries [] hentries
    have hlook2 : ∀ l, mapLookup m l = translationsLookup entries l := by
      intro l
      rw [hlook l]
      cases translationsLookup entries l <;> simp [mapLookup]
    refine ⟨⟨m, ?_, hlook2, hall⟩, ?_⟩
    · unfold RetrieveTranslationResult
      simp [htr, htranslations, hm, bind, Except.bind, pure, Except.pure]
    · intro hstatus
      exact ⟨m, RetrieveTranslationResult_success lib members tr translations failure m htr
        hstatus hfailure htranslations hm, hlook2, hall⟩
  · intro hstatus
    unfold RetrieveTranslationResult
    cases failure <;>
      simp_all [Json.get_string, bind, Except.bind, pure, Except.pure]
  · intro s hstatus hs
    have hts : ToTranslationStatus s ≠ .Success :=
      fun e => hs ((ToTranslationStatus_eq_success s).1 e)
    unfold RetrieveTranslationResult
    cases failure <;>
      simp_all [Json.get_string, bind, Except.bind, pure, Except.pure]

/-- Witness of C38: the sample `Translations` array, read without a status:
`de` is sent to `b`, the empty key to `x`. -/
theorem C38_translations_map_witness :
    (∃ m, RetrieveTranslationResult sampleLib (.object sampleTranslationsMembers) false
        = .ok ⟨sampleLib.defaultTranslationStatus, "", m⟩ ∧
      (∀ l, mapLookup m l
        = translationsLookup [("de", "a"), ("", ""), ("de", "b"), ("", "x")] l) ∧
      ((∀ e ∈ [("de", "a"), ("", ""), ("de", "b"), ("", "x")], e.1 = "" ∧ e.2 = "") → m = [])) ∧
    translationsLookup [("de", "a"), ("", ""), ("de", "b"), ("", "x")] "de" = some "b" ∧
    translationsLookup [("de", "a"), ("", ""), ("de", "b"), ("", "x")] "" = some "x" ∧
    translationsLookup [("de", "a"), ("", ""), ("de", "b"), ("", "x")] "fr" = none :=
  ⟨((C38_translations_map sampleLib sampleTranslationsMembers
      (.object [("Translations", .array sampleTranslationItems)]) none rfl rfl).1
      (.array sampleTranslationItems) [("de", "a"), ("", ""), ("de", "b"), ("", "x")] rfl
      (.cons ⟨rfl, rfl⟩ (.cons ⟨rfl, rfl⟩ (.cons ⟨rfl, rfl⟩ (.cons ⟨rfl, rfl⟩ .nil))))).1,
    by decide, by decide, by decide⟩

end USP
